import Mathlib

/-!
Event relay: the configuration reload engine, the control word and the
graphite worker.

A shallow embedding of `src/config.c` (the loader, the validator, the persister
and `config_reload`), of `src/control.c` and of `src/graphite_worker.c`
(`graphite_worker_destroy`, `graphite_build`, `graphite_wait` and the body of
the worker loop), together with the properties stated about them.

Conventions of the embedding.

* A C string is the list of its characters before the terminating NUL
  (`CStr`).  A raw buffer read by `getline` may contain NUL characters; it is
  turned into a C string by `cstr`.
* The numeric configuration fields are the 32-bit unsigned values the
  validators take (`uint32_t`); they are natural numbers, reduced modulo
  `2 ^ 32` where the C code stores a `long` into them.
* Everything the code asks of the outside world (file contents, `stat`,
  the address parser `socketize`, the system calls of the persister, the
  clock) is a field of `Env` or an argument, fixed for the duration of one
  call; the validation that `config_reload` makes after the loader has made
  its own may read a second world (`config_reload_rechecked`).
* Output through `SAY`, `WARN`, `DIE_RC`, `openlog`, `closelog` and the system
  calls of the persister is collected, in program order, in a list of `Event`s;
  the calls of `config_save` made by `config_reload` are recorded with their
  arguments.
* A word shared between threads is a natural number below `2 ^ 32`; an
  atomic update is one step on it, and the values that successive reads of a
  word yield while other threads run are given by a function of the read
  number.
* A loop that may not end takes a bound on its iterations and yields `none`
  when the bound is reached.
-/

namespace Relay

/-! ## C strings and the libc functions used by `config.c` -/

/-- A C string: the characters before the terminating NUL. -/
abbrev CStr := List Char

/-- The NUL character. -/
def NUL : Char := Char.ofNat 0

/-- The C string held by a raw character buffer: everything before the first NUL. -/
def cstr (buf : List Char) : CStr := buf.takeWhile (fun c => c != NUL)

/-- The libc predicate `isspace` in the C locale: space, `\t`, `\n`, `\v`, `\f`, `\r`. -/
def isspace (c : Char) : Bool := c.toNat = 32 || (9 ≤ c.toNat && c.toNat ≤ 13)

/-- The libc predicate `isdigit`. -/
def isdigit (c : Char) : Bool := 48 ≤ c.toNat && c.toNat ≤ 57

/-- The libc predicate `isalnum` in the C locale: ASCII letters and digits. -/
def isalnum (c : Char) : Bool :=
  isdigit c || (65 ≤ c.toNat && c.toNat ≤ 90) || (97 ≤ c.toNat && c.toNat ≤ 122)

/-- The effect of `if ((p = strchr(s, c))) *p = 0;`: cut the string at the first `c`. -/
def cut_at (c : Char) (s : CStr) : CStr := s.takeWhile (fun d => d != c)

/-- The libc call `strchr(s, c)` for `c` not NUL: the suffix of `s` starting at the
first `c`, when there is one. -/
def strchr (s : CStr) (c : Char) : Option CStr :=
  match s.dropWhile (fun d => d != c) with
  | [] => none
  | p => some p

/-- Modelled from the spec: `trim_space` of `string_util.c`, which is not among the
sources.  The loader "strips ... surrounding whitespace": the white space at both
ends of the string is removed. -/
def trim_space (s : CStr) : CStr :=
  ((s.dropWhile isspace).reverse.dropWhile isspace).reverse

/-- Modelled from the spec: the macro `STREQ` of `string_util.h`, which is not among
the sources: the two strings are equal (`strcmp` returns 0). -/
def STREQ (a b : CStr) : Bool := a == b

/-- Modelled from the spec: the macro `STRNE` of `string_util.h`, which is not among
the sources: the two strings differ (`strcmp` returns non-zero). -/
def STRNE (a b : CStr) : Bool := a != b

/-- The largest value of a C `long` (LP64). -/
def LONG_MAX : Int := 2 ^ 63 - 1

/-- The smallest value of a C `long` (LP64). -/
def LONG_MIN : Int := -(2 ^ 63)

/-- The value of a run of decimal digits, read left to right from the accumulator `acc`. -/
def digits_value (acc : Nat) : List Char → Nat
  | [] => acc
  | c :: cs => digits_value (acc * 10 + (c.toNat - 48)) cs

/-- The libc call `strtol(p, &endp, 10)`: skip white space, read an optional sign
and the longest run of decimal digits.  The result is the value, clamped to the
range of `long`, and the string left at `endp`; without any digit the value is 0
and `endp` is `p` itself. -/
def strtol (p : CStr) : Int × CStr :=
  let q := p.dropWhile isspace
  let neg : Bool := q.head? = some '-'
  let r := if q.head? = some '-' ∨ q.head? = some '+' then q.tail else q
  let ds := r.takeWhile isdigit
  let rest := r.dropWhile isdigit
  if ds = [] then (0, p)
  else
    let m : Int := (digits_value 0 ds : Nat)
    let v : Int := if neg then -m else m
    (max LONG_MIN (min LONG_MAX v), rest)

/-- Conversion of a `long` to `uint32_t`: reduction modulo `2 ^ 32`. -/
def to_uint32 (v : Int) : Nat := (v % 2 ^ 32).toNat

/-- The decimal digits of a natural number. -/
def decimal (n : Nat) : CStr := Nat.toDigits 10 n

/-- The decimal text of an integer, as `%ld` prints it. -/
def fmt_ld (v : Int) : CStr :=
  if v < 0 then '-' :: decimal v.natAbs else decimal v.natAbs

/-- The text `%d` prints for a 32-bit value: the value read as a signed `int`. -/
def fmt_d (v : Nat) : CStr :=
  if v % 2 ^ 32 < 2 ^ 31 then decimal (v % 2 ^ 32)
  else '-' :: decimal (2 ^ 32 - v % 2 ^ 32)

/-- The lines `getline` returns for a file content, in order: each line keeps its
terminating newline; a last line without newline is returned as it is. -/
def getlines_aux : List Char → List Char → List (List Char)
  | acc, [] => if acc = [] then [] else [acc.reverse]
  | acc, c :: cs =>
    if c = '\n' then (c :: acc).reverse :: getlines_aux [] cs
    else getlines_aux (c :: acc) cs

/-- The sequence of lines read by the `getline` loop. -/
def getlines (content : List Char) : List (List Char) := getlines_aux [] content

/-! ## The outside world and the output of the program -/

/-- An argument of a log format string. -/
inductive Arg where
  /-- An integer argument (`%d`, `%ld`). -/
  | num (v : Int)
  /-- A string argument (`%s`). -/
  | str (s : CStr)
  /-- A NULL pointer passed for `%s`. -/
  | null
  /-- The text `strerror(errno)`. -/
  | errno
  deriving DecidableEq, Repr

/-- One observable action of the program, in program order. -/
inductive Event where
  /-- A message logged through the macro `SAY`: format string and arguments. -/
  | say (fmt : String) (args : List Arg)
  /-- A message logged through the macro `WARN`: format string and arguments. -/
  | warn (fmt : String) (args : List Arg)
  /-- The macro `DIE_RC`: a last message, then the process exits with `rc`. -/
  | die (rc : Nat) (fmt : String) (args : List Arg)
  /-- A call of `closelog()`. -/
  | closelog
  /-- A call of `openlog`; the flag tells whether `LOG_PERROR` is requested. -/
  | openlog (perror : Bool)
  /-- A call of `mkstemp` on a template. -/
  | mkstemp (template : CStr)
  /-- A call of `write(fd, data, length of data)`. -/
  | write (fd : Int) (data : CStr)
  /-- A call of `close(fd)`. -/
  | close (fd : Int)
  /-- A call of `rename(src, dst)`. -/
  | rename (src dst : CStr)
  deriving DecidableEq, Repr

/-- The protocol number `IPPROTO_TCP`. -/
def IPPROTO_TCP : Nat := 6

/-- The protocol number `IPPROTO_UDP`. -/
def IPPROTO_UDP : Nat := 17

/-- The connection direction `RELAY_CONN_IS_INBOUND` of `socket_util.h`. -/
def RELAY_CONN_IS_INBOUND : Nat := 0

/-- The connection direction `RELAY_CONN_IS_OUTBOUND` of `socket_util.h`. -/
def RELAY_CONN_IS_OUTBOUND : Nat := 1

/-- What `config.c` obtains from the operating system and from the rest of the
relay; every answer is a function of the arguments. -/
structure Env where
  /-- The content of the file `fopen(file, "r")` opens, `none` when the open fails. -/
  fopen : CStr → Option (List Char)
  /-- The call `stat(path, &st)`: the return code, and the value of
  `S_ISDIR(st.st_mode)` read from `st` afterwards (when `stat` fails the
  buffer is not written, and this is whatever the stack held). -/
  stat : CStr → Int × Bool
  /-- The address parser `socketize(arg, &s, default_proto, conn_dir, role)` of
  `util.c`, as tested by `is_valid_socketize`: whether it returns non-zero. -/
  socketize : CStr → Nat → Nat → Bool
  /-- The libc call `dirname(temp)`: the content of `temp` afterwards and the
  string returned. -/
  dirname : CStr → CStr × CStr
  /-- The libc call `mkstemp(temp)`: the descriptor (`none` for `-1`) and the
  content of `temp` afterwards: the name of the file created or, after a
  failure, whatever libc left in place of the template. -/
  mkstemp : CStr → Option Int × CStr
  /-- The system call `write(fd, buf, n)`: the number of bytes written or `-1`. -/
  write : Int → CStr → Int
  /-- The system call `close(fd)`: its return code. -/
  close : Int → Int
  /-- The system call `rename(src, dst)`: its return code. -/
  rename : CStr → CStr → Int

/-! ## The configuration (`config.h`) -/

/-- The telemetry part of the configuration (`config->graphite`). -/
structure graphite_config where
  addr : CStr
  target : CStr
  send_interval_millisec : Nat
  sleep_poll_interval_millisec : Nat
  deriving DecidableEq, Repr

/-- Modelled from the spec: the type `config_t` of `config.h`, which is not among
the sources; the fields are those `config.c` reads and writes.  `argv` is the
address list (`argc` is its length), `file` is `none` for a NULL path, the
numeric options are 32-bit unsigned values, `generation` is the spec's
monotonic counter (a natural number) and the three epochs are `time_t`
values. -/
structure config_t where
  argv : List CStr
  file : Option CStr
  generation : Nat
  epoch_attempt : Int
  epoch_changed : Int
  epoch_success : Int
  syslog_to_stderr : Nat
  tcp_send_timeout_sec : Nat
  polling_interval_millisec : Nat
  sleep_after_disaster_millisec : Nat
  server_socket_rcvbuf_bytes : Nat
  spillway_root : CStr
  spill_usec : Nat
  graphite : graphite_config
  deriving DecidableEq, Repr

/-- The address count `config->argc`. -/
def config_t.argc (config : config_t) : Nat := config.argv.length

/-- The constants `DEFAULT_...` of `config.h`, which is not among the sources. -/
structure Defaults where
  SYSLOG_TO_STDERR : Nat
  TCP_SEND_TIMEOUT_SEC : Nat
  POLLING_INTERVAL_MILLISEC : Nat
  SLEEP_AFTER_DISASTER_MILLISEC : Nat
  SERVER_SOCKET_RCVBUF_BYTES : Nat
  SPILL_USEC : Nat
  SPILLWAY_ROOT : CStr
  GRAPHITE_ADDR : CStr
  GRAPHITE_TARGET : CStr
  GRAPHITE_SEND_INTERVAL_MILLISEC : Nat
  GRAPHITE_SLEEP_POLL_INTERVAL_MILLISEC : Nat

/-- The zeroed structure `calloc_or_die(sizeof(config_t))` returns. -/
def config_calloc : config_t :=
  { argv := [], file := none, generation := 0,
    epoch_attempt := 0, epoch_changed := 0, epoch_success := 0,
    syslog_to_stderr := 0, tcp_send_timeout_sec := 0,
    polling_interval_millisec := 0, sleep_after_disaster_millisec := 0,
    server_socket_rcvbuf_bytes := 0, spillway_root := [], spill_usec := 0,
    graphite := { addr := [], target := [], send_interval_millisec := 0,
                  sleep_poll_interval_millisec := 0 } }

/-- The function `config_set_defaults`. -/
def config_set_defaults (D : Defaults) (config : config_t) : config_t :=
  { config with
    syslog_to_stderr := D.SYSLOG_TO_STDERR
    tcp_send_timeout_sec := D.TCP_SEND_TIMEOUT_SEC
    polling_interval_millisec := D.POLLING_INTERVAL_MILLISEC
    sleep_after_disaster_millisec := D.SLEEP_AFTER_DISASTER_MILLISEC
    server_socket_rcvbuf_bytes := D.SERVER_SOCKET_RCVBUF_BYTES
    spill_usec := D.SPILL_USEC
    spillway_root := D.SPILLWAY_ROOT
    graphite := { addr := D.GRAPHITE_ADDR
                  target := D.GRAPHITE_TARGET
                  send_interval_millisec := D.GRAPHITE_SEND_INTERVAL_MILLISEC
                  sleep_poll_interval_millisec := D.GRAPHITE_SLEEP_POLL_INTERVAL_MILLISEC } }

/-- The messages of the function `config_dump`. -/
def config_dump (config : config_t) : List Event :=
  [ .say "config->syslog_to_stderr = %d" [.num config.syslog_to_stderr],
    .say "config->tcp_send_timeout_sec = %d" [.num config.tcp_send_timeout_sec],
    .say "config->polling_interval_millisec = %d" [.num config.polling_interval_millisec],
    .say "config->sleep_after_disaster_millisec = %d"
      [.num config.sleep_after_disaster_millisec],
    .say "config->server_socket_rcvbuf_bytes = %d" [.num config.server_socket_rcvbuf_bytes],
    .say "config->spillway_root = %s" [.str config.spillway_root],
    .say "config->spill_usec = %d" [.num config.spill_usec],
    .say "config->graphite.addr = %s" [.str config.graphite.addr],
    .say "config->graphite.target = %s" [.str config.graphite.target],
    .say "config->graphite.send_interval_millisec = %d"
      [.num config.graphite.send_interval_millisec],
    .say "config->graphite.sleep_poll_interval_millisec = %d"
      [.num config.graphite.sleep_poll_interval_millisec] ]
  ++ (match config.argv with
      | [] => []
      | a :: _ => [.say "listener address = %s" [.str a]])
  ++ config.argv.tail.map (fun a => .say "forward address = %s" [.str a])

/-! ## The validator -/

/-- The function `is_non_empty_string`, for a non-NULL string. -/
def is_non_empty_string (s : CStr) : Bool := !s.isEmpty

/-- A character of a word of a graphite target: `isalnum(c) || c == '_'`. -/
def is_word_char (c : Char) : Bool := isalnum c || c = '_'

/-- The loop of `is_valid_graphite_target` from the pointer `p` on, together
with the final `return *p == 0`.  Every iteration consumes at least one
character, so `fuel` larger than the length of `p` is never exhausted. -/
def graphite_target_loop : Nat → CStr → Bool
  | 0, _ => false
  | fuel + 1, p =>
    match p with
    | [] => true
    | c :: _ =>
      if is_word_char c then
        match p.dropWhile is_word_char with
        | [] => true
        | d :: rest =>
          if d = '.' && (match rest with
                         | [] => false
                         | e :: _ => isalnum e) then
            graphite_target_loop fuel rest
          else false
      else false

/-- The function `is_valid_graphite_target`. -/
def is_valid_graphite_target (path : CStr) : Bool :=
  if !is_non_empty_string path then false
  else graphite_target_loop (path.length + 1) path

/-- The function `is_valid_socketize`. -/
def is_valid_socketize (env : Env) (arg : CStr) (default_proto connection_direction : Nat) :
    Bool :=
  if !is_non_empty_string arg then false
  else if !env.socketize arg default_proto connection_direction then false
  else true

/-- The function `is_valid_directory`. -/
def is_valid_directory (env : Env) (path : CStr) : Bool :=
  if !is_non_empty_string path then false
  else decide ((env.stat path).1 = 0) || (env.stat path).2

/-- The function `is_valid_millisec`. -/
def is_valid_millisec (millisec : Nat) : Bool := 0 < millisec && millisec ≤ 1000000

/-- The function `is_valid_microsec`. -/
def is_valid_microsec (microsec : Nat) : Bool := 0 < microsec && microsec ≤ 1000000

/-- The function `is_valid_sec`. -/
def is_valid_sec (sec : Nat) : Bool := 0 < sec && sec ≤ 60

/-- The function `is_valid_buffer_size`. -/
def is_valid_buffer_size (size : Nat) : Bool :=
  decide ((size &&& 4095) = 0) && decide ((1 <<< 20) ≤ size)

/-- The state of one run of `config_valid`: the counter `invalid` and the
messages logged so far. -/
structure Check where
  invalid : Nat
  trace : List Event

/-- The macro `CONFIG_VALID_STR`, applied to the outcome `ok` of the test. -/
def CONFIG_VALID_STR (ok : Bool) (name : String) (v : CStr) (k : Check) : Check :=
  if !ok then
    { invalid := k.invalid + 1,
      trace := k.trace ++ [.say "%s value '%s' invalid" [.str name.toList, .str v]] }
  else k

/-- The macro `CONFIG_VALID_SOCKETIZE`. -/
def CONFIG_VALID_SOCKETIZE (env : Env) (p d : Nat) (name : String) (v : CStr) (k : Check) :
    Check :=
  if !is_valid_socketize env v p d then
    { invalid := k.invalid + 1,
      trace := k.trace ++ [.say "%s value '%s' invalid" [.str name.toList, .str v]] }
  else k

/-- The macro `CONFIG_VALID_NUM`. -/
def CONFIG_VALID_NUM (t : Nat → Bool) (name : String) (v : Nat) (k : Check) : Check :=
  if !t v then
    { invalid := k.invalid + 1,
      trace := k.trace ++ [.say "%s value %d invalid" [.str name.toList, .num v]] }
  else k

/-- The run of `config_valid`: every rule in program order. -/
def config_valid_run (env : Env) (config : config_t) : Check :=
  let k : Check := { invalid := 0, trace := [] }
  let k := CONFIG_VALID_NUM is_valid_sec "tcp_send_timeout_sec" config.tcp_send_timeout_sec k
  let k := CONFIG_VALID_NUM is_valid_millisec "polling_interval_millisec"
    config.polling_interval_millisec k
  let k := CONFIG_VALID_NUM is_valid_millisec "sleep_after_disaster_millisec"
    config.sleep_after_disaster_millisec k
  let k := CONFIG_VALID_NUM is_valid_buffer_size "server_socket_rcvbuf_bytes"
    config.server_socket_rcvbuf_bytes k
  let k := CONFIG_VALID_STR (is_valid_directory env config.spillway_root) "spillway_root"
    config.spillway_root k
  let k := CONFIG_VALID_NUM is_valid_microsec "spill_usec" config.spill_usec k
  let k := CONFIG_VALID_SOCKETIZE env IPPROTO_TCP RELAY_CONN_IS_OUTBOUND "graphite.addr"
    config.graphite.addr k
  let k := CONFIG_VALID_STR (is_valid_graphite_target config.graphite.target)
    "graphite.target" config.graphite.target k
  let k := CONFIG_VALID_NUM is_valid_millisec "graphite.send_interval_millisec"
    config.graphite.send_interval_millisec k
  let k := CONFIG_VALID_NUM is_valid_millisec "graphite.sleep_poll_interval_millisec"
    config.graphite.sleep_poll_interval_millisec k
  let k :=
    match config.argv with
    | [] => { invalid := k.invalid + 1, trace := k.trace ++ [.say "Missing listener address" []] }
    | a :: _ => CONFIG_VALID_SOCKETIZE env IPPROTO_UDP RELAY_CONN_IS_INBOUND "argv[0]" a k
  let k :=
    if config.argc < 2 then
      { invalid := k.invalid + 1, trace := k.trace ++ [.say "Missing forward addresses" []] }
    else
      config.argv.tail.foldl
        (fun k a => CONFIG_VALID_SOCKETIZE env IPPROTO_TCP RELAY_CONN_IS_OUTBOUND "argv[i]" a k) k
  k

/-- The function `config_valid`: whether no rule was violated. -/
def config_valid (env : Env) (config : config_t) : Bool :=
  (config_valid_run env config).invalid = 0

/-! ## The loader -/

/-- The macro `TRY_NUM_OPT`: `none` when the name does not match (the next
alternative is tried), else the configuration after the `break`. -/
def TRY_NUM_OPT (name : String) (set : config_t → Nat → config_t) (line p : CStr)
    (config : config_t) : Option (config_t × List Event) :=
  if STREQ name.toList line then
    if (strtol p).2 = [] then some (set config (to_uint32 (strtol p).1), [])
    else some (config, [.warn "Ignoring strange config value %s=%s" [.str name.toList, .str p]])
  else none

/-- The macro `TRY_STR_OPT`: `none` when the name does not match, else the
configuration after the `break`. -/
def TRY_STR_OPT (name : String) (set : config_t → CStr → config_t) (line p : CStr)
    (config : config_t) : Option (config_t × List Event) :=
  if STREQ name.toList line then some (set config p, []) else none

/-- The block `TRY_OPT_BEGIN ... TRY_OPT_END` of `config_from_file`: the
alternatives in program order; `none` when no name matches (the load is
rejected). -/
def try_opt (line p : CStr) (config : config_t) : Option (config_t × List Event) :=
  (TRY_NUM_OPT "syslog_to_stderr" (fun c v => { c with syslog_to_stderr := v }) line p config)
  <|> (TRY_NUM_OPT "tcp_send_timeout_sec"
        (fun c v => { c with tcp_send_timeout_sec := v }) line p config)
  <|> (TRY_NUM_OPT "polling_interval_millisec"
        (fun c v => { c with polling_interval_millisec := v }) line p config)
  <|> (TRY_NUM_OPT "sleep_after_disaster_millisec"
        (fun c v => { c with sleep_after_disaster_millisec := v }) line p config)
  <|> (TRY_NUM_OPT "server_socket_rcvbuf_bytes"
        (fun c v => { c with server_socket_rcvbuf_bytes := v }) line p config)
  <|> (TRY_STR_OPT "spillway_root" (fun c v => { c with spillway_root := v }) line p config)
  <|> (TRY_NUM_OPT "spill_usec" (fun c v => { c with spill_usec := v }) line p config)
  <|> (TRY_STR_OPT "graphite.addr"
        (fun c v => { c with graphite := { c.graphite with addr := v } }) line p config)
  <|> (TRY_STR_OPT "graphite.target"
        (fun c v => { c with graphite := { c.graphite with target := v } }) line p config)
  <|> (TRY_NUM_OPT "graphite.send_interval_millisec"
        (fun c v => { c with graphite := { c.graphite with send_interval_millisec := v } })
        line p config)
  <|> (TRY_NUM_OPT "graphite.sleep_poll_interval_millisec"
        (fun c v => { c with graphite := { c.graphite with sleep_poll_interval_millisec := v } })
        line p config)

/-- The text of a line as the loop body sees it after the end-of-line comment
is cut and `trim_space` is applied. -/
def clean_line (raw : List Char) : CStr := trim_space (cut_at '#' (cstr raw))

/-- The `getline` loop of `config_from_file` over the lines still to read;
`line_num` counts the lines read so far.  The result is `none` when a line
rejects the load. -/
def config_from_file_loop (file : CStr) :
    Nat → List (List Char) → config_t → List Event → Option config_t × List Event
  | _, [], config, tr => (some config, tr)
  | line_num, raw :: more, config, tr =>
    let line_num := line_num + 1
    let line := clean_line raw
    if line = [] then config_from_file_loop file line_num more config tr
    else
      match strchr line '=' with
      | some p =>
        if p.length = 1 then
          (none, tr ++ [.say "Error in config file %s:%d: %s"
                          [.str file, .num line_num, .str line]])
        else
          match try_opt (cut_at '=' line) p.tail config with
          | some (config, w) => config_from_file_loop file line_num more config (tr ++ w)
          | none =>
            (none, tr ++ [.say "Error in config file %s:%d: bad config option: %s"
                            [.str file, .num line_num, .str (cut_at '=' line)]])
      | none =>
        config_from_file_loop file line_num more { config with argv := config.argv ++ [line] } tr

/-- The function `config_from_file`, with the messages it logs: `none` stands
for the NULL it returns on failure. -/
def config_from_file_run (env : Env) (D : Defaults) (file : Option CStr) :
    Option config_t × List Event :=
  let config := config_set_defaults D config_calloc
  match file with
  | none => (none, [.say "Config file unknown" []])
  | some file =>
    let tr : List Event := [.say "Loading config file %s" [.str file]]
    match env.fopen file with
    | none => (none, tr ++ [.say "Failed to open: %s (%s)" [.str file, .errno]])
    | some content =>
      match config_from_file_loop file 0 (getlines content) config tr with
      | (none, tr) => (none, tr)
      | (some config, tr) =>
        let tr := tr ++ [.say "Loaded config file %s" [.str file]]
        if !config_valid env config then
          (none, tr ++ (config_valid_run env config).trace ++ config_dump config
                    ++ [.say "Invalid configuration" []])
        else (some config, tr)

/-- The result of `config_from_file`. -/
def config_from_file (env : Env) (D : Defaults) (file : Option CStr) : Option config_t :=
  (config_from_file_run env D file).1

/-! ## The persister -/

/-- The structure `bufferf`: `buf` holds the bytes written so far, the field
`offset` of the C structure is their number. -/
structure bufferf where
  buf : CStr
  deriving DecidableEq, Repr

/-- The field `offset` of a `bufferf`. -/
def bufferf.offset (b : bufferf) : Nat := b.buf.length

/-- The function `append_to_bufferf`, applied to the text the format expands
to: the value returned and the buffer afterwards. -/
def append_to_bufferf (buf : bufferf) (text : CStr) : Nat × bufferf :=
  let room := 4096 - buf.offset
  let wrote := text.length
  if wrote ≥ room then (0, buf)
  else (wrote, { buf := buf.buf ++ text })

/-- The loop of `config_to_bufferf` over the address list. -/
def config_to_bufferf_argv : List CStr → bufferf → Nat × bufferf
  | [], buf => (1, buf)
  | a :: rest, buf =>
    let r := append_to_bufferf buf (a ++ ['\n'])
    if r.1 = 0 then (0, r.2) else config_to_bufferf_argv rest r.2

/-- The function `config_to_bufferf`: the value returned (1 or 0) and the
buffer afterwards. -/
def config_to_bufferf (config : config_t) (buf : bufferf) : Nat × bufferf :=
  let r := append_to_bufferf buf
    ("syslog_to_stderr = ".toList ++ fmt_d config.syslog_to_stderr ++ ['\n'])
  if r.1 = 0 then (0, r.2) else
  let r := append_to_bufferf r.2
    ("tcp_send_timeout_sec = ".toList ++ fmt_d config.tcp_send_timeout_sec ++ ['\n'])
  if r.1 = 0 then (0, r.2) else
  let r := append_to_bufferf r.2
    ("spillway_root = ".toList ++ config.spillway_root ++ ['\n'])
  if r.1 = 0 then (0, r.2) else
  let r := append_to_bufferf r.2
    ("spill_usec = ".toList ++ fmt_d config.spill_usec ++ ['\n'])
  if r.1 = 0 then (0, r.2) else
  let r := append_to_bufferf r.2
    ("polling_interval_millisec = ".toList ++ fmt_d config.polling_interval_millisec ++ ['\n'])
  if r.1 = 0 then (0, r.2) else
  let r := append_to_bufferf r.2
    ("sleep_after_disaster_millisec = ".toList
      ++ fmt_d config.sleep_after_disaster_millisec ++ ['\n'])
  if r.1 = 0 then (0, r.2) else
  let r := append_to_bufferf r.2
    ("server_socket_rcvbuf_bytes = ".toList ++ fmt_d config.server_socket_rcvbuf_bytes ++ ['\n'])
  if r.1 = 0 then (0, r.2) else
  let r := append_to_bufferf r.2
    ("graphite.addr = ".toList ++ config.graphite.addr ++ ['\n'])
  if r.1 = 0 then (0, r.2) else
  let r := append_to_bufferf r.2
    ("graphite.target = ".toList ++ config.graphite.target ++ ['\n'])
  if r.1 = 0 then (0, r.2) else
  let r := append_to_bufferf r.2
    ("graphite.send_interval_millisec = ".toList
      ++ fmt_d config.graphite.send_interval_millisec ++ ['\n'])
  if r.1 = 0 then (0, r.2) else
  let r := append_to_bufferf r.2
    ("graphite.sleep_poll_interval_millisec = ".toList
      ++ fmt_d config.graphite.sleep_poll_interval_millisec ++ ['\n'])
  if r.1 = 0 then (0, r.2) else
  config_to_bufferf_argv config.argv r.2

/-- The function `config_to_file`: the value returned and what it does. -/
def config_to_file (env : Env) (config : config_t) (fd : Int) : Bool × List Event :=
  let buf : bufferf := { buf := [] }
  let r := config_to_bufferf config buf
  if r.1 ≠ 0 then
    let wrote := env.write fd r.2.buf
    if wrote = (r.2.offset : Int) then (true, [.write fd r.2.buf])
    else
      (false, [.write fd r.2.buf,
               .warn "write() failed, tried writing %d but wrote %d: %s"
                 [.num r.2.offset, .num wrote, .errno],
               .warn "Failed to write config to file" []])
  else (false, [.warn "Failed to write config to file" []])

/-- The constant `PATH_MAX` of `limits.h`. -/
def PATH_MAX : Nat := 4096

/-- The text left in `temp` by `snprintf(temp + len, sizeof(temp) - len, sfx)`:
the first `len` characters are kept and the suffix, cut to the room left,
follows them; when `len` lies beyond the end of the string the terminating NUL
stays in front of what is written. -/
def snprintf_at (temp : CStr) (len : Nat) (sfx : CStr) : CStr :=
  if len ≤ temp.length then temp.take len ++ sfx.take (PATH_MAX - len - 1) else temp

/-- The function `config_save`: the value returned and what it does. -/
def config_save (env : Env) (config : config_t) (now : Int) : Bool × List Event :=
  match config.file with
  | none => (false, [.warn "Failed to save config with NULL name" []])
  | some file =>
    if PATH_MAX ≤ file.length then
      (false, [.warn "Failed to copy config filename %s" [.str file]])
    else
      let len := (env.dirname file).2.length
      let sfx := "/event-relay.conf.XXXXXX".toList
      let temp := snprintf_at (env.dirname file).1 len sfx
      let wrote := sfx.length
      if wrote ≥ PATH_MAX then
        (false, [.warn "Failed making filename %s: %s" [.str temp, .errno]])
      else
        match env.mkstemp temp with
        | (none, name) =>
          (false, [.mkstemp temp, .warn "Failed to mkstemp %s: %s" [.str name, .errno]])
        | (some fd, name) =>
          let tr : List Event := [.mkstemp temp]
          let temp := name
          let w := config_to_file env config fd
          if !w.1 then
            (false, tr ++ w.2 ++ [.warn "Failed to save config to %s: %s" [.str temp, .errno]])
          else
            let tr := tr ++ w.2 ++ [.close fd]
            if env.close fd = -1 then
              (false, tr ++ [.warn "Failed to close save config as %s: %s" [.str temp, .errno]])
            else
              let save := file ++ ".save.".toList ++ fmt_ld now
              if save.length ≥ PATH_MAX then
                (false, tr ++ [.warn "Failed to write %s as %s.save (wrote %d bytes)"
                                 [.str (save.take (PATH_MAX - 1)), .str (save.take (PATH_MAX - 1)),
                                  .num save.length]])
              else if env.rename temp save ≠ 0 then
                (false, tr ++ [.rename temp save,
                               .warn "Failed to rename %s as %s (%s)"
                                 [.str temp, .str save, .errno]])
              else
                (true, tr ++ [.rename temp save, .say "Saved config as %s" [.str save]])

/-! ## The reload controller -/

/-- The exit status `EXIT_FAILURE`. -/
def EXIT_FAILURE : Nat := 1

/-- How a call of `config_reload` ends. -/
inductive Outcome where
  /-- The process exits with the given status (`DIE_RC`). -/
  | exit (rc : Nat)
  /-- The call returns `config_changed`. -/
  | ret (config_changed : Nat)
  deriving DecidableEq, Repr

/-- A finished call of `config_reload`: how it ended, the live configuration it
leaves, everything it did in program order, and the arguments of each call of
`config_save` it made. -/
structure Reload where
  outcome : Outcome
  config : config_t
  trace : List Event
  saves : List (config_t × Int)

/-- The state of the merge in `config_reload`: the live configuration, the
variable `config_changed` and the events so far. -/
structure Merge where
  config : config_t
  config_changed : Nat
  trace : List Event

/-- The argument passed for `%s` for a string that may be NULL. -/
def Arg.ostr : Option CStr → Arg
  | none => .null
  | some s => .str s

/-- The macro `IF_NUM_OPT_CHANGED` for the option `name`, read by `get` and
written by `set`. -/
def IF_NUM_OPT_CHANGED (name : String) (get : config_t → Nat)
    (set : config_t → Nat → config_t) (new_config : config_t) (m : Merge) : Merge :=
  if get m.config ≠ get new_config then
    { config := set m.config (get new_config),
      config_changed := 1,
      trace := m.trace ++ [.say ("Changed '" ++ name ++ "' from '%d' to '%d'")
                             [.num (get m.config), .num (get new_config)]] }
  else m

/-- The macro `IF_STR_OPT_CHANGED` for the option `name`, read by `get` and
written by `set`. -/
def IF_STR_OPT_CHANGED (name : String) (get : config_t → CStr)
    (set : config_t → CStr → config_t) (new_config : config_t) (m : Merge) : Merge :=
  if STRNE (get m.config) (get new_config) then
    { config := set m.config (get new_config),
      config_changed := 1,
      trace := m.trace ++ [.say ("Changed '" ++ name ++ "' from '%s' to '%s'")
                             [.str (get m.config), .str (get new_config)]] }
  else m

/-- The word logged for the address at index `i`. -/
def socket_role (i : Nat) : Arg := .str (if i = 0 then "listen".toList else "forward".toList)

/-- The first address loop of `config_reload`, from index `i` on, over the old
addresses still to visit: the variable `config_changed` and the events. -/
def reload_old_addrs (generation : Nat) (new_argv : List CStr) :
    Nat → List CStr → Nat × List Event → Nat × List Event
  | _, [], k => k
  | i, old :: rest, k =>
    let k : Nat × List Event :=
      match new_argv[i]? with
      | some new =>
        if STRNE old new then
          if generation = 0 then
            (1, k.2 ++ [.say "Setting %s socket config to '%s'" [socket_role i, .str new]])
          else
            (1, k.2 ++ [.say "Changing %s socket config from '%s' to '%s'"
                          [socket_role i, .str old, .str new]])
        else k
      | none => (1, k.2 ++ [.say "Stopping forward socket to '%s'" [.str old]])
    reload_old_addrs generation new_argv (i + 1) rest k

/-- The second address loop of `config_reload`, from index `i` on, over the
new addresses beyond the old count. -/
def reload_new_addrs : Nat → List CStr → Nat × List Event → Nat × List Event
  | _, [], k => k
  | i, new :: rest, k =>
    reload_new_addrs (i + 1) rest
      (1, k.2 ++ [.say "Setting %s socket config to '%s'" [socket_role i, .str new]])

/-- The block of `config_reload` that handles `syslog_to_stderr` before the
other options: the log is re-opened with the new flag. -/
def reload_syslog (new_config : config_t) (m : Merge) : Merge :=
  if m.config.syslog_to_stderr ≠ new_config.syslog_to_stderr then
    { config := { m.config with syslog_to_stderr := new_config.syslog_to_stderr },
      config_changed := 1,
      trace := m.trace ++
        [.closelog, .openlog (decide (new_config.syslog_to_stderr ≠ 0)),
         if m.config.generation = 0 then
           .say "Setting 'syslog_to_stderr' to '%d'" [.num new_config.syslog_to_stderr]
         else
           .say "Changing 'syslog_to_stderr' from '%d' to '%d'"
             [.num m.config.syslog_to_stderr, .num new_config.syslog_to_stderr]] }
  else m

/-- The merge of `config_reload`: from `Merging new configuration with old` to
the assignment of the new address list. -/
def reload_merge (new_config : config_t) (m : Merge) : Merge :=
  let m := reload_syslog new_config m
  let m := IF_NUM_OPT_CHANGED "syslog_to_stderr" (fun c => c.syslog_to_stderr)
    (fun c v => { c with syslog_to_stderr := v }) new_config m
  let m := IF_NUM_OPT_CHANGED "tcp_send_timeout_sec" (fun c => c.tcp_send_timeout_sec)
    (fun c v => { c with tcp_send_timeout_sec := v }) new_config m
  let m := IF_NUM_OPT_CHANGED "polling_interval_millisec"
    (fun c => c.polling_interval_millisec)
    (fun c v => { c with polling_interval_millisec := v }) new_config m
  let m := IF_NUM_OPT_CHANGED "sleep_after_disaster_millisec"
    (fun c => c.sleep_after_disaster_millisec)
    (fun c v => { c with sleep_after_disaster_millisec := v }) new_config m
  let m := IF_NUM_OPT_CHANGED "server_socket_rcvbuf_bytes"
    (fun c => c.server_socket_rcvbuf_bytes)
    (fun c v => { c with server_socket_rcvbuf_bytes := v }) new_config m
  let m := IF_STR_OPT_CHANGED "spillway_root" (fun c => c.spillway_root)
    (fun c v => { c with spillway_root := v }) new_config m
  let m := IF_NUM_OPT_CHANGED "spill_usec" (fun c => c.spill_usec)
    (fun c v => { c with spill_usec := v }) new_config m
  let m := IF_STR_OPT_CHANGED "graphite.addr" (fun c => c.graphite.addr)
    (fun c v => { c with graphite := { c.graphite with addr := v } }) new_config m
  let m := IF_STR_OPT_CHANGED "graphite.target" (fun c => c.graphite.target)
    (fun c v => { c with graphite := { c.graphite with target := v } }) new_config m
  let m := IF_NUM_OPT_CHANGED "graphite.send_interval_millisec"
    (fun c => c.graphite.send_interval_millisec)
    (fun c v => { c with graphite := { c.graphite with send_interval_millisec := v } })
    new_config m
  let m := IF_NUM_OPT_CHANGED "graphite.sleep_poll_interval_millisec"
    (fun c => c.graphite.sleep_poll_interval_millisec)
    (fun c v => { c with graphite := { c.graphite with sleep_poll_interval_millisec := v } })
    new_config m
  let k := reload_old_addrs m.config.generation new_config.argv 0 m.config.argv
    (m.config_changed, m.trace)
  let k := reload_new_addrs m.config.argc (new_config.argv.drop m.config.argc) k
  { config := { m.config with argv := new_config.argv },
    config_changed := k.1,
    trace := k.2 }

/-- The end of `config_reload` from the label `out` on. -/
def reload_out (now : Int) (config : config_t) (config_changed : Nat) (trace : List Event)
    (saves : List (config_t × Int)) : Reload :=
  { outcome := .ret config_changed,
    config := config,
    trace := trace ++
      [.say ("Config reload: generation %ld epoch_attempt %ld epoch_changed %ld "
              ++ "epoch_success %ld now %ld")
         [.num config.generation, .num config.epoch_attempt, .num config.epoch_changed,
          .num config.epoch_success, .num now],
       if config_changed ≠ 0 then .say "Config changed: requires restart" []
       else .say "Config unchanged: does not require restart" []],
    saves := saves }

/-- The function `config_reload`, called at time `now` on the live
configuration `config`. The snapshot is validated twice: by `config_from_file`,
which reads the world `env`, and then by `config_reload` itself, whose own
calls of `stat` and of `socketize` may find other answers (`stat` on a path
that is gone leaves the `struct stat` unwritten); `recheck` is the world that
second validation reads. -/
def config_reload_rechecked (env recheck : Env) (D : Defaults) (now : Int)
    (config : config_t) : Reload :=
  let config_changed : Nat := 0
  let config := { config with epoch_attempt := now }
  let tr : List Event :=
    [.say ("Config reload start: generation %ld epoch_attempt %ld epoch_changed %ld "
            ++ "epoch_success %ld now %ld")
       [.num config.generation, .num config.epoch_attempt, .num config.epoch_changed,
        .num config.epoch_success, .num now]]
  let config_changed := if config.generation = 0 then 1 else config_changed
  let tr := tr ++
    [if config.generation = 0 then .say "Loading config file %s" [Arg.ostr config.file]
     else .say "Reloading config file %s" [Arg.ostr config.file]]
  let load := config_from_file_run env D config.file
  let tr := tr ++ load.2
  match load.1 with
  | none =>
    if config.generation ≠ 0 then
      reload_out now config 0 (tr ++ [.say "Failed to reload config, not restarting" []]) []
    else
      { outcome := .exit EXIT_FAILURE,
        config := config,
        trace := tr ++ [.die EXIT_FAILURE "Failed to load config, not starting" []],
        saves := [] }
  | some new_config =>
    let tr := tr ++
      (if config.generation = 0 then
         [.say "Loaded config file %s" [Arg.ostr config.file], .say "New config" []]
       else
         [.say "Reloaded config file %s" [Arg.ostr config.file],
          .say "New unmerged config" []])
    let tr := tr ++ config_dump new_config
    let tr := tr ++ (config_valid_run recheck new_config).trace
    if !config_valid recheck new_config then
      reload_out now config 0 (tr ++ [.say "Invalid new configuration, ignoring it" []]) []
    else
      let tr := tr ++ [.say "Merging new configuration with old" []]
      let m := reload_merge new_config
        { config := config, config_changed := config_changed, trace := tr }
      let config := m.config
      let config_changed := m.config_changed
      let tr := m.trace
      let tr := tr ++
        (if config.generation ≠ 0 ∧ config_changed ≠ 0 then
           [.say "Merged new config" []] ++ config_dump config
         else [])
      let config :=
        if config_changed ≠ 0 then
          { config with generation := config.generation + 1, epoch_changed := now }
        else config
      let config := { config with epoch_success := now }
      let tr := tr ++ [.say "Config reload: success" []]
      let sv := config_save env config now
      let tr := tr ++ sv.2
      let tr := tr ++ (if !sv.1 then [.say "Warning: config save failed" []] else [])
      reload_out now config config_changed tr [(config, now)]

/-- The function `config_reload` in a world that stays the same during the
call: both validations read `env`. -/
def config_reload (env : Env) (D : Defaults) (now : Int) (config : config_t) : Reload :=
  config_reload_rechecked env env D now config

/-! ## Predicates used in the statements -/

/-- The option fields and the address list of two configurations agree. -/
def same_settings (a b : config_t) : Prop :=
  a.syslog_to_stderr = b.syslog_to_stderr ∧
  a.tcp_send_timeout_sec = b.tcp_send_timeout_sec ∧
  a.polling_interval_millisec = b.polling_interval_millisec ∧
  a.sleep_after_disaster_millisec = b.sleep_after_disaster_millisec ∧
  a.server_socket_rcvbuf_bytes = b.server_socket_rcvbuf_bytes ∧
  a.spillway_root = b.spillway_root ∧
  a.spill_usec = b.spill_usec ∧
  a.graphite.addr = b.graphite.addr ∧
  a.graphite.target = b.graphite.target ∧
  a.graphite.send_interval_millisec = b.graphite.send_interval_millisec ∧
  a.graphite.sleep_poll_interval_millisec = b.graphite.sleep_poll_interval_millisec ∧
  a.argv = b.argv

instance (a b : config_t) : Decidable (same_settings a b) := by
  unfold same_settings; infer_instance

/-- The option fields or the address list of two configurations differ: some
numeric option, some string option (by content), the address count, or the
address at a position both lists have. -/
def settings_differ (a b : config_t) : Prop :=
  a.syslog_to_stderr ≠ b.syslog_to_stderr ∨
  a.tcp_send_timeout_sec ≠ b.tcp_send_timeout_sec ∨
  a.polling_interval_millisec ≠ b.polling_interval_millisec ∨
  a.sleep_after_disaster_millisec ≠ b.sleep_after_disaster_millisec ∨
  a.server_socket_rcvbuf_bytes ≠ b.server_socket_rcvbuf_bytes ∨
  a.spillway_root ≠ b.spillway_root ∨
  a.spill_usec ≠ b.spill_usec ∨
  a.graphite.addr ≠ b.graphite.addr ∨
  a.graphite.target ≠ b.graphite.target ∨
  a.graphite.send_interval_millisec ≠ b.graphite.send_interval_millisec ∨
  a.graphite.sleep_poll_interval_millisec ≠ b.graphite.sleep_poll_interval_millisec ∨
  a.argc ≠ b.argc ∨
  ∃ i, i < a.argc ∧ i < b.argc ∧ a.argv[i]? ≠ b.argv[i]?

/-- The names of the options the loader recognises, in the order it tries them. -/
def option_names : List CStr :=
  [ "syslog_to_stderr".toList, "tcp_send_timeout_sec".toList,
    "polling_interval_millisec".toList, "sleep_after_disaster_millisec".toList,
    "server_socket_rcvbuf_bytes".toList, "spillway_root".toList, "spill_usec".toList,
    "graphite.addr".toList, "graphite.target".toList,
    "graphite.send_interval_millisec".toList,
    "graphite.sleep_poll_interval_millisec".toList ]

/-- A line of the source that rejects the load: it contains `=` and either
nothing follows the first `=` or the text before it is not the name of an
option. -/
def line_rejected (raw : List Char) : Bool :=
  match strchr (clean_line raw) '=' with
  | some p => p.length = 1 || !(option_names.contains (cut_at '=' (clean_line raw)))
  | none => false

/-- The source of a configuration cannot be opened: the path is NULL or
`fopen` fails. -/
def source_unreadable (env : Env) (file : Option CStr) : Prop :=
  ∀ f, file = some f → env.fopen f = none

/-- The source of a configuration contains a line that rejects the load. -/
def source_has_rejected_line (env : Env) (file : Option CStr) : Prop :=
  ∃ f content, file = some f ∧ env.fopen f = some content ∧
    ∃ raw ∈ getlines content, line_rejected raw = true

/-- The source of a configuration is read to the end and the snapshot read
from it fails validation. -/
def source_fails_validation (env : Env) (D : Defaults) (file : Option CStr) : Prop :=
  ∃ f content c, file = some f ∧ env.fopen f = some content ∧
    (config_from_file_loop f 0 (getlines content) (config_set_defaults D config_calloc)
      [.say "Loading config file %s" [.str f]]).1 = some c ∧
    config_valid env c = false

/-- Whether an event is a `Stopping forward socket` notice. -/
def is_stopping_notice : Event → Bool
  | .say fmt _ => fmt = "Stopping forward socket to '%s'"
  | _ => false

/-- The `Stopping forward socket` notice for the address `addr`. -/
def stopping_notice (addr : CStr) : Event :=
  .say "Stopping forward socket to '%s'" [.str addr]

/-- The value `config_reload` returns when the load succeeded with `new_config`. -/
def merged_changed (config new_config : config_t) : Nat :=
  if config.generation ≠ 0 ∧ same_settings config new_config then 0 else 1

/-- The live configuration `config_reload` leaves when the load succeeded with
`new_config` at time `now`. -/
def merged_config (now : Int) (config new_config : config_t) : config_t :=
  { new_config with
    file := config.file
    generation := config.generation + merged_changed config new_config
    epoch_attempt := now
    epoch_changed := if merged_changed config new_config ≠ 0 then now else config.epoch_changed
    epoch_success := now }

/-! ## Sample data -/

/-- A sample set of defaults. -/
def sample_defaults : Defaults :=
  { SYSLOG_TO_STDERR := 0
    TCP_SEND_TIMEOUT_SEC := 2
    POLLING_INTERVAL_MILLISEC := 1
    SLEEP_AFTER_DISASTER_MILLISEC := 1000
    SERVER_SOCKET_RCVBUF_BYTES := 33554432
    SPILL_USEC := 1000000
    SPILLWAY_ROOT := "/tmp".toList
    GRAPHITE_ADDR := "/tmp/relay.graphite".toList
    GRAPHITE_TARGET := "relays".toList
    GRAPHITE_SEND_INTERVAL_MILLISEC := 60000
    GRAPHITE_SLEEP_POLL_INTERVAL_MILLISEC := 500 }

/-- The path of the sample configuration file. -/
def sample_file : CStr := "/etc/relay.conf".toList

/-- A sample world: `/etc/relay.conf` holds `content` (it cannot be opened
when `content` is `none`), `/tmp` is a directory, every non-empty address
parses, and the system calls of the persister succeed. -/
def sample_env (content : Option (List Char)) : Env :=
  { fopen := fun f => if f = sample_file then content else none
    stat := fun p => if p = "/tmp".toList then (0, true) else (-1, false)
    socketize := fun _ _ _ => true
    dirname := fun t =>
      ((t.reverse.dropWhile (fun c => c != '/')).tail.reverse,
       (t.reverse.dropWhile (fun c => c != '/')).tail.reverse)
    mkstemp := fun t => (some 3, t.take (t.length - 6) ++ "a1b2c3".toList)
    write := fun _ d => d.length
    close := fun _ => 0
    rename := fun _ _ => 0 }

/-- A source with a listener, one option and three forward addresses. -/
def sample_source : List Char :=
  "# relay\nudp@localhost:10000\ntcp_send_timeout_sec=5 # seconds\ntcp@host1:20001\ntcp@host2:20002\ntcp@host3:20003\n".toList

/-- A source with a listener, one option and one forward address. -/
def sample_source_short : List Char :=
  "udp@localhost:10000\ntcp_send_timeout_sec=5\ntcp@host1:20001\n".toList

/-- A source in the form the persister writes, with spaces around `=`. -/
def sample_source_spaced : List Char :=
  "udp@localhost:10000\ntcp_send_timeout_sec = 5\ntcp@host1:20001\n".toList

/-- The world after the spill directory is gone: every `stat` fails and the
unwritten `struct stat` does not read as a directory. -/
def vanished_directory_env : Env :=
  { sample_env none with stat := fun _ => (-1, false) }

/-- The live configuration at start-up: the defaults and the path of the file. -/
def sample_start : config_t :=
  { config_set_defaults sample_defaults config_calloc with file := some sample_file }

/-- The snapshot the loader reads from `sample_source`. -/
def sample_snapshot : config_t :=
  { config_set_defaults sample_defaults config_calloc with
    tcp_send_timeout_sec := 5
    argv := ["udp@localhost:10000".toList, "tcp@host1:20001".toList,
             "tcp@host2:20002".toList, "tcp@host3:20003".toList] }

/-- The snapshot the loader reads from `sample_source_short`. -/
def sample_snapshot_short : config_t :=
  { config_set_defaults sample_defaults config_calloc with
    tcp_send_timeout_sec := 5
    argv := ["udp@localhost:10000".toList, "tcp@host1:20001".toList] }

/-- A live configuration after a first load of `sample_source` at time 50. -/
def sample_live : config_t :=
  { sample_snapshot with
    file := some sample_file, generation := 1,
    epoch_attempt := 50, epoch_changed := 50, epoch_success := 50 }

/-! ## The text the persister writes -/

/-- A character `%d` can print: a decimal digit or the minus sign. -/
def is_number_char (c : Char) : Bool := isdigit c || c = '-'

/-- The lines of the serialization of a configuration, without their newlines:
one `name = value` line per option in the order of `config_to_bufferf`, then
the addresses in list order. -/
def config_lines (config : config_t) : List CStr :=
  [ "syslog_to_stderr = ".toList ++ fmt_d config.syslog_to_stderr,
    "tcp_send_timeout_sec = ".toList ++ fmt_d config.tcp_send_timeout_sec,
    "spillway_root = ".toList ++ config.spillway_root,
    "spill_usec = ".toList ++ fmt_d config.spill_usec,
    "polling_interval_millisec = ".toList ++ fmt_d config.polling_interval_millisec,
    "sleep_after_disaster_millisec = ".toList ++ fmt_d config.sleep_after_disaster_millisec,
    "server_socket_rcvbuf_bytes = ".toList ++ fmt_d config.server_socket_rcvbuf_bytes,
    "graphite.addr = ".toList ++ config.graphite.addr,
    "graphite.target = ".toList ++ config.graphite.target,
    "graphite.send_interval_millisec = ".toList
      ++ fmt_d config.graphite.send_interval_millisec,
    "graphite.sleep_poll_interval_millisec = ".toList
      ++ fmt_d config.graphite.sleep_poll_interval_millisec ]
  ++ config.argv

/-- The text made of the given lines, each followed by a newline. -/
def unlines : List CStr → CStr
  | [] => []
  | a :: rest => a ++ '\n' :: unlines rest

/-! ## Predicates and sample data for the validator and the loader -/

/-- Every rule of the validator holds for a snapshot: the rule of each field,
at least a listener and a forward address, and every address parses with the
protocol and direction of its role. -/
def all_rules_hold (env : Env) (config : config_t) : Prop :=
  is_valid_sec config.tcp_send_timeout_sec = true ∧
  is_valid_millisec config.polling_interval_millisec = true ∧
  is_valid_millisec config.sleep_after_disaster_millisec = true ∧
  is_valid_buffer_size config.server_socket_rcvbuf_bytes = true ∧
  is_valid_directory env config.spillway_root = true ∧
  is_valid_microsec config.spill_usec = true ∧
  is_valid_socketize env config.graphite.addr IPPROTO_TCP RELAY_CONN_IS_OUTBOUND = true ∧
  is_valid_graphite_target config.graphite.target = true ∧
  is_valid_millisec config.graphite.send_interval_millisec = true ∧
  is_valid_millisec config.graphite.sleep_poll_interval_millisec = true ∧
  2 ≤ config.argc ∧
  (∀ a, config.argv.head? = some a →
    is_valid_socketize env a IPPROTO_UDP RELAY_CONN_IS_INBOUND = true) ∧
  (∀ a ∈ config.argv.tail,
    is_valid_socketize env a IPPROTO_TCP RELAY_CONN_IS_OUTBOUND = true)

/-- A sample world in which `/etc/passwd` exists and is a regular file: `stat`
succeeds on it and `S_ISDIR` is false; `stat` fails on every other path. -/
def regular_file_env : Env :=
  { sample_env none with
    stat := fun p => if p = "/etc/passwd".toList then (0, false) else (-1, false) }

/-- A character allowed in a telemetry namespace root: an ASCII letter, a
digit, an underscore or a dot. -/
def is_target_char (c : Char) : Prop :=
  (97 ≤ c.toNat ∧ c.toNat ≤ 122) ∨ (65 ≤ c.toNat ∧ c.toNat ≤ 90) ∨
  (48 ≤ c.toNat ∧ c.toNat ≤ 57) ∨ c = '_' ∨ c = '.'

/-- A well-formed telemetry namespace root: non-empty, made of letters,
digits, underscores and dots only, with no leading dot, no trailing dot and no
two adjacent dots. -/
def well_formed_target (s : CStr) : Prop :=
  s ≠ [] ∧ (∀ c ∈ s, is_target_char c) ∧ s.head? ≠ some '.' ∧ s.getLast? ≠ some '.' ∧
  ∀ i : Nat, ¬ (s[i]? = some '.' ∧ s[i + 1]? = some '.')

/-- The text of a line before its first `=`. -/
def text_before_eq (line : CStr) : CStr := line.takeWhile (fun c => c != '=')

/-- The text of a line after its first `=`. -/
def text_after_eq (line : CStr) : CStr := (line.dropWhile (fun c => c != '=')).tail

/-- A bad assignment line: it contains `=`, and the text before the first `=`
is not the name of an option or the text after it is empty. -/
def bad_assignment (line : CStr) : Prop :=
  '=' ∈ line ∧ (text_before_eq line ∉ option_names ∨ text_after_eq line = [])

/-- The positional lines of a source text, in file order: the text is split at
the newlines, each line is cut at its first `#` and trimmed (`clean_line`; a
line is a C string, so it also ends at a NUL character), and the lines that are
then non-empty and contain no `=` are kept. -/
def positional_lines (content : List Char) : List CStr :=
  ((content.splitOn '\n').map clean_line).filter (fun l => !l.isEmpty && !decide ('=' ∈ l))

/-! ## The control word (`control.c`) -/

/-- Modelled from the spec: `RELAY_ATOMIC_OR(word, v)` (`relay_threads.h` is not
among the sources) is an atomic or-update of a 32-bit word that yields the
value the word had before the update, so that the caller learns whether it was
the one that set the bits. The result is the pair (previous value, new word). -/
def RELAY_ATOMIC_OR (word v : Nat) : Nat × Nat := (word, word ||| v)

/-- Modelled from the spec: `RELAY_ATOMIC_AND(word, v)` is the atomic and-update;
the result is the pair (previous value, new word). -/
def RELAY_ATOMIC_AND (word v : Nat) : Nat × Nat := (word, word &&& v)

/-- Modelled from the spec: `RELAY_ATOMIC_READ(word)` is a lock-free read; it
yields the value and does not change the word. -/
def RELAY_ATOMIC_READ (word : Nat) : Nat := word

/-- `set_control_bits(v)`: the new value of the control word `__control`. -/
def set_control_bits (v : Nat) (__control : Nat) : Nat :=
  (RELAY_ATOMIC_OR __control v).2

/-- `unset_control_bits(v)`: `v = ~v` on 32 bits, then the and-update. -/
def unset_control_bits (v : Nat) (__control : Nat) : Nat :=
  let v := 2 ^ 32 - 1 - v
  (RELAY_ATOMIC_AND __control v).2

/-- `set_stopped()`; `RELAY_STOP` is a constant of `control.h`, which is not
among the sources, and is a parameter here. -/
def set_stopped (RELAY_STOP : Nat) (__control : Nat) : Nat :=
  set_control_bits RELAY_STOP __control

/-- `get_control_val()`: the value returned and the control word afterwards. -/
def get_control_val (__control : Nat) : Nat × Nat :=
  (RELAY_ATOMIC_READ __control, __control)

/-- `not_stopped()`: the value returned and the control word afterwards. -/
def not_stopped (RELAY_STOP : Nat) (__control : Nat) : Nat × Nat :=
  let v := RELAY_ATOMIC_READ __control
  (if v &&& RELAY_STOP = 0 then 1 else 0, __control)

/-- `is_stopped()`: the value returned and the control word afterwards. -/
def is_stopped (RELAY_STOP : Nat) (__control : Nat) : Nat × Nat :=
  let v := RELAY_ATOMIC_READ __control
  (if v &&& RELAY_STOP = RELAY_STOP then 1 else 0, __control)

/-! ## The graphite worker (`graphite_worker.c`) -/

/-- The calls `graphite_worker_destroy` makes after it has claimed the stop
indicator, in source order. -/
inductive DestroyEvent where
  | pthread_join
  | free_arg
  | fixed_buffer_destroy_path_root
  | fixed_buffer_destroy_send_buffer
  | free_worker
  deriving DecidableEq, Repr

/-- `graphite_worker_destroy(worker)` on the stop indicator `worker->base.stopping`:
the indicator afterwards and the calls made. `WORKER_STOPPING` is a constant of
`worker_util.h`, which is not among the sources, and is a parameter here. -/
def graphite_worker_destroy (WORKER_STOPPING : Nat) (stopping : Nat) :
    Nat × List DestroyEvent :=
  let r := RELAY_ATOMIC_OR stopping WORKER_STOPPING
  let was_stopping := r.1
  let stopping := r.2
  if was_stopping &&& WORKER_STOPPING ≠ 0 then (stopping, [])
  else
    (stopping,
      [.pthread_join, .free_arg, .fixed_buffer_destroy_path_root,
       .fixed_buffer_destroy_send_buffer, .free_worker])

/-- What `graphite_wait` does, in order: a read of the stop indicator with the
value read, a call of `worker_wait_millisec`, and an assignment to
`wait_remains_millisec` with the exact value of the right-hand side before it
is reduced to 32 bits. -/
inductive WaitEvent where
  | read (stopping : Nat)
  | sleep (millisec : Nat)
  | assign (exact : Int)
  deriving DecidableEq, Repr

/-- The `while` loop of `graphite_wait`. `stopping i` is the value the `i`-th
read of `self->base.stopping` yields (other threads may set it meanwhile);
`reads` counts the reads done so far; the first argument bounds the number of
iterations. -/
def graphite_wait_loop (stopping : Nat → Nat) (graphite : graphite_config) :
    Nat → Nat → Nat → List WaitEvent → Option (List WaitEvent)
  | 0, _, _, _ => none
  | fuel + 1, reads, wait_remains_millisec, tr =>
    let s := RELAY_ATOMIC_READ (stopping reads)
    let tr := tr ++ [.read s]
    if s = 0 ∧ wait_remains_millisec > 0 then
      if wait_remains_millisec < graphite.sleep_poll_interval_millisec then
        graphite_wait_loop stopping graphite fuel (reads + 1) 0
          (tr ++ [.sleep wait_remains_millisec, .assign 0])
      else
        graphite_wait_loop stopping graphite fuel (reads + 1)
          (((wait_remains_millisec : Int) - graphite.sleep_poll_interval_millisec)
            % 2 ^ 32).toNat
          (tr ++ [.sleep graphite.sleep_poll_interval_millisec,
                  .assign ((wait_remains_millisec : Int)
                    - graphite.sleep_poll_interval_millisec)])
    else some tr

/-- `graphite_wait(self, graphite)`: the trace of the call, or `none` when the
bound on the iterations is reached. -/
def graphite_wait (stopping : Nat → Nat) (graphite : graphite_config) (fuel : Nat) :
    Option (List WaitEvent) :=
  graphite_wait_loop stopping graphite fuel 0 graphite.send_interval_millisec []

/-- `fixed_buffer_t`: `data` holds the `used` bytes written so far, `size` is the
capacity. -/
structure fixed_buffer_t where
  data : CStr
  size : Nat
  deriving DecidableEq, Repr

/-- The field `used`. -/
def fixed_buffer_t.used (b : fixed_buffer_t) : Nat := b.data.length

/-- Modelled from the spec: `fixed_buffer_reset` empties the bounded buffer
(`fixed_buffer.c` is not among the sources). -/
def fixed_buffer_reset (b : fixed_buffer_t) : fixed_buffer_t := { b with data := [] }

/-- The text `printf` produces for a format and its arguments, for the
conversions used by the graphite worker: `%%`, `%s`, and the integer
conversions `%d`, `%ld`, `%lu`, `%zd`. -/
def format_text : Nat → CStr → List Arg → CStr
  | 0, _, _ => []
  | _ + 1, [], _ => []
  | fuel + 1, c :: rest, args =>
    if c = '%' then
      match rest, args with
      | '%' :: rest, args => '%' :: format_text fuel rest args
      | 's' :: rest, .str s :: args => s ++ format_text fuel rest args
      | 'd' :: rest, .num v :: args => fmt_ld v ++ format_text fuel rest args
      | 'l' :: 'd' :: rest, .num v :: args => fmt_ld v ++ format_text fuel rest args
      | 'l' :: 'u' :: rest, .num v :: args => fmt_ld v ++ format_text fuel rest args
      | 'z' :: 'd' :: rest, .num v :: args => fmt_ld v ++ format_text fuel rest args
      | rest, args => '%' :: format_text fuel rest args
    else c :: format_text fuel rest args

/-- The text of `printf(fmt, args...)`. -/
def sprintf (fmt : CStr) (args : List Arg) : CStr := format_text fmt.length fmt args

/-- Modelled from the spec: `fixed_buffer_vcatf` formats into the bounded buffer
after the bytes already there; when the text and its terminating NUL do not
fit it reports failure (0) and the used part of the buffer is unchanged
(`fixed_buffer.c` is not among the sources). -/
def fixed_buffer_vcatf (b : fixed_buffer_t) (fmt : CStr) (args : List Arg) :
    Nat × fixed_buffer_t :=
  let text := sprintf fmt args
  if b.used + text.length < b.size then (1, { b with data := b.data ++ text })
  else (0, b)

/-- What the graphite worker does that is visible outside it. -/
inductive WorkerEvent where
  | lock
  | unlock
  | say (fmt : String)
  | warn (fmt : String)
  | fatal (fmt : String)
  | write (socket : Int) (data : CStr)
  | close (socket : Int)
  deriving DecidableEq, Repr

/-- `stats_basic_counters_t`: the counters of a forwarding worker. -/
structure stats_basic_counters_t where
  received_count : Int
  sent_count : Int
  partial_count : Int
  spilled_count : Int
  dropped_count : Int
  error_count : Int
  disk_count : Int
  disk_error_count : Int
  deriving DecidableEq, Repr

/-- One entry of `w->rates`: the `rate` of each of the four averaged series,
as the `unsigned long` the worker prints. -/
structure worker_rates where
  received : Int
  sent : Int
  spilled : Int
  dropped : Int
  deriving DecidableEq, Repr

/-- The part of `socket_worker_t` the graphite worker reads. -/
structure socket_worker_t where
  recents : stats_basic_counters_t
  rates : List worker_rates
  deriving DecidableEq, Repr

/-- The counters after `memset(&recents, 0, ...)`. -/
def zero_counters : stats_basic_counters_t :=
  { received_count := 0, sent_count := 0, partial_count := 0, spilled_count := 0,
    dropped_count := 0, error_count := 0, disk_count := 0, disk_error_count := 0 }

/-- Modelled from the spec: `accumulate_and_clear_stats(from, to, NULL)` adds the
counters of `from` to `to` and clears `from` (`worker_util.c` is not among the
sources). The result is the pair (`from` afterwards, `to` afterwards). -/
def accumulate_and_clear_stats (src dst : stats_basic_counters_t) :
    stats_basic_counters_t × stats_basic_counters_t :=
  (zero_counters,
   { received_count := dst.received_count + src.received_count,
     sent_count := dst.sent_count + src.sent_count,
     partial_count := dst.partial_count + src.partial_count,
     spilled_count := dst.spilled_count + src.spilled_count,
     dropped_count := dst.dropped_count + src.dropped_count,
     error_count := dst.error_count + src.error_count,
     disk_count := dst.disk_count + src.disk_count,
     disk_error_count := dst.disk_error_count + src.disk_error_count })

/-- The size of the format buffers. -/
def FORMAT_BUFFER_SIZE : Nat := 256

/-- The twenty appends of `graphite_build_worker`, in source order: the label
and the value of each `STATS_VCATF` and `STATS_LOADAVG_VCATF`. -/
def stats_appends (recents : stats_basic_counters_t) (w : socket_worker_t) :
    List (String × Int) :=
  let rate := fun (ix : Nat) => w.rates.getD ix { received := 0, sent := 0, spilled := 0, dropped := 0 }
  [ ("received.count", recents.received_count),
    ("received.loadavg_1", (rate 0).received),
    ("received.loadavg_5", (rate 1).received),
    ("received.loadavg_15", (rate 2).received),
    ("sent.count", recents.sent_count),
    ("sent.loadavg_1", (rate 0).sent),
    ("sent.loadavg_5", (rate 1).sent),
    ("sent.loadavg_15", (rate 2).sent),
    ("partial.count", recents.partial_count),
    ("spilled.count", recents.spilled_count),
    ("spilled.loadavg_1", (rate 0).spilled),
    ("spilled.loadavg_5", (rate 1).spilled),
    ("spilled.loadavg_15", (rate 2).spilled),
    ("dropped.count", recents.dropped_count),
    ("dropped.loadavg_1", (rate 0).dropped),
    ("dropped.loadavg_5", (rate 1).dropped),
    ("dropped.loadavg_15", (rate 2).dropped),
    ("error.count", recents.error_count),
    ("disk.count", recents.disk_count),
    ("disk_error.count", recents.disk_error_count) ]

/-- A sequence of `if (!fixed_buffer_vcatf(buffer, format, label, value)) return 0`
statements: the result is 0 at the first append that fails, 1 when all
succeed. -/
def vcatf_or_return : CStr → List (String × Int) → fixed_buffer_t → Nat × fixed_buffer_t
  | _, [], buffer => (1, buffer)
  | format, (label, value) :: rest, buffer =>
    let r := fixed_buffer_vcatf buffer format [.str label.toList, .num value]
    if r.1 = 0 then (0, r.2) else vcatf_or_return format rest r.2

/-- The result of `graphite_build_worker`: the value returned, the forwarding
worker and the send buffer afterwards, and the messages logged. -/
structure BuildWorker where
  ret : Nat
  w : socket_worker_t
  buffer : fixed_buffer_t
  trace : List WorkerEvent
  deriving DecidableEq, Repr

/-- `graphite_build_worker(self, w, buffer, this_epoch, stats_format)`;
`path_root` is `self->path_root->data`. -/
def graphite_build_worker (path_root : CStr) (w : socket_worker_t) (buffer : fixed_buffer_t)
    (this_epoch : Nat) : BuildWorker :=
  let recents := zero_counters
  let acc := accumulate_and_clear_stats w.recents recents
  let w := { w with recents := acc.1 }
  let recents := acc.2
  let stats_format := sprintf "%s.%%s %%ld %lu\n".toList [.str path_root, .num this_epoch]
  let wrote := stats_format.length
  if wrote ≥ FORMAT_BUFFER_SIZE then
    { ret := 0, w := w, buffer := buffer,
      trace := [.warn "Failed to initialize stats format: %s"] }
  else
    let r := vcatf_or_return stats_format (stats_appends recents w) buffer
    if r.1 = 0 then { ret := 0, w := w, buffer := r.2, trace := [] }
    else if r.2.used ≥ r.2.size then { ret := 0, w := w, buffer := r.2, trace := [] }
    else { ret := 1, w := w, buffer := r.2, trace := [] }

/-- The `TAILQ_FOREACH` loop of `graphite_build` over the pool: it stops, with a
warning, at the first worker for which `graphite_build_worker` fails. -/
def graphite_build_pool (path_root : CStr) (this_epoch : Nat) :
    List socket_worker_t → fixed_buffer_t →
      List socket_worker_t × fixed_buffer_t × List WorkerEvent
  | [], buffer => ([], buffer, [])
  | w :: rest, buffer =>
    let r := graphite_build_worker path_root w buffer this_epoch
    if r.ret = 0 then
      (r.w :: rest, r.buffer, r.trace ++ [.warn "Failed to build graphite buffer"])
    else
      let t := graphite_build_pool path_root this_epoch rest r.buffer
      (r.w :: t.1, t.2.1, r.trace ++ t.2.2)

/-- `struct mallinfo`. -/
structure mallinfo_t where
  arena : Int
  ordblks : Int
  smblks : Int
  hblks : Int
  hblkhd : Int
  usmblks : Int
  fsmblks : Int
  uordblks : Int
  fordblks : Int
  keepcost : Int
  deriving DecidableEq, Repr

/-- The values of `config->malloc.style`. -/
inductive malloc_style where
  | SYSTEM_MALLOC
  | JEMALLOC
  | TCMALLOC
  | UNKNOWN_MALLOC
  deriving DecidableEq, Repr

/-- The part of the process state and of the outside world `graphite_build` and
the worker loop read: the build flags, the global blob counters, the allocator
configuration `config->malloc` with its function pointers (`none` for a NULL
pointer; a call yields `none` when it reports failure), the contents of
`/proc/self/statm` (`none` when it cannot be opened), and the socket calls. -/
structure GraphiteEnv where
  HAVE_MALLINFO : Bool
  HAVE_PROC_SELF_STATM : Bool
  blob_active_count : Int
  blob_active_bytes : Int
  blob_active_refcnt_bytes : Int
  blob_total_count : Int
  blob_total_bytes : Int
  blob_total_refcnt_bytes : Int
  blob_total_ored_buckets : Int
  blob_total_sizes : List Int
  style : malloc_style
  pagesize : Int
  mallinfo : mallinfo_t
  statm : Option (List Char)
  stats_mib : List CStr
  mallctlbymib : Option (Nat → Option Int)
  get_numeric_property : Option (CStr → Option Int)
  open_output_socket_eventually : Option Int
  write : Int → CStr → Int

/-- The `for` loop over the size buckets: `i` is the index, `n` the number of
entries left in `GLOBAL.blob_total_sizes`. -/
def graphite_build_buckets (buckets_format : CStr) (sizes : List Int) :
    Nat → Nat → Int → fixed_buffer_t → fixed_buffer_t
  | 0, _, _, buffer => buffer
  | n + 1, i, buckets, buffer =>
    if buckets ≠ 0 then
      let count := sizes.getD i 0
      let buffer :=
        if count > 0 then (fixed_buffer_vcatf buffer buckets_format [.num i, .num count]).2
        else buffer
      graphite_build_buckets buckets_format sizes n (i + 1) (buckets >>> 1) buffer
    else buffer

/-- The thirteen appends of the `mallinfo` block, in source order. -/
def meminfo_appends (meminfo : mallinfo_t) : List (String × Int) :=
  [ ("arena", meminfo.arena),
    ("ordblks", meminfo.ordblks),
    ("smblks", meminfo.smblks),
    ("hblks", meminfo.hblks),
    ("hblkhd", meminfo.hblkhd),
    ("usmblks", meminfo.usmblks),
    ("fsmblks", meminfo.fsmblks),
    ("uordblks", meminfo.uordblks),
    ("fordblks", meminfo.fordblks),
    ("keepcost", meminfo.keepcost),
    ("total_from_system", meminfo.arena + meminfo.hblkhd),
    ("total_in_use", meminfo.uordblks + meminfo.usmblks + meminfo.hblkhd),
    ("total_free_in_process", meminfo.fordblks + meminfo.fsmblks) ]

/-- The block under `HAVE_PROC_SELF_STATM`: the buffer afterwards and the
messages logged. `fgets` reads the first line, at most 127 bytes of it. -/
def graphite_build_statm (env : GraphiteEnv) (path_root : CStr) (this_epoch : Nat)
    (buffer : fixed_buffer_t) : fixed_buffer_t × List WorkerEvent :=
  match env.statm with
  | some content =>
    let buf := ((getlines content).headD []).take 127
    if buf ≠ [] then
      let r1 := strtol buf
      let size := r1.1
      let r2 := if r1.2.head? = some ' ' then strtol r1.2.tail else (-1, r1.2)
      let rss := r2.1
      if size > 0 ∧ rss > 0 then
        let size := size * env.pagesize
        let rss := rss * env.pagesize
        let b1 := (fixed_buffer_vcatf buffer "%s.statm.size %ld %lu\n".toList
          [.str path_root, .num size, .num this_epoch]).2
        let b2 := (fixed_buffer_vcatf b1 "%s.statm.rss %ld %lu\n".toList
          [.str path_root, .num rss, .num this_epoch]).2
        (b2, [])
      else (buffer, [.warn "Failed to find size and rss"])
    else (buffer, [.warn "Failed to find size and rss"])
  | none => (buffer, [.warn "Failed to open /proc/self/statm"])

/-- The loop over `config->malloc.stats_mib` for jemalloc. -/
def graphite_build_jemalloc (call : Nat → Option Int) (path_root : CStr) (this_epoch : Nat) :
    List CStr → Nat → fixed_buffer_t → fixed_buffer_t
  | [], _, buffer => buffer
  | name :: rest, i, buffer =>
    let buffer :=
      match call i with
      | some val =>
        (fixed_buffer_vcatf buffer "%s.jemalloc.%s %zd %lu\n".toList
          [.str path_root, .str name, .num val, .num this_epoch]).2
      | none => buffer
    graphite_build_jemalloc call path_root this_epoch rest (i + 1) buffer

/-- The properties read from tcmalloc. -/
def tcmalloc_prop : List String :=
  [ "generic.current_allocated_bytes",
    "generic.heap_size",
    "tcmalloc.pageheap_free_bytes",
    "tcmalloc.pageheap_unmapped_bytes",
    "tcmalloc.max_total_thread_cache_bytes",
    "tcmalloc.current_total_thread_cache_bytes" ]

/-- The loop over the tcmalloc properties. -/
def graphite_build_tcmalloc (call : CStr → Option Int) (path_root : CStr) (this_epoch : Nat) :
    List String → fixed_buffer_t → fixed_buffer_t
  | [], buffer => buffer
  | p :: rest, buffer =>
    let buffer :=
      match call p.toList with
      | some val =>
        match strchr p.toList '.' with
        | some dot =>
          (fixed_buffer_vcatf buffer "%s.tcmalloc%s %ld %lu\n".toList
            [.str path_root, .str dot, .num val, .num this_epoch]).2
        | none => buffer
      | none => buffer
    graphite_build_tcmalloc call path_root this_epoch rest buffer

/-- The result of `graphite_build`: the value returned, the pool and the send
buffer afterwards, and what was logged. -/
structure Build where
  ret : Nat
  workers : List socket_worker_t
  buffer : fixed_buffer_t
  trace : List WorkerEvent
  deriving DecidableEq, Repr

/-- The part of `graphite_build` after the blob counters and the buckets: the
allocator and process-memory metrics. -/
def graphite_build_memory (env : GraphiteEnv) (path_root : CStr) (this_epoch : Nat)
    (workers : List socket_worker_t) (buffer : fixed_buffer_t) (tr : List WorkerEvent) :
    Build :=
  let meminfo_format :=
    sprintf "%s.mallinfo.%%s %%d %lu\n".toList [.str path_root, .num this_epoch]
  if env.HAVE_MALLINFO = true ∧ env.style = .SYSTEM_MALLOC
      ∧ meminfo_format.length ≥ FORMAT_BUFFER_SIZE then
    { ret := 0, workers := workers, buffer := buffer,
      trace := tr ++ [.warn "Failed to initialize meminfo format: %s"] }
  else
    let r :=
      if env.HAVE_MALLINFO = true ∧ env.style = .SYSTEM_MALLOC then
        vcatf_or_return meminfo_format (meminfo_appends env.mallinfo) buffer
      else (1, buffer)
    if r.1 = 0 then { ret := 0, workers := workers, buffer := r.2, trace := tr }
    else
      let s :=
        if env.HAVE_PROC_SELF_STATM = true then
          graphite_build_statm env path_root this_epoch r.2
        else (r.2, [])
      let buffer := s.1
      let tr := tr ++ s.2
      let buffer :=
        match env.style, env.mallctlbymib with
        | .JEMALLOC, some call =>
          graphite_build_jemalloc call path_root this_epoch env.stats_mib 0 buffer
        | _, _ => buffer
      let buffer :=
        match env.style, env.get_numeric_property with
        | .TCMALLOC, some call =>
          graphite_build_tcmalloc call path_root this_epoch tcmalloc_prop buffer
        | _, _ => buffer
      { ret := 1, workers := workers, buffer := buffer, trace := tr }

/-- `graphite_build(self, buffer, this_epoch, stats_format, meminfo_format)`;
`workers` is `GLOBAL.pool.workers`. -/
def graphite_build (env : GraphiteEnv) (path_root : CStr) (workers : List socket_worker_t)
    (buffer : fixed_buffer_t) (this_epoch : Nat) : Build :=
  let buffer := fixed_buffer_reset buffer
  let pool := graphite_build_pool path_root this_epoch workers buffer
  let workers := pool.1
  let buffer := pool.2.1
  let tr := [WorkerEvent.lock] ++ pool.2.2 ++ [WorkerEvent.unlock]
  let blobs_format :=
    sprintf "%s.blobs.%%s %%ld %lu\n".toList [.str path_root, .num this_epoch]
  if blobs_format.length ≥ 256 then
    { ret := 0, workers := workers, buffer := buffer,
      trace := tr ++ [.warn "Failed to initialize blobs format: %s"] }
  else
    let buffer := (fixed_buffer_vcatf buffer blobs_format
      [.str "active_count".toList, .num env.blob_active_count]).2
    let buffer := (fixed_buffer_vcatf buffer blobs_format
      [.str "active.bytes".toList, .num env.blob_active_bytes]).2
    let buffer := (fixed_buffer_vcatf buffer blobs_format
      [.str "active_refcnt.bytes".toList, .num env.blob_active_refcnt_bytes]).2
    let buffer := (fixed_buffer_vcatf buffer blobs_format
      [.str "total.count".toList, .num env.blob_total_count]).2
    let buffer := (fixed_buffer_vcatf buffer blobs_format
      [.str "total.bytes".toList, .num env.blob_total_bytes]).2
    let buffer := (fixed_buffer_vcatf buffer blobs_format
      [.str "total_refcnt.bytes".toList, .num env.blob_total_refcnt_bytes]).2
    let buckets := env.blob_total_ored_buckets
    let buckets_format :=
      sprintf "%s.buckets.log2_%%d %%ld %lu\n".toList [.str path_root, .num this_epoch]
    if buckets ≠ 0 ∧ buckets_format.length ≥ 256 then
      { ret := 0, workers := workers, buffer := buffer,
        trace := tr ++ [.warn "Failed to initialize buckets format: %s"] }
    else
      let buffer :=
        if buckets ≠ 0 then
          graphite_build_buckets buckets_format env.blob_total_sizes
            env.blob_total_sizes.length 0 buckets buffer
        else buffer
      graphite_build_memory env path_root this_epoch workers buffer tr

/-- How one pass through the body of the `while` loop of
`graphite_worker_thread` ends. -/
inductive CycleEnd where
  | build_failed
  | no_socket
  | send_failed
  | sent
  deriving DecidableEq, Repr

/-- The result of one pass through the loop body: how it ends (`build_failed`
and `no_socket` leave the loop, `send_failed` starts the next pass, `sent`
goes on to `graphite_wait`), the socket `sck`, the pool and the send buffer
afterwards, and what was done. -/
structure Cycle where
  outcome : CycleEnd
  sck : Option Int
  workers : List socket_worker_t
  buffer : fixed_buffer_t
  trace : List WorkerEvent
  deriving DecidableEq, Repr

/-- `graphite_send(sck, buffer, &wrote)`: the value returned and `wrote`. -/
def graphite_send (env : GraphiteEnv) (sck : Int) (buffer : fixed_buffer_t) : Bool × Int :=
  let wrote := env.write sck buffer.data
  (decide (wrote = (buffer.used : Int)), wrote)

/-- One pass through the body of the `while` loop of `graphite_worker_thread`,
up to the call of `graphite_wait`. -/
def graphite_worker_cycle (env : GraphiteEnv) (path_root : CStr)
    (workers : List socket_worker_t) (buffer : fixed_buffer_t) (now : Nat)
    (sck : Option Int) : Cycle :=
  let b := graphite_build env path_root workers buffer now
  if b.ret = 0 then
    { outcome := .build_failed, sck := sck, workers := b.workers, buffer := b.buffer,
      trace := b.trace ++ [.warn "Failed graphite build"] }
  else
    let opened := match sck with
      | some s => some s
      | none => env.open_output_socket_eventually
    match opened with
    | none =>
      { outcome := .no_socket, sck := none, workers := b.workers, buffer := b.buffer,
        trace := b.trace ++ [.fatal "Failed to get socket for graphite"] }
    | some s =>
      let r := graphite_send env s b.buffer
      if r.1 = true then
        { outcome := .sent, sck := some s, workers := b.workers, buffer := b.buffer,
          trace := b.trace ++ [.write s b.buffer.data] }
      else
        { outcome := .send_failed, sck := none, workers := b.workers, buffer := b.buffer,
          trace := b.trace ++ [.write s b.buffer.data,
            .warn "Failed graphite send: tried %zd, wrote %zd bytes", .close s] }

/-! ## Predicates and sample data for the graphite worker and the numeric assignments -/

/-- The lengths of the sleeps of a trace of `graphite_wait`, in order. -/
def sleeps : List WaitEvent → List Nat
  | [] => []
  | .sleep ms :: rest => ms :: sleeps rest
  | _ :: rest => sleeps rest

/-- The exact values assigned to `wait_remains_millisec` in a trace, in
order. -/
def assigns : List WaitEvent → List Int
  | [] => []
  | .assign e :: rest => e :: assigns rest
  | _ :: rest => assigns rest

/-- The trace made of one round for each entry of `chunks` (the stop indicator
is read as clear, then a sleep of the given length, then the assignment of the
given value to the counter) followed by one last read of the stop indicator,
which yields `v`. -/
def wait_rounds : List (Nat × Int) → Nat → List WaitEvent
  | [], v => [.read v]
  | c :: rest, v => .read 0 :: .sleep c.1 :: .assign c.2 :: wait_rounds rest v

/-- A graphite configuration that waits 60000 ms in chunks of 1000 ms. -/
def sample_graphite : graphite_config :=
  { addr := "127.0.0.1:2003".toList, target := "relay".toList,
    send_interval_millisec := 60000, sleep_poll_interval_millisec := 1000 }

/-- The names of the numeric fields the loader recognizes. -/
def numeric_option_names : List CStr :=
  [ "syslog_to_stderr".toList,
    "tcp_send_timeout_sec".toList,
    "polling_interval_millisec".toList,
    "sleep_after_disaster_millisec".toList,
    "server_socket_rcvbuf_bytes".toList,
    "spill_usec".toList,
    "graphite.send_interval_millisec".toList,
    "graphite.sleep_poll_interval_millisec".toList ]

/-- A value text that is entirely a decimal integer in the sense of `strtol`:
optional white space, then an optional sign, then one or more digits, and
nothing after them. -/
def decimal_integer_text (p : CStr) : Bool :=
  let q := p.dropWhile isspace
  let r := match q with
    | '-' :: t => t
    | '+' :: t => t
    | _ => q
  !r.isEmpty && r.all isdigit

/-- A source with a listener, one forward address and one more line. -/
def source_with_line (line : String) : List Char :=
  "udp@localhost:10000\ntcp@host1:20001\n".toList ++ line.toList ++ "\n".toList

/-- A process built without `mallinfo` and without `/proc/self/statm`, with no
blobs, whose socket opens as descriptor 7 and whose writes are complete. -/
def sample_graphite_env : GraphiteEnv :=
  { HAVE_MALLINFO := false
    HAVE_PROC_SELF_STATM := false
    blob_active_count := 0
    blob_active_bytes := 0
    blob_active_refcnt_bytes := 0
    blob_total_count := 0
    blob_total_bytes := 0
    blob_total_refcnt_bytes := 0
    blob_total_ored_buckets := 0
    blob_total_sizes := []
    style := .SYSTEM_MALLOC
    pagesize := 4096
    mallinfo :=
      { arena := 0, ordblks := 0, smblks := 0, hblks := 0, hblkhd := 0, usmblks := 0,
        fsmblks := 0, uordblks := 0, fordblks := 0, keepcost := 0 }
    statm := none
    stats_mib := []
    mallctlbymib := none
    get_numeric_property := none
    open_output_socket_eventually := some 7
    write := fun _ d => d.length }

/-- A forwarding worker that received 12 packets and sent 11. -/
def sample_worker : socket_worker_t :=
  { recents :=
      { received_count := 12, sent_count := 11, partial_count := 0, spilled_count := 0,
        dropped_count := 1, error_count := 0, disk_count := 0, disk_error_count := 0 }
    rates :=
      [ { received := 3, sent := 3, spilled := 0, dropped := 0 },
        { received := 2, sent := 2, spilled := 0, dropped := 0 },
        { received := 1, sent := 1, spilled := 0, dropped := 0 } ] }

/-- A send buffer of 100 bytes that still holds an old report. -/
def sample_send_buffer : fixed_buffer_t := { data := "old\n".toList, size := 100 }

/-! ## Lemmas on the merge -/

theorem IF_NUM_OPT_CHANGED_config (name : String) (get : config_t → Nat)
    (set : config_t → Nat → config_t) (new_config : config_t) (m : Merge)
    (h : ∀ c, set c (get c) = c) :
    (IF_NUM_OPT_CHANGED name get set new_config m).config = set m.config (get new_config) := by
  unfold IF_NUM_OPT_CHANGED
  split
  · rfl
  · next hne =>
    have he : get m.config = get new_config := not_not.mp hne
    rw [← he, h]

theorem IF_NUM_OPT_CHANGED_changed (name : String) (get : config_t → Nat)
    (set : config_t → Nat → config_t) (new_config : config_t) (m : Merge) :
    (IF_NUM_OPT_CHANGED name get set new_config m).config_changed
      = if get m.config = get new_config then m.config_changed else 1 := by
  unfold IF_NUM_OPT_CHANGED
  by_cases he : get m.config = get new_config <;> simp [he]

theorem IF_STR_OPT_CHANGED_config (name : String) (get : config_t → CStr)
    (set : config_t → CStr → config_t) (new_config : config_t) (m : Merge)
    (h : ∀ c, set c (get c) = c) :
    (IF_STR_OPT_CHANGED name get set new_config m).config = set m.config (get new_config) := by
  unfold IF_STR_OPT_CHANGED STRNE
  by_cases he : get m.config = get new_config
  · simp only [he, bne_self_eq_false, Bool.false_eq_true, if_false]
    rw [← he, h]
  · simp [he]

theorem IF_STR_OPT_CHANGED_changed (name : String) (get : config_t → CStr)
    (set : config_t → CStr → config_t) (new_config : config_t) (m : Merge) :
    (IF_STR_OPT_CHANGED name get set new_config m).config_changed
      = if get m.config = get new_config then m.config_changed else 1 := by
  unfold IF_STR_OPT_CHANGED STRNE
  by_cases he : get m.config = get new_config <;> simp [he]

theorem reload_syslog_config (new_config : config_t) (m : Merge) :
    (reload_syslog new_config m).config
      = { m.config with syslog_to_stderr := new_config.syslog_to_stderr } := by
  unfold reload_syslog
  split
  · rfl
  · next hne =>
    have he : m.config.syslog_to_stderr = new_config.syslog_to_stderr := not_not.mp hne
    rw [← he]

theorem reload_syslog_changed (new_config : config_t) (m : Merge) :
    (reload_syslog new_config m).config_changed
      = if m.config.syslog_to_stderr = new_config.syslog_to_stderr then m.config_changed
        else 1 := by
  unfold reload_syslog
  by_cases he : m.config.syslog_to_stderr = new_config.syslog_to_stderr <;> simp [he]

theorem reload_new_addrs_changed (l : List CStr) :
    ∀ (i : Nat) (k : Nat × List Event),
      (reload_new_addrs i l k).1 = if l = [] then k.1 else 1 := by
  induction l with
  | nil => intro i k; simp [reload_new_addrs]
  | cons a rest ih =>
    intro i k
    simp only [reload_new_addrs, ih]
    split <;> simp

theorem reload_old_addrs_changed (generation : Nat) (new_argv : List CStr) (old : List CStr) :
    ∀ (i : Nat) (k : Nat × List Event),
      (reload_old_addrs generation new_argv i old k).1
        = if old = (new_argv.drop i).take old.length then k.1 else 1 := by
  induction old with
  | nil => intro i k; simp [reload_old_addrs]
  | cons a rest ih =>
    intro i k
    simp only [reload_old_addrs, ih, List.length_cons]
    rcases hi : new_argv[i]? with _ | b
    · have hlen : new_argv.length ≤ i := by
        rcases Nat.lt_or_ge i new_argv.length with h | h
        · rw [List.getElem?_eq_getElem h] at hi; cases hi
        · exact h
      have hd : new_argv.drop i = [] := List.drop_eq_nil_of_le hlen
      simp [hd]
    · have hlt : i < new_argv.length := by
        rcases Nat.lt_or_ge i new_argv.length with h | h
        · exact h
        · rw [List.getElem?_eq_none h] at hi; cases hi
      have hb : new_argv[i] = b := by
        rw [List.getElem?_eq_getElem hlt] at hi; exact Option.some.inj hi
      have hd : new_argv.drop i = b :: new_argv.drop (i + 1) := by
        rw [← hb]; exact List.drop_eq_getElem_cons hlt
      simp only [hd, List.take_succ_cons, List.cons.injEq, STRNE]
      by_cases hab : a = b
      · subst hab; simp
      · simp [hab]
        split <;> intro _ <;> rfl


theorem reload_merge_config (new_config : config_t) (m : Merge) :
    (reload_merge new_config m).config
      = { new_config with
          file := m.config.file, generation := m.config.generation,
          epoch_attempt := m.config.epoch_attempt, epoch_changed := m.config.epoch_changed,
          epoch_success := m.config.epoch_success } := by
  simp only [reload_merge, IF_NUM_OPT_CHANGED_config, IF_STR_OPT_CHANGED_config,
    reload_syslog_config, implies_true]

theorem argv_same_iff (old new : List CStr) :
    (old = (new.drop 0).take old.length ∧ new.drop old.length = []) ↔ old = new := by
  constructor
  · rintro ⟨h1, h2⟩
    have h3 := List.take_append_drop old.length new
    rw [h2, List.append_nil] at h3
    rw [List.drop_zero] at h1
    rw [← h3]; exact h1
  · intro h
    subst h
    simp

theorem reload_merge_changed (new_config : config_t) (m : Merge) :
    (reload_merge new_config m).config_changed
      = if same_settings m.config new_config then m.config_changed else 1 := by
  simp only [reload_merge, reload_new_addrs_changed, reload_old_addrs_changed,
    IF_NUM_OPT_CHANGED_changed, IF_STR_OPT_CHANGED_changed, reload_syslog_changed,
    IF_NUM_OPT_CHANGED_config, IF_STR_OPT_CHANGED_config, reload_syslog_config, implies_true,
    config_t.argc]
  by_cases hs : same_settings m.config new_config
  · rw [if_pos hs]
    obtain ⟨h1, h2, h3, h4, h5, h6, h7, h8, h9, h10, h11, h12⟩ := hs
    have ha := (argv_same_iff m.config.argv new_config.argv).mpr h12
    rw [if_pos ha.2, if_pos ha.1]
    rw [if_pos h11, if_pos h10, if_pos h9, if_pos h8, if_pos h7, if_pos h6, if_pos h5, if_pos h4,
      if_pos h3, if_pos h2, if_pos trivial, if_pos h1]
  · rw [if_neg hs]
    by_cases a1 : m.config.syslog_to_stderr = new_config.syslog_to_stderr
    swap
    · simp only [if_neg a1, ite_self]
    by_cases a2 : m.config.tcp_send_timeout_sec = new_config.tcp_send_timeout_sec
    swap
    · simp only [if_neg a2, ite_self]
    by_cases a3 : m.config.polling_interval_millisec = new_config.polling_interval_millisec
    swap
    · simp only [if_neg a3, ite_self]
    by_cases a4 : m.config.sleep_after_disaster_millisec = new_config.sleep_after_disaster_millisec
    swap
    · simp only [if_neg a4, ite_self]
    by_cases a5 : m.config.server_socket_rcvbuf_bytes = new_config.server_socket_rcvbuf_bytes
    swap
    · simp only [if_neg a5, ite_self]
    by_cases a6 : m.config.spillway_root = new_config.spillway_root
    swap
    · simp only [if_neg a6, ite_self]
    by_cases a7 : m.config.spill_usec = new_config.spill_usec
    swap
    · simp only [if_neg a7, ite_self]
    by_cases a8 : m.config.graphite.addr = new_config.graphite.addr
    swap
    · simp only [if_neg a8, ite_self]
    by_cases a9 : m.config.graphite.target = new_config.graphite.target
    swap
    · simp only [if_neg a9, ite_self]
    by_cases a10 : m.config.graphite.send_interval_millisec = new_config.graphite.send_interval_millisec
    swap
    · simp only [if_neg a10, ite_self]
    by_cases a11 : m.config.graphite.sleep_poll_interval_millisec = new_config.graphite.sleep_poll_interval_millisec
    swap
    · simp only [if_neg a11, ite_self]
    by_cases a12 : m.config.argv = List.take m.config.argv.length (List.drop 0 new_config.argv)
    swap
    · simp only [if_neg a12, ite_self]
    by_cases a13 : List.drop m.config.argv.length new_config.argv = []
    swap
    · simp only [if_neg a13, ite_self]
    exact absurd ⟨a1, a2, a3, a4, a5, a6, a7, a8, a9, a10, a11,
      (argv_same_iff _ _).mp ⟨a12, a13⟩⟩ hs

/-! ## Lemmas on the `Stopping forward socket` notices of a trace -/

theorem changed_fmt_not_stopping (name sfx : String) (args : List Arg) :
    is_stopping_notice (.say ("Changed '" ++ name ++ sfx) args) = false := by
  have h : ("Changed '" ++ name ++ sfx) ≠ "Stopping forward socket to '%s'" := by
    intro h
    have h2 := congrArg (fun s => s.data.head?) h
    simp [String.data_append] at h2
  simp [is_stopping_notice, h]

theorem IF_NUM_OPT_CHANGED_stopping (name : String) (get : config_t → Nat)
    (set : config_t → Nat → config_t) (new_config : config_t) (m : Merge) :
    (IF_NUM_OPT_CHANGED name get set new_config m).trace.filter is_stopping_notice
      = m.trace.filter is_stopping_notice := by
  unfold IF_NUM_OPT_CHANGED
  split
  · simp [List.filter_append, changed_fmt_not_stopping]
  · rfl

theorem IF_STR_OPT_CHANGED_stopping (name : String) (get : config_t → CStr)
    (set : config_t → CStr → config_t) (new_config : config_t) (m : Merge) :
    (IF_STR_OPT_CHANGED name get set new_config m).trace.filter is_stopping_notice
      = m.trace.filter is_stopping_notice := by
  unfold IF_STR_OPT_CHANGED
  split
  · simp [List.filter_append, changed_fmt_not_stopping]
  · rfl

theorem reload_syslog_stopping (new_config : config_t) (m : Merge) :
    (reload_syslog new_config m).trace.filter is_stopping_notice
      = m.trace.filter is_stopping_notice := by
  unfold reload_syslog
  split
  · split <;> simp [List.filter_append, is_stopping_notice]
  · rfl

theorem reload_new_addrs_stopping (l : List CStr) :
    ∀ (i : Nat) (k : Nat × List Event),
      (reload_new_addrs i l k).2.filter is_stopping_notice = k.2.filter is_stopping_notice := by
  induction l with
  | nil => intro i k; simp [reload_new_addrs]
  | cons a rest ih =>
    intro i k
    simp [reload_new_addrs, ih, List.filter_append, is_stopping_notice]

theorem reload_old_addrs_stopping (generation : Nat) (new_argv : List CStr) (old : List CStr) :
    ∀ (i : Nat) (k : Nat × List Event),
      (reload_old_addrs generation new_argv i old k).2.filter is_stopping_notice
        = k.2.filter is_stopping_notice
          ++ (old.drop (new_argv.length - i)).map stopping_notice := by
  induction old with
  | nil => intro i k; simp [reload_old_addrs]
  | cons a rest ih =>
    intro i k
    simp only [reload_old_addrs, ih]
    rcases hi : new_argv[i]? with _ | b
    · have hlen : new_argv.length ≤ i := by
        rcases Nat.lt_or_ge i new_argv.length with h | h
        · rw [List.getElem?_eq_getElem h] at hi; cases hi
        · exact h
      have e1 : new_argv.length - (i + 1) = 0 := by omega
      have e2 : new_argv.length - i = 0 := by omega
      simp [e1, e2, List.filter_append, is_stopping_notice, stopping_notice]
    · have hlt : i < new_argv.length := by
        rcases Nat.lt_or_ge i new_argv.length with h | h
        · exact h
        · rw [List.getElem?_eq_none h] at hi; cases hi
      have e1 : new_argv.length - i = (new_argv.length - (i + 1)) + 1 := by omega
      rw [e1, List.drop_succ_cons]
      congr 1
      simp only
      split
      · split <;> simp [List.filter_append, is_stopping_notice]
      · rfl

theorem config_dump_stopping (config : config_t) :
    (config_dump config).filter is_stopping_notice = [] := by
  unfold config_dump
  rw [List.filter_append, List.filter_append]
  have h1 : ∀ l : List CStr,
      (l.map (fun a => Event.say "forward address = %s" [.str a])).filter is_stopping_notice
        = [] := by
    intro l
    induction l with
    | nil => rfl
    | cons a r ih => simp [is_stopping_notice] at ih ⊢
  rw [h1]
  cases config.argv <;> simp [is_stopping_notice]

theorem CONFIG_VALID_NUM_stopping (t : Nat → Bool) (name : String) (v : Nat) (k : Check) :
    (CONFIG_VALID_NUM t name v k).trace.filter is_stopping_notice
      = k.trace.filter is_stopping_notice := by
  unfold CONFIG_VALID_NUM
  split <;> simp [List.filter_append, is_stopping_notice]

theorem CONFIG_VALID_STR_stopping (ok : Bool) (name : String) (v : CStr) (k : Check) :
    (CONFIG_VALID_STR ok name v k).trace.filter is_stopping_notice
      = k.trace.filter is_stopping_notice := by
  unfold CONFIG_VALID_STR
  split <;> simp [List.filter_append, is_stopping_notice]

theorem CONFIG_VALID_SOCKETIZE_stopping (env : Env) (p d : Nat) (name : String) (v : CStr)
    (k : Check) :
    (CONFIG_VALID_SOCKETIZE env p d name v k).trace.filter is_stopping_notice
      = k.trace.filter is_stopping_notice := by
  unfold CONFIG_VALID_SOCKETIZE
  split <;> simp [List.filter_append, is_stopping_notice]

theorem forward_check_stopping (env : Env) (l : List CStr) :
    ∀ k : Check,
      (l.foldl (fun k a =>
          CONFIG_VALID_SOCKETIZE env IPPROTO_TCP RELAY_CONN_IS_OUTBOUND "argv[i]" a k) k).trace.filter
        is_stopping_notice = k.trace.filter is_stopping_notice := by
  induction l with
  | nil => intro k; rfl
  | cons a r ih => intro k; rw [List.foldl_cons, ih, CONFIG_VALID_SOCKETIZE_stopping]

theorem filter_snoc_say (tr : List Event) (fmt : String) (args : List Arg)
    (h : fmt ≠ "Stopping forward socket to '%s'") :
    (tr ++ [Event.say fmt args]).filter is_stopping_notice = tr.filter is_stopping_notice := by
  simp [List.filter_append, is_stopping_notice, h]

theorem config_valid_run_stopping (env : Env) (config : config_t) :
    (config_valid_run env config).trace.filter is_stopping_notice = [] := by
  unfold config_valid_run
  simp only
  have h10 : ∀ k : Check, k.trace.filter is_stopping_notice = [] →
      (match config.argv with
        | [] => ({ invalid := k.invalid + 1,
                   trace := k.trace ++ [Event.say "Missing listener address" []] } : Check)
        | a :: _ =>
          CONFIG_VALID_SOCKETIZE env IPPROTO_UDP RELAY_CONN_IS_INBOUND "argv[0]" a k).trace.filter
        is_stopping_notice = [] := by
    intro k hk
    split
    · simp only []
      rw [filter_snoc_say _ "Missing listener address" _ (by decide), hk]
    · rw [CONFIG_VALID_SOCKETIZE_stopping, hk]
  have h9 : (CONFIG_VALID_NUM is_valid_millisec "graphite.sleep_poll_interval_millisec"
              config.graphite.sleep_poll_interval_millisec
              (CONFIG_VALID_NUM is_valid_millisec "graphite.send_interval_millisec"
                config.graphite.send_interval_millisec
                (CONFIG_VALID_STR (is_valid_graphite_target config.graphite.target) "graphite.target"
                  config.graphite.target
                  (CONFIG_VALID_SOCKETIZE env IPPROTO_TCP RELAY_CONN_IS_OUTBOUND "graphite.addr"
                    config.graphite.addr
                    (CONFIG_VALID_NUM is_valid_microsec "spill_usec" config.spill_usec
                      (CONFIG_VALID_STR (is_valid_directory env config.spillway_root) "spillway_root"
                        config.spillway_root
                        (CONFIG_VALID_NUM is_valid_buffer_size "server_socket_rcvbuf_bytes"
                          config.server_socket_rcvbuf_bytes
                          (CONFIG_VALID_NUM is_valid_millisec "sleep_after_disaster_millisec"
                            config.sleep_after_disaster_millisec
                            (CONFIG_VALID_NUM is_valid_millisec "polling_interval_millisec"
                              config.polling_interval_millisec
                              (CONFIG_VALID_NUM is_valid_sec "tcp_send_timeout_sec"
                                config.tcp_send_timeout_sec
                                { invalid := 0, trace := [] })))))))))).trace.filter
            is_stopping_notice = [] := by
    simp only [CONFIG_VALID_NUM_stopping, CONFIG_VALID_STR_stopping,
      CONFIG_VALID_SOCKETIZE_stopping, List.filter_nil]
  split
  · simp only []
    rw [filter_snoc_say _ "Missing forward addresses" _ (by decide)]
    exact h10 _ h9
  · rw [forward_check_stopping]
    exact h10 _ h9

theorem orElse_some {α : Type} (a b : Option α) (x : α) (h : (a <|> b) = some x) :
    a = some x ∨ b = some x := by
  cases a with
  | none => right; simpa using h
  | some y => left; simpa using h

theorem TRY_NUM_OPT_stopping (name : String) (set : config_t → Nat → config_t) (line p : CStr)
    (config c : config_t) (w : List Event)
    (h : TRY_NUM_OPT name set line p config = some (c, w)) :
    w.filter is_stopping_notice = [] := by
  unfold TRY_NUM_OPT at h
  split at h
  · split at h
    · cases h; rfl
    · cases h; simp [is_stopping_notice]
  · cases h

theorem TRY_STR_OPT_stopping (name : String) (set : config_t → CStr → config_t) (line p : CStr)
    (config c : config_t) (w : List Event)
    (h : TRY_STR_OPT name set line p config = some (c, w)) :
    w.filter is_stopping_notice = [] := by
  unfold TRY_STR_OPT at h
  split at h
  · cases h; rfl
  · cases h

theorem try_opt_stopping (line p : CStr) (config c : config_t) (w : List Event)
    (h : try_opt line p config = some (c, w)) : w.filter is_stopping_notice = [] := by
  unfold try_opt at h
  rcases orElse_some _ _ _ h with h | h
  · exact TRY_NUM_OPT_stopping _ _ _ _ _ _ _ h
  rcases orElse_some _ _ _ h with h | h
  · exact TRY_NUM_OPT_stopping _ _ _ _ _ _ _ h
  rcases orElse_some _ _ _ h with h | h
  · exact TRY_NUM_OPT_stopping _ _ _ _ _ _ _ h
  rcases orElse_some _ _ _ h with h | h
  · exact TRY_NUM_OPT_stopping _ _ _ _ _ _ _ h
  rcases orElse_some _ _ _ h with h | h
  · exact TRY_NUM_OPT_stopping _ _ _ _ _ _ _ h
  rcases orElse_some _ _ _ h with h | h
  · exact TRY_STR_OPT_stopping _ _ _ _ _ _ _ h
  rcases orElse_some _ _ _ h with h | h
  · exact TRY_NUM_OPT_stopping _ _ _ _ _ _ _ h
  rcases orElse_some _ _ _ h with h | h
  · exact TRY_STR_OPT_stopping _ _ _ _ _ _ _ h
  rcases orElse_some _ _ _ h with h | h
  · exact TRY_STR_OPT_stopping _ _ _ _ _ _ _ h
  rcases orElse_some _ _ _ h with h | h
  · exact TRY_NUM_OPT_stopping _ _ _ _ _ _ _ h
  · exact TRY_NUM_OPT_stopping _ _ _ _ _ _ _ h

theorem config_from_file_loop_stopping (file : CStr) (lines : List (List Char)) :
    ∀ (line_num : Nat) (config : config_t) (tr : List Event),
      (config_from_file_loop file line_num lines config tr).2.filter is_stopping_notice
        = tr.filter is_stopping_notice := by
  induction lines with
  | nil => intro n c tr; rfl
  | cons raw more ih =>
    intro n c tr
    simp only [config_from_file_loop]
    split
    · exact ih _ _ _
    · split
      · split
        · simp [List.filter_append, is_stopping_notice]
        · split
          · next c2 w hw =>
            rw [ih, List.filter_append, try_opt_stopping _ _ _ _ _ hw, List.append_nil]
          · simp [List.filter_append, is_stopping_notice]
      · exact ih _ _ _

theorem config_from_file_run_stopping (env : Env) (D : Defaults) (file : Option CStr) :
    (config_from_file_run env D file).2.filter is_stopping_notice = [] := by
  unfold config_from_file_run
  cases file with
  | none => simp [is_stopping_notice]
  | some file =>
    simp only
    cases hc : env.fopen file with
    | none => simp [List.filter_append, is_stopping_notice]
    | some content =>
      simp only
      have h := config_from_file_loop_stopping file (getlines content) 0
        (config_set_defaults D config_calloc) [.say "Loading config file %s" [.str file]]
      rcases hl : config_from_file_loop file 0 (getlines content)
        (config_set_defaults D config_calloc) [.say "Loading config file %s" [.str file]]
        with ⟨_ | c, tr⟩
      · rw [hl] at h
        simpa [is_stopping_notice] using h
      · rw [hl] at h
        have h2 : tr.filter is_stopping_notice = [] := by simpa [is_stopping_notice] using h
        simp only
        split
        · simp only [List.filter_append, h2, config_valid_run_stopping, config_dump_stopping,
            List.append_nil]
          rfl
        · simp only
          rw [filter_snoc_say _ "Loaded config file %s" _ (by decide), h2]

theorem config_to_file_stopping (env : Env) (config : config_t) (fd : Int) :
    (config_to_file env config fd).2.filter is_stopping_notice = [] := by
  unfold config_to_file
  simp only
  split
  · split <;> simp [is_stopping_notice]
  · simp [is_stopping_notice]

theorem config_save_stopping (env : Env) (config : config_t) (now : Int) :
    (config_save env config now).2.filter is_stopping_notice = [] := by
  unfold config_save
  split
  · simp [is_stopping_notice]
  · simp only
    split
    · simp [is_stopping_notice]
    · split
      · simp [is_stopping_notice]
      · split
        · simp [is_stopping_notice]
        · split
          · simp [List.filter_append, is_stopping_notice, config_to_file_stopping]
          · split
            · simp [List.filter_append, is_stopping_notice, config_to_file_stopping]
            · split
              · simp [List.filter_append, is_stopping_notice, config_to_file_stopping]
              · split <;>
                  simp [List.filter_append, is_stopping_notice, config_to_file_stopping]

/-! ## Lemmas on `config_reload` -/

theorem config_from_file_valid (env : Env) (D : Defaults) (file : Option CStr) (c : config_t)
    (h : config_from_file env D file = some c) : config_valid env c = true := by
  unfold config_from_file config_from_file_run at h
  cases file with
  | none => simp at h
  | some file =>
    simp only at h
    cases hc : env.fopen file with
    | none => rw [hc] at h; simp at h
    | some content =>
      rw [hc] at h
      simp only at h
      rcases hl : config_from_file_loop file 0 (getlines content)
        (config_set_defaults D config_calloc) [.say "Loading config file %s" [.str file]]
        with ⟨_ | c2, tr⟩
      · rw [hl] at h; simp at h
      · rw [hl] at h
        simp only at h
        by_cases hv : config_valid env c2 = true
        · simp only [hv, Bool.not_true, Bool.false_eq_true, if_false] at h
          cases h
          exact hv
        · simp only [hv, Bool.not_false, if_true] at h
          simp at h

theorem merged_changed_cases (config new_config : config_t) :
    merged_changed config new_config = 0 ∨ merged_changed config new_config = 1 := by
  unfold merged_changed
  split
  · left; rfl
  · right; rfl

section
attribute [local irreducible] reload_merge config_from_file_run config_save config_valid_run
  config_dump

theorem config_reload_loaded (env : Env) (D : Defaults) (now : Int) (config new_config : config_t)
    (h : config_from_file env D config.file = some new_config) :
    (config_reload env D now config).outcome = .ret (merged_changed config new_config) ∧
    (config_reload env D now config).config = merged_config now config new_config ∧
    (config_reload env D now config).saves = [(merged_config now config new_config, now)] := by
  have hv := config_from_file_valid env D config.file new_config h
  unfold config_from_file at h
  have hsame : same_settings { config with epoch_attempt := now } new_config
      ↔ same_settings config new_config := Iff.rfl
  have hm : ∀ tr, (reload_merge new_config
      { config := { config with epoch_attempt := now },
        config_changed := if config.generation = 0 then 1 else 0,
        trace := tr }).config_changed = merged_changed config new_config := by
    intro tr
    rw [reload_merge_changed]
    unfold merged_changed
    simp only [hsame]
    by_cases hg : config.generation = 0 <;> by_cases hs : same_settings config new_config <;>
      simp [hg, hs]
  simp only [config_reload, config_reload_rechecked, h, hv, Bool.not_true, Bool.false_eq_true,
    if_false, reload_out, reload_merge_config, hm]
  rcases merged_changed_cases config new_config with h0 | h1
  · simp [merged_config, h0]
  · simp [merged_config, h1]

end

theorem orElse_none {α : Type} (a b : Option α) : (a <|> b) = none ↔ a = none ∧ b = none := by
  cases a <;> simp

theorem TRY_NUM_OPT_none (name : String) (set : config_t → Nat → config_t) (line p : CStr)
    (config : config_t) : TRY_NUM_OPT name set line p config = none ↔ name.toList ≠ line := by
  unfold TRY_NUM_OPT STREQ
  by_cases h : name.toList = line
  · simp only [h, beq_self_eq_true, if_true]
    split <;> simp
  · have h2 : (name.toList == line) = false := by simpa using h
    simp only [h2, Bool.false_eq_true, if_false, ne_eq, h, not_false_eq_true]

theorem TRY_STR_OPT_none (name : String) (set : config_t → CStr → config_t) (line p : CStr)
    (config : config_t) : TRY_STR_OPT name set line p config = none ↔ name.toList ≠ line := by
  unfold TRY_STR_OPT STREQ
  by_cases h : name.toList = line
  · simp [h]
  · have h2 : (name.toList == line) = false := by simpa using h
    simp only [h2, Bool.false_eq_true, if_false, ne_eq, h, not_false_eq_true]

theorem try_opt_none (line p : CStr) (config : config_t) :
    try_opt line p config = none ↔ option_names.contains line = false := by
  unfold try_opt option_names
  simp only [orElse_none, TRY_NUM_OPT_none, TRY_STR_OPT_none, List.contains_eq_any_beq,
    List.any_cons, List.any_nil, Bool.or_false, Bool.or_eq_false_iff, beq_eq_false_iff_ne, ne_eq,
    and_assoc]
  constructor
  · rintro ⟨h1, h2, h3, h4, h5, h6, h7, h8, h9, h10, h11⟩
    exact ⟨Ne.symm h1, Ne.symm h2, Ne.symm h3, Ne.symm h4, Ne.symm h5, Ne.symm h6, Ne.symm h7,
      Ne.symm h8, Ne.symm h9, Ne.symm h10, Ne.symm h11⟩
  · rintro ⟨h1, h2, h3, h4, h5, h6, h7, h8, h9, h10, h11⟩
    exact ⟨Ne.symm h1, Ne.symm h2, Ne.symm h3, Ne.symm h4, Ne.symm h5, Ne.symm h6, Ne.symm h7,
      Ne.symm h8, Ne.symm h9, Ne.symm h10, Ne.symm h11⟩

theorem strchr_some_ne_nil (s p : CStr) (c : Char) (h : strchr s c = some p) : s ≠ [] := by
  intro hs
  subst hs
  simp [strchr] at h

theorem config_from_file_loop_none (file : CStr) (lines : List (List Char)) :
    ∀ (line_num : Nat) (config : config_t) (tr : List Event),
      (config_from_file_loop file line_num lines config tr).1 = none
        ↔ ∃ raw ∈ lines, line_rejected raw = true := by
  induction lines with
  | nil => intro n c tr; simp [config_from_file_loop]
  | cons raw more ih =>
    intro n c tr
    simp only [config_from_file_loop, List.mem_cons, exists_eq_or_imp]
    rcases hp : strchr (clean_line raw) '=' with _ | p
    · have hr : line_rejected raw = false := by unfold line_rejected; rw [hp]
      simp only [hr, Bool.false_eq_true, false_or]
      split
      · exact ih _ _ _
      · exact ih _ _ _
    · have hne := strchr_some_ne_nil _ _ _ hp
      simp only [hne, if_false]
      by_cases h1 : p.length = 1
      · have hr : line_rejected raw = true := by
          unfold line_rejected; rw [hp]; simp [h1]
        simp [h1, hr]
      · simp only [h1, if_false]
        rcases ht : try_opt (cut_at '=' (clean_line raw)) p.tail c with _ | ⟨c2, w⟩
        · have hc := (try_opt_none _ _ _).mp ht
          have hr : line_rejected raw = true := by
            unfold line_rejected; rw [hp]; simp only [hc]; simp
          simp [hr]
        · have hn : option_names.contains (cut_at '=' (clean_line raw)) = true := by
            rcases hb : option_names.contains (cut_at '=' (clean_line raw)) with _ | _
            · have := (try_opt_none (cut_at '=' (clean_line raw)) p.tail c).mpr hb
              rw [ht] at this
              cases this
            · rfl
          have hr : line_rejected raw = false := by
            unfold line_rejected; rw [hp]; simp only [hn]; simp [h1]
          simp only [hr, Bool.false_eq_true, false_or]
          exact ih _ _ _

theorem config_from_file_none_of_unreadable (env : Env) (D : Defaults) (file : Option CStr)
    (h : source_unreadable env file) : config_from_file env D file = none := by
  unfold config_from_file config_from_file_run
  cases file with
  | none => rfl
  | some f => simp only [h f rfl]

theorem config_from_file_none_of_rejected (env : Env) (D : Defaults) (file : Option CStr)
    (h : source_has_rejected_line env file) : config_from_file env D file = none := by
  obtain ⟨f, content, hf, hc, hr⟩ := h
  subst hf
  unfold config_from_file config_from_file_run
  simp only [hc]
  have hl := (config_from_file_loop_none f (getlines content) 0
    (config_set_defaults D config_calloc) [.say "Loading config file %s" [.str f]]).mpr hr
  rcases hx : config_from_file_loop f 0 (getlines content)
    (config_set_defaults D config_calloc) [.say "Loading config file %s" [.str f]]
    with ⟨_ | c, tr⟩
  · rfl
  · rw [hx] at hl; cases hl

theorem config_from_file_none_of_invalid (env : Env) (D : Defaults) (file : Option CStr)
    (h : source_fails_validation env D file) : config_from_file env D file = none := by
  obtain ⟨f, content, c, hf, hc, hl, hv⟩ := h
  subst hf
  unfold config_from_file config_from_file_run
  simp only [hc]
  rcases hx : config_from_file_loop f 0 (getlines content)
    (config_set_defaults D config_calloc) [.say "Loading config file %s" [.str f]]
    with ⟨_ | c2, tr⟩
  · rfl
  · rw [hx] at hl
    cases hl
    simp [hv]

theorem config_from_file_none_iff (env : Env) (D : Defaults) (file : Option CStr) :
    config_from_file env D file = none ↔
      source_unreadable env file ∨ source_has_rejected_line env file
        ∨ source_fails_validation env D file := by
  constructor
  · intro h
    unfold config_from_file config_from_file_run at h
    cases file with
    | none => left; intro f hf; cases hf
    | some f =>
      simp only at h
      cases hc : env.fopen f with
      | none => left; intro g hg; cases hg; exact hc
      | some content =>
        rw [hc] at h
        simp only at h
        rcases hx : config_from_file_loop f 0 (getlines content)
          (config_set_defaults D config_calloc) [.say "Loading config file %s" [.str f]]
          with ⟨_ | c, tr⟩
        · right; left
          refine ⟨f, content, rfl, hc, ?_⟩
          apply (config_from_file_loop_none f (getlines content) 0
            (config_set_defaults D config_calloc) [.say "Loading config file %s" [.str f]]).mp
          rw [hx]
        · right; right
          rw [hx] at h
          simp only at h
          refine ⟨f, content, c, rfl, hc, ?_, ?_⟩
          · rw [hx]
          · by_cases hv : config_valid env c = true
            · simp [hv] at h
            · simpa using hv
  · rintro (h | h | h)
    · exact config_from_file_none_of_unreadable env D file h
    · exact config_from_file_none_of_rejected env D file h
    · exact config_from_file_none_of_invalid env D file h

section
attribute [local irreducible] reload_merge config_from_file_run config_save config_valid_run
  config_dump

theorem config_reload_load_failed (env : Env) (D : Defaults) (now : Int) (config : config_t)
    (h : config_from_file env D config.file = none) (hg : config.generation ≠ 0) :
    (config_reload env D now config).outcome = .ret 0 ∧
    (config_reload env D now config).config = { config with epoch_attempt := now } ∧
    (config_reload env D now config).saves = [] := by
  unfold config_from_file at h
  simp only [config_reload, config_reload_rechecked, h, hg, reload_out, ne_eq,
    not_false_eq_true, if_true, and_self]

theorem config_reload_first_load_failed (env : Env) (D : Defaults) (now : Int)
    (config : config_t) (h : config_from_file env D config.file = none)
    (hg : config.generation = 0) :
    (config_reload env D now config).outcome = .exit EXIT_FAILURE ∧
    (config_reload env D now config).config = { config with epoch_attempt := now } ∧
    (config_reload env D now config).saves = [] := by
  unfold config_from_file at h
  simp only [config_reload, config_reload_rechecked, h, hg, ne_eq, not_true_eq_false,
    if_false, and_self]

theorem config_reload_rechecked_first_load_failed (env recheck : Env) (D : Defaults)
    (now : Int) (config : config_t) (h : config_from_file env D config.file = none)
    (hg : config.generation = 0) :
    (config_reload_rechecked env recheck D now config).outcome = .exit EXIT_FAILURE := by
  unfold config_from_file at h
  simp only [config_reload_rechecked, h, hg, ne_eq, not_true_eq_false, if_false]

/-- When the snapshot loads but fails the validation made by `config_reload`
itself, the call returns 0 and only `epoch_attempt` is updated, at every
generation, 0 included. -/
theorem config_reload_recheck_failed (env recheck : Env) (D : Defaults) (now : Int)
    (config new_config : config_t)
    (h : config_from_file env D config.file = some new_config)
    (hv : config_valid recheck new_config = false) :
    (config_reload_rechecked env recheck D now config).outcome = .ret 0 ∧
    (config_reload_rechecked env recheck D now config).config
      = { config with epoch_attempt := now } ∧
    (config_reload_rechecked env recheck D now config).saves = [] := by
  unfold config_from_file at h
  simp only [config_reload_rechecked, h, hv, Bool.not_false, if_true, reload_out, and_self]

end

theorem reload_merge_stopping (new_config : config_t) (m : Merge) :
    (reload_merge new_config m).trace.filter is_stopping_notice
      = m.trace.filter is_stopping_notice
        ++ (m.config.argv.drop new_config.argv.length).map stopping_notice := by
  simp only [reload_merge, reload_new_addrs_stopping, reload_old_addrs_stopping,
    IF_NUM_OPT_CHANGED_stopping, IF_STR_OPT_CHANGED_stopping, reload_syslog_stopping,
    IF_NUM_OPT_CHANGED_config, IF_STR_OPT_CHANGED_config, reload_syslog_config, implies_true,
    Nat.sub_zero]

section
attribute [local irreducible] reload_merge config_from_file_run config_save config_valid_run
  config_dump

theorem filter_singleton_ite (c : Prop) [Decidable c] (a b : Event)
    (ha : is_stopping_notice a = false) (hb : is_stopping_notice b = false) :
    List.filter is_stopping_notice [if c then a else b] = [] := by
  split <;> simp [ha, hb]

theorem config_reload_loaded_stopping (env : Env) (D : Defaults) (now : Int)
    (config new_config : config_t)
    (h : config_from_file env D config.file = some new_config) :
    (config_reload env D now config).trace.filter is_stopping_notice
      = (config.argv.drop new_config.argc).map stopping_notice := by
  have hv := config_from_file_valid env D config.file new_config h
  unfold config_from_file at h
  simp only [config_reload, config_reload_rechecked, h, hv, Bool.not_true, Bool.false_eq_true,
    if_false, reload_out,
    List.filter_append, reload_merge_stopping, config_from_file_run_stopping,
    config_valid_run_stopping, config_dump_stopping, config_save_stopping, config_t.argc]
  simp [apply_ite (List.filter is_stopping_notice), apply_ite is_stopping_notice,
    is_stopping_notice, config_dump_stopping, List.filter_append]
  rw [filter_singleton_ite, filter_singleton_ite]
  · simp
  all_goals rfl

end

theorem argv_eq_iff (a b : List CStr) :
    a = b ↔ ¬ (a.length ≠ b.length ∨ ∃ i, i < a.length ∧ i < b.length ∧ a[i]? ≠ b[i]?) := by
  constructor
  · intro h
    subst h
    simp
  · intro h
    have h1 : a.length = b.length := by
      by_contra hne
      exact h (Or.inl hne)
    apply List.ext_getElem? 
    intro i
    by_cases hi : i < a.length
    · by_contra hne
      exact h (Or.inr ⟨i, hi, h1 ▸ hi, hne⟩)
    · have hi2 : ¬ i < b.length := h1 ▸ hi
      rw [List.getElem?_eq_none (Nat.le_of_not_lt hi), List.getElem?_eq_none (Nat.le_of_not_lt hi2)]

theorem same_settings_iff (a b : config_t) : same_settings a b ↔ ¬ settings_differ a b := by
  constructor
  · rintro ⟨h1, h2, h3, h4, h5, h6, h7, h8, h9, h10, h11, h12⟩
    have ha := (argv_eq_iff a.argv b.argv).mp h12
    rintro (d | d | d | d | d | d | d | d | d | d | d | d | d)
    · exact d h1
    · exact d h2
    · exact d h3
    · exact d h4
    · exact d h5
    · exact d h6
    · exact d h7
    · exact d h8
    · exact d h9
    · exact d h10
    · exact d h11
    · exact ha (Or.inl d)
    · exact ha (Or.inr d)
  · intro h
    unfold settings_differ at h
    refine ⟨?_, ?_, ?_, ?_, ?_, ?_, ?_, ?_, ?_, ?_, ?_, ?_⟩
    · by_contra n; exact h (Or.inl n)
    · by_contra n; exact h (Or.inr (Or.inl n))
    · by_contra n; exact h (Or.inr (Or.inr (Or.inl n)))
    · by_contra n; exact h (Or.inr (Or.inr (Or.inr (Or.inl n))))
    · by_contra n; exact h (Or.inr (Or.inr (Or.inr (Or.inr (Or.inl n)))))
    · by_contra n; exact h (Or.inr (Or.inr (Or.inr (Or.inr (Or.inr (Or.inl n))))))
    · by_contra n; exact h (Or.inr (Or.inr (Or.inr (Or.inr (Or.inr (Or.inr (Or.inl n)))))))
    · by_contra n
      exact h (Or.inr (Or.inr (Or.inr (Or.inr (Or.inr (Or.inr (Or.inr (Or.inl n))))))))
    · by_contra n
      exact h (Or.inr (Or.inr (Or.inr (Or.inr (Or.inr (Or.inr (Or.inr (Or.inr (Or.inl n)))))))))
    · by_contra n
      exact h (Or.inr (Or.inr (Or.inr (Or.inr (Or.inr (Or.inr (Or.inr (Or.inr
        (Or.inr (Or.inl n))))))))))
    · by_contra n
      exact h (Or.inr (Or.inr (Or.inr (Or.inr (Or.inr (Or.inr (Or.inr (Or.inr
        (Or.inr (Or.inr (Or.inl n)))))))))))
    · apply (argv_eq_iff a.argv b.argv).mpr
      rintro (d | d)
      · exact h (Or.inr (Or.inr (Or.inr (Or.inr (Or.inr (Or.inr (Or.inr (Or.inr
          (Or.inr (Or.inr (Or.inr (Or.inl d))))))))))))
      · exact h (Or.inr (Or.inr (Or.inr (Or.inr (Or.inr (Or.inr (Or.inr (Or.inr
          (Or.inr (Or.inr (Or.inr (Or.inr d))))))))))))

/-! ## Lemmas on the text the persister writes -/

theorem digitChar_isdigit : ∀ d, d < 10 → isdigit (Nat.digitChar d) = true := by decide

theorem toDigitsCore_isdigit (fuel : Nat) :
    ∀ (n : Nat) (acc : List Char), (∀ c ∈ acc, isdigit c = true) →
      ∀ c ∈ Nat.toDigitsCore 10 fuel n acc, isdigit c = true := by
  induction fuel with
  | zero => intro n acc h; simpa [Nat.toDigitsCore] using h
  | succ f ih =>
    intro n acc h
    have hd : ∀ c ∈ Nat.digitChar (n % 10) :: acc, isdigit c = true := by
      intro c hc
      rcases List.mem_cons.mp hc with hc | hc
      · rw [hc]; exact digitChar_isdigit _ (Nat.mod_lt _ (by decide))
      · exact h c hc
    simp only [Nat.toDigitsCore]
    split
    · exact hd
    · exact ih _ _ hd

theorem toDigitsCore_ne_nil (fuel : Nat) :
    ∀ (n : Nat) (acc : List Char), acc ≠ [] → Nat.toDigitsCore 10 fuel n acc ≠ [] := by
  induction fuel with
  | zero => intro n acc h; simpa [Nat.toDigitsCore] using h
  | succ f ih =>
    intro n acc _
    simp only [Nat.toDigitsCore]
    split
    · simp
    · exact ih _ _ (by simp)

theorem decimal_isdigit (n : Nat) : ∀ c ∈ decimal n, isdigit c = true :=
  toDigitsCore_isdigit (n + 1) n [] (by simp)

theorem decimal_ne_nil (n : Nat) : decimal n ≠ [] := by
  unfold decimal Nat.toDigits
  simp only [Nat.toDigitsCore]
  split
  · simp
  · exact toDigitsCore_ne_nil _ _ _ (by simp)

theorem fmt_d_chars (v : Nat) : ∀ c ∈ fmt_d v, is_number_char c = true := by
  intro c hc
  unfold fmt_d at hc
  unfold is_number_char
  split at hc
  · simp [decimal_isdigit _ c hc]
  · rcases List.mem_cons.mp hc with h | h
    · simp [h]
    · simp [decimal_isdigit _ c h]

theorem fmt_d_ne_nil (v : Nat) : fmt_d v ≠ [] := by
  unfold fmt_d
  split
  · exact decimal_ne_nil _
  · simp

theorem getlines_aux_line (l : List Char) (hl : ∀ c ∈ l, c ≠ '\n') :
    ∀ (acc rest : List Char),
      getlines_aux acc (l ++ '\n' :: rest) = (acc.reverse ++ l ++ ['\n']) :: getlines_aux [] rest := by
  induction l with
  | nil => intro acc rest; simp [getlines_aux]
  | cons a t ih =>
    intro acc rest
    have ha : a ≠ '\n' := hl a (List.mem_cons_self _ _)
    have ht : ∀ c ∈ t, c ≠ '\n' := fun c hc => hl c (List.mem_cons_of_mem _ hc)
    have e : getlines_aux acc (a :: t ++ '\n' :: rest)
        = getlines_aux (a :: acc) (t ++ '\n' :: rest) := by
      show getlines_aux acc (a :: (t ++ '\n' :: rest)) = _
      simp only [getlines_aux, ha, if_false]
    rw [e, ih ht]
    simp

theorem getlines_line (l rest : List Char) (hl : ∀ c ∈ l, c ≠ '\n') :
    getlines (l ++ '\n' :: rest) = (l ++ ['\n']) :: getlines rest := by
  unfold getlines
  rw [getlines_aux_line l hl]
  simp

theorem clean_line_text (s : CStr) (h0 : ∀ c ∈ s, c ≠ NUL ∧ c ≠ '#')
    (hh : ∀ c, s.head? = some c → isspace c = false)
    (hz : ∀ c, s.getLast? = some c → isspace c = false) :
    clean_line (s ++ ['\n']) = s := by
  have hnl : ('\n' != NUL) = true ∧ ('\n' != '#') = true := by decide
  have h1 : cstr (s ++ ['\n']) = s ++ ['\n'] := by
    unfold cstr
    rw [List.takeWhile_eq_self_iff]
    intro c hc
    rcases List.mem_append.mp hc with h | h
    · simpa using (h0 c h).1
    · rw [List.mem_singleton.mp h]; exact hnl.1
  have h2 : cut_at '#' (s ++ ['\n']) = s ++ ['\n'] := by
    unfold cut_at
    rw [List.takeWhile_eq_self_iff]
    intro c hc
    rcases List.mem_append.mp hc with h | h
    · simpa using (h0 c h).2
    · rw [List.mem_singleton.mp h]; exact hnl.2
  unfold clean_line
  rw [h1, h2]
  unfold trim_space
  cases s with
  | nil => decide
  | cons a t =>
    have ha : isspace a = false := hh a rfl
    have h3 : (a :: t ++ ['\n']).dropWhile isspace = a :: t ++ ['\n'] := by
      simp [List.dropWhile, ha]
    rw [h3]
    have h4 : (a :: t ++ ['\n']).reverse = '\n' :: (a :: t).reverse := by simp
    rw [h4]
    have h5 : ('\n' :: (a :: t).reverse).dropWhile isspace = (a :: t).reverse := by
      have hsp : isspace '\n' = true := by decide
      rw [List.dropWhile_cons, if_pos hsp]
      rcases hr : (a :: t).reverse with _ | ⟨z, r⟩
      · rfl
      · have hz2 : (a :: t).getLast? = some z := by
          rw [List.getLast?_eq_head?_reverse, hr]; rfl
        simp [List.dropWhile, hz z hz2]
    rw [h5, List.reverse_reverse]

theorem config_to_bufferf_eq_lines (config : config_t) (buf : bufferf) :
    config_to_bufferf config buf = config_to_bufferf_argv (config_lines config) buf := by
  rfl

theorem config_to_bufferf_argv_ok (l : List CStr) :
    ∀ (buf res : bufferf), config_to_bufferf_argv l buf = (1, res) →
      res.buf = buf.buf ++ unlines l := by
  induction l with
  | nil =>
    intro buf res h
    simp only [config_to_bufferf_argv, Prod.mk.injEq, true_and] at h
    simp [unlines, h]
  | cons a rest ih =>
    intro buf res h
    simp only [config_to_bufferf_argv] at h
    split at h
    · simp at h
    · next hne =>
      have hb : (append_to_bufferf buf (a ++ ['\n'])).2.buf = buf.buf ++ (a ++ ['\n']) := by
        by_cases hge : (a ++ ['\n']).length ≥ 4096 - buf.offset
        · exact absurd (by simp only [append_to_bufferf, hge, if_true]) hne
        · simp only [append_to_bufferf, hge, if_false]
      rw [ih _ _ h, hb]
      simp [unlines]

theorem config_to_bufferf_ok (config : config_t) (res : bufferf)
    (h : config_to_bufferf config { buf := [] } = (1, res)) :
    res.buf = unlines (config_lines config) := by
  rw [config_to_bufferf_eq_lines] at h
  simpa using config_to_bufferf_argv_ok _ _ _ h

theorem first_persisted_line_rejected (v : Nat) :
    line_rejected (("syslog_to_stderr = ".toList ++ fmt_d v) ++ ['\n']) = true := by
  have hc := fmt_d_chars v
  have hne := fmt_d_ne_nil v
  have e : "syslog_to_stderr = ".toList
      = ['s', 'y', 's', 'l', 'o', 'g', '_', 't', 'o', '_', 's', 't', 'd', 'e', 'r', 'r', ' ',
         '=', ' '] := by decide
  have hnum : ∀ c, is_number_char c = true →
      c ≠ NUL ∧ c ≠ '#' ∧ isspace c = false := by
    intro c h
    unfold is_number_char isdigit at h
    refine ⟨?_, ?_, ?_⟩
    · rintro rfl; revert h; decide
    · rintro rfl; revert h; decide
    · unfold isspace
      rcases Bool.or_eq_true _ _ ▸ h with h | h
      · simp only [Bool.and_eq_true, decide_eq_true_eq] at h
        have h1 : c.toNat ≠ 32 := by omega
        have h2 : ¬ c.toNat ≤ 13 := by omega
        simp [h1, h2]
      · have h3 : c = '-' := by simpa using h
        subst h3
        decide
  have hcl : clean_line (("syslog_to_stderr = ".toList ++ fmt_d v) ++ ['\n'])
      = "syslog_to_stderr = ".toList ++ fmt_d v := by
    apply clean_line_text
    · intro c hm
      have hlit : ∀ c ∈ "syslog_to_stderr = ".toList, c ≠ NUL ∧ c ≠ '#' := by decide
      rcases List.mem_append.mp hm with h | h
      · exact hlit c h
      · exact ⟨(hnum c (hc c h)).1, (hnum c (hc c h)).2.1⟩
    · intro c h
      rw [e] at h
      simp only [List.cons_append, List.head?_cons, Option.some.injEq] at h
      subst h
      decide
    · intro c h
      rw [List.getLast?_append_of_ne_nil _ hne] at h
      exact (hnum c (hc c (List.mem_of_getLast?_eq_some h))).2.2
  unfold line_rejected
  rw [hcl]
  have hs : strchr ("syslog_to_stderr = ".toList ++ fmt_d v) '='
      = some ('=' :: ' ' :: fmt_d v) := by
    rw [e]
    simp [strchr, List.dropWhile]
  have hk : cut_at '=' ("syslog_to_stderr = ".toList ++ fmt_d v)
      = "syslog_to_stderr ".toList := by
    rw [e]
    simp [cut_at, List.takeWhile]
  rw [hs]
  simp only [hk]
  have hcon : option_names.contains "syslog_to_stderr ".toList = false := by decide
  rw [hcon]
  rfl

/-- No persisted configuration loads: when `config_to_bufferf` succeeds, the
loader rejects the text it produced, whatever the configuration. -/
theorem persisted_text_is_rejected (env : Env) (D : Defaults) (file : CStr)
    (config : config_t) (res : bufferf)
    (hs : config_to_bufferf config { buf := [] } = (1, res))
    (hf : env.fopen file = some res.buf) :
    config_from_file env D (some file) = none := by
  apply config_from_file_none_of_rejected
  refine ⟨file, res.buf, rfl, hf, ?_⟩
  rw [config_to_bufferf_ok config res hs]
  have hl : unlines (config_lines config)
      = ("syslog_to_stderr = ".toList ++ fmt_d config.syslog_to_stderr)
          ++ '\n' :: unlines (config_lines config).tail := rfl
  rw [hl, getlines_line]
  · exact ⟨_, List.mem_cons_self _ _, first_persisted_line_rejected _⟩
  · intro c hm
    have hlit : ∀ c ∈ "syslog_to_stderr = ".toList, c ≠ '\n' := by decide
    rcases List.mem_append.mp hm with h | h
    · exact hlit c h
    · have := fmt_d_chars _ c h
      rintro rfl
      revert this
      decide

/-! ## The claims -/

/-- C1 (failing input): the sample snapshot is accepted by `config_valid` and its
serialization fits the buffer of the persister, yet `config_from_file` rejects
the text `config_to_bufferf` produces for it: the first line reads
`syslog_to_stderr = 0`, and the name the loader compares is the text before `=`
with its trailing space. -/
theorem persisted_sample_does_not_load :
    config_valid (sample_env none) sample_snapshot = true ∧
    (config_to_bufferf sample_snapshot { buf := [] }).1 = 1 ∧
    config_from_file
      (sample_env (some (config_to_bufferf sample_snapshot { buf := [] }).2.buf))
      sample_defaults (some sample_file) = none := by
  set_option maxRecDepth 100000 in decide

/-- C2: when the source loads and validates, a second `config_reload` on the
unchanged source returns `changed = 0` and leaves `generation` at the value it
had after the first call. -/
theorem reload_twice_is_unchanged (env : Env) (D : Defaults) (now1 now2 : Int)
    (config new_config : config_t)
    (h : config_from_file env D config.file = some new_config) :
    (config_reload env D now2 (config_reload env D now1 config).config).outcome = .ret 0 ∧
    (config_reload env D now2 (config_reload env D now1 config).config).config.generation
      = (config_reload env D now1 config).config.generation := by
  obtain ⟨_, c1, _⟩ := config_reload_loaded env D now1 config new_config h
  rw [c1]
  have h2 : config_from_file env D (merged_config now1 config new_config).file
      = some new_config := h
  obtain ⟨o2, c2, _⟩ := config_reload_loaded env D now2 _ new_config h2
  have hg : (merged_config now1 config new_config).generation ≠ 0 := by
    show config.generation + merged_changed config new_config ≠ 0
    unfold merged_changed
    by_cases hz : config.generation = 0
    · simp [hz]
    · omega
  have hs : same_settings (merged_config now1 config new_config) new_config :=
    ⟨rfl, rfl, rfl, rfl, rfl, rfl, rfl, rfl, rfl, rfl, rfl, rfl⟩
  have hc : merged_changed (merged_config now1 config new_config) new_config = 0 := by
    unfold merged_changed
    rw [if_pos ⟨hg, hs⟩]
  rw [o2, c2, hc]
  refine ⟨rfl, ?_⟩
  show (merged_config now1 config new_config).generation
      + merged_changed (merged_config now1 config new_config) new_config
    = (merged_config now1 config new_config).generation
  rw [hc, Nat.add_zero]

/-- Witness of C2 on the sample source, loaded at start-up and reloaded. -/
theorem reload_twice_is_unchanged_witness :
    config_from_file (sample_env (some sample_source)) sample_defaults sample_start.file
      = some sample_snapshot ∧
    (config_reload (sample_env (some sample_source)) sample_defaults 60
      (config_reload (sample_env (some sample_source)) sample_defaults 50
        sample_start).config).outcome = .ret 0 ∧
    (config_reload (sample_env (some sample_source)) sample_defaults 60
      (config_reload (sample_env (some sample_source)) sample_defaults 50
        sample_start).config).config.generation
      = (config_reload (sample_env (some sample_source)) sample_defaults 50
          sample_start).config.generation :=
  ⟨by set_option maxRecDepth 100000 in decide,
   reload_twice_is_unchanged (sample_env (some sample_source)) sample_defaults 50 60
     sample_start sample_snapshot (by set_option maxRecDepth 100000 in decide)⟩

/-- At generation 0, when the source cannot be opened, contains a rejected
line or fails the validation made by `config_from_file`, `config_reload` ends
in the fatal outcome (exit with `EXIT_FAILURE`), whatever the world its own
validation would read. -/
theorem loader_failure_at_first_load_is_fatal (env recheck : Env) (D : Defaults) (now : Int)
    (config : config_t) (hg : config.generation = 0)
    (h : source_unreadable env config.file ∨ source_has_rejected_line env config.file
          ∨ source_fails_validation env D config.file) :
    (config_reload_rechecked env recheck D now config).outcome = .exit EXIT_FAILURE ∧
    ∀ c, (config_reload_rechecked env recheck D now config).outcome ≠ .ret c := by
  have hn := (config_from_file_none_iff env D config.file).mpr h
  have o := config_reload_rechecked_first_load_failed env recheck D now config hn hg
  refine ⟨o, ?_⟩
  intro c hc
  rw [o] at hc
  cases hc

/-- C3: at generation 0, with a source that loads and passes the validation of
`config_from_file`, but whose spill directory is gone when `config_reload`
validates the snapshot again, `config_reload` logs `Invalid new configuration,
ignoring it` and returns 0, the unchanged outcome, with only `epoch_attempt`
updated and generation 0 kept: the first load fails validation and the call
does not end in the fatal outcome. -/
theorem first_load_invalid_at_recheck_returns_unchanged :
    sample_start.generation = 0 ∧
    config_from_file (sample_env (some sample_source)) sample_defaults sample_start.file
      = some sample_snapshot ∧
    config_valid vanished_directory_env sample_snapshot = false ∧
    (config_reload_rechecked (sample_env (some sample_source)) vanished_directory_env
      sample_defaults 50 sample_start).outcome = .ret 0 ∧
    (config_reload_rechecked (sample_env (some sample_source)) vanished_directory_env
      sample_defaults 50 sample_start).config = { sample_start with epoch_attempt := 50 } ∧
    Event.say "Invalid new configuration, ignoring it" []
      ∈ (config_reload_rechecked (sample_env (some sample_source)) vanished_directory_env
          sample_defaults 50 sample_start).trace := by
  refine ⟨rfl, ?_, ?_, ?_, ?_, ?_⟩
  · set_option maxRecDepth 100000 in decide
  · set_option maxRecDepth 100000 in decide
  · set_option maxRecDepth 100000 in decide
  · set_option maxRecDepth 100000 in decide
  · set_option maxRecDepth 100000 in decide

/-- C4: at generation above 0, when the load or the validation of the source
fails, `config_reload` returns `changed = 0` and leaves the live configuration
as it was except for `epoch_attempt`, which is set to the time of the call. -/
theorem failed_reload_is_atomic (env : Env) (D : Defaults) (now : Int) (config : config_t)
    (hg : 0 < config.generation)
    (h : source_unreadable env config.file ∨ source_has_rejected_line env config.file
          ∨ source_fails_validation env D config.file) :
    (config_reload env D now config).outcome = .ret 0 ∧
    (config_reload env D now config).config = { config with epoch_attempt := now } := by
  have hn := (config_from_file_none_iff env D config.file).mpr h
  obtain ⟨o, c, _⟩ := config_reload_load_failed env D now config hn (Nat.pos_iff_ne_zero.mp hg)
  exact ⟨o, c⟩

/-- Witness of C4: a reload of the sample live configuration when the file
cannot be opened. -/
theorem failed_reload_is_atomic_witness :
    0 < sample_live.generation ∧
    source_unreadable (sample_env none) sample_live.file ∧
    (config_reload (sample_env none) sample_defaults 100 sample_live).outcome = .ret 0 ∧
    (config_reload (sample_env none) sample_defaults 100 sample_live).config
      = { sample_live with epoch_attempt := 100 } :=
  have hu : source_unreadable (sample_env none) sample_live.file := by
    intro f hf
    simp [sample_env]
  ⟨by decide, hu,
   failed_reload_is_atomic (sample_env none) sample_defaults 100 sample_live (by decide)
     (Or.inl hu)⟩

/-- C5: for every `config_reload` call that returns, `generation` afterwards is
`generation` before plus 1 when the call returns changed and equals
`generation` before when it returns unchanged; it never decreases. -/
theorem generation_counts_changes (env : Env) (D : Defaults) (now : Int) (config : config_t)
    (c : Nat) (h : (config_reload env D now config).outcome = .ret c) :
    (c ≠ 0 → (config_reload env D now config).config.generation = config.generation + 1) ∧
    (c = 0 → (config_reload env D now config).config.generation = config.generation) ∧
    config.generation ≤ (config_reload env D now config).config.generation := by
  rcases hl : config_from_file env D config.file with _ | new_config
  · by_cases hg : config.generation = 0
    · obtain ⟨o, _, _⟩ := config_reload_first_load_failed env D now config hl hg
      rw [o] at h
      cases h
    · obtain ⟨o, cfg, _⟩ := config_reload_load_failed env D now config hl hg
      rw [o] at h
      cases h
      rw [cfg]
      exact ⟨fun hc => absurd rfl hc, fun _ => rfl, Nat.le_refl _⟩
  · obtain ⟨o, cfg, _⟩ := config_reload_loaded env D now config new_config hl
    rw [o] at h
    cases h
    rw [cfg]
    show (merged_changed config new_config ≠ 0 →
        config.generation + merged_changed config new_config = config.generation + 1) ∧
      (merged_changed config new_config = 0 →
        config.generation + merged_changed config new_config = config.generation) ∧
      config.generation ≤ config.generation + merged_changed config new_config
    rcases merged_changed_cases config new_config with h0 | h1
    · rw [h0]; simp
    · rw [h1]; simp

/-- Witness of C5: a reload of the sample live configuration against the
shorter source, which returns changed. -/
theorem generation_counts_changes_witness :
    (config_reload (sample_env (some sample_source_short)) sample_defaults 100
      sample_live).outcome = .ret 1 ∧
    (config_reload (sample_env (some sample_source_short)) sample_defaults 100
      sample_live).config.generation = sample_live.generation + 1 :=
  have h : (config_reload (sample_env (some sample_source_short)) sample_defaults 100
      sample_live).outcome = .ret 1 := by set_option maxRecDepth 100000 in decide
  ⟨h, (generation_counts_changes (sample_env (some sample_source_short)) sample_defaults 100
        sample_live 1 h).1 (by decide)⟩

/-- C6 (counterexample): not every `config_reload` call that returns leaves
`epoch_success` equal to the time of the call: a reload at generation 1 at
time 100 of a file that cannot be opened returns and leaves `epoch_success`
at 50. -/
theorem epoch_success_not_always_set :
    ¬ ∀ (env : Env) (D : Defaults) (now : Int) (config : config_t) (c : Nat),
        (config_reload env D now config).outcome = .ret c →
        (config_reload env D now config).config.epoch_success = now := by
  intro h
  have h1 := h (sample_env none) sample_defaults 100 sample_live 0
    (by set_option maxRecDepth 100000 in decide)
  revert h1
  set_option maxRecDepth 100000 in decide

/-- C6 (amended): for every `config_reload` call that returns, `epoch_success`
afterwards equals the time of the call when the source loaded and validated,
and keeps its earlier value when the reload failed. -/
theorem epoch_success_after_reload (env : Env) (D : Defaults) (now : Int) (config : config_t)
    (c : Nat) (h : (config_reload env D now config).outcome = .ret c) :
    (config_reload env D now config).config.epoch_success
      = if (config_from_file env D config.file).isSome then now else config.epoch_success := by
  rcases hl : config_from_file env D config.file with _ | new_config
  · by_cases hg : config.generation = 0
    · obtain ⟨o, _, _⟩ := config_reload_first_load_failed env D now config hl hg
      rw [o] at h
      cases h
    · obtain ⟨_, cfg, _⟩ := config_reload_load_failed env D now config hl hg
      rw [cfg]
      rfl
  · obtain ⟨_, cfg, _⟩ := config_reload_loaded env D now config new_config hl
    rw [cfg]
    rfl

/-- Witness of C6 (amended): a successful reload of the sample live
configuration at time 100. -/
theorem epoch_success_after_reload_witness :
    (config_reload (sample_env (some sample_source)) sample_defaults 100
      sample_live).outcome = .ret 0 ∧
    (config_reload (sample_env (some sample_source)) sample_defaults 100
      sample_live).config.epoch_success
      = if (config_from_file (sample_env (some sample_source)) sample_defaults
              sample_live.file).isSome then 100 else sample_live.epoch_success :=
  have h : (config_reload (sample_env (some sample_source)) sample_defaults 100
      sample_live).outcome = .ret 0 := by set_option maxRecDepth 100000 in decide
  ⟨h, epoch_success_after_reload (sample_env (some sample_source)) sample_defaults 100
        sample_live 0 h⟩

/-- C7: at generation above 0 and for a source that loads to the snapshot
`new_config`, `config_reload` returns `changed = 1` if and only if the snapshot
differs from the live configuration in a numeric option, a string option, the
address count or the address at some position; otherwise it returns 0. -/
theorem changed_iff_settings_differ (env : Env) (D : Defaults) (now : Int)
    (config new_config : config_t) (hg : 0 < config.generation)
    (h : config_from_file env D config.file = some new_config) :
    ((config_reload env D now config).outcome = .ret 1 ↔ settings_differ config new_config) ∧
    ((config_reload env D now config).outcome = .ret 0 ↔ ¬ settings_differ config new_config) := by
  obtain ⟨o, _, _⟩ := config_reload_loaded env D now config new_config h
  rw [o]
  have hg2 : config.generation ≠ 0 := Nat.pos_iff_ne_zero.mp hg
  unfold merged_changed
  by_cases hs : same_settings config new_config
  · have hd := (same_settings_iff config new_config).mp hs
    rw [if_pos ⟨hg2, hs⟩]
    constructor
    · constructor
      · intro hc; cases hc
      · intro hc; exact absurd hc hd
    · constructor
      · intro _; exact hd
      · intro _; rfl
  · have hd : settings_differ config new_config := by
      by_contra hn
      exact hs ((same_settings_iff config new_config).mpr hn)
    rw [if_neg (fun hc => hs hc.2)]
    constructor
    · constructor
      · intro _; exact hd
      · intro _; rfl
    · constructor
      · intro hc; cases hc
      · intro hc; exact absurd hd hc

/-- Witness of C7: the sample live configuration reloaded against the shorter
source. -/
theorem changed_iff_settings_differ_witness :
    0 < sample_live.generation ∧
    config_from_file (sample_env (some sample_source_short)) sample_defaults sample_live.file
      = some sample_snapshot_short ∧
    ((config_reload (sample_env (some sample_source_short)) sample_defaults 100
        sample_live).outcome = .ret 1 ↔ settings_differ sample_live sample_snapshot_short) :=
  ⟨by decide, by set_option maxRecDepth 100000 in decide,
   (changed_iff_settings_differ (sample_env (some sample_source_short)) sample_defaults 100
      sample_live sample_snapshot_short (by decide)
      (by set_option maxRecDepth 100000 in decide)).1⟩

/-- C8: after every `config_reload` whose source loads and validates, every
numeric option, every string option and the address list of the live
configuration (hence the address count and every address) equal those of the
loaded snapshot, and the path of the source file is unchanged. -/
theorem live_equals_snapshot_after_reload (env : Env) (D : Defaults) (now : Int)
    (config new_config : config_t)
    (h : config_from_file env D config.file = some new_config) :
    same_settings (config_reload env D now config).config new_config ∧
    (config_reload env D now config).config.argc = new_config.argc ∧
    (∀ i : Nat, (config_reload env D now config).config.argv[i]? = new_config.argv[i]?) ∧
    (config_reload env D now config).config.file = config.file := by
  obtain ⟨_, cfg, _⟩ := config_reload_loaded env D now config new_config h
  rw [cfg]
  exact ⟨⟨rfl, rfl, rfl, rfl, rfl, rfl, rfl, rfl, rfl, rfl, rfl, rfl⟩, rfl, fun _ => rfl, rfl⟩

/-- Witness of C8: the first load of the sample source. -/
theorem live_equals_snapshot_after_reload_witness :
    config_from_file (sample_env (some sample_source)) sample_defaults sample_start.file
      = some sample_snapshot ∧
    same_settings (config_reload (sample_env (some sample_source)) sample_defaults 50
      sample_start).config sample_snapshot :=
  ⟨by set_option maxRecDepth 100000 in decide,
   (live_equals_snapshot_after_reload (sample_env (some sample_source)) sample_defaults 50
      sample_start sample_snapshot (by set_option maxRecDepth 100000 in decide)).1⟩

/-- C9: when a live configuration with `m` addresses is reloaded against a
valid source with `n < m` addresses, `config_reload` returns `changed = 1`,
leaves `n` addresses, and the `Stopping forward socket` notices it emits are
exactly those of the dropped addresses, one per dropped position and in order,
`m - n` in all; for 4 addresses (3 forward) against 2 (1 forward) the forward
count is 1 and there are exactly 2 notices. -/
theorem address_list_shrink (env : Env) (D : Defaults) (now : Int)
    (config new_config : config_t)
    (h : config_from_file env D config.file = some new_config)
    (hlt : new_config.argc < config.argc) :
    (config_reload env D now config).outcome = .ret 1 ∧
    (config_reload env D now config).config.argc = new_config.argc ∧
    (config_reload env D now config).trace.filter is_stopping_notice
      = (config.argv.drop new_config.argc).map stopping_notice ∧
    ((config_reload env D now config).trace.filter is_stopping_notice).length
      = config.argc - new_config.argc ∧
    (config.argc = 4 → new_config.argc = 2 →
      (config_reload env D now config).config.argc - 1 = 1 ∧
      ((config_reload env D now config).trace.filter is_stopping_notice).length = 2) := by
  obtain ⟨o, cfg, _⟩ := config_reload_loaded env D now config new_config h
  have ht := config_reload_loaded_stopping env D now config new_config h
  have hns : ¬ same_settings config new_config := by
    intro hs
    have := hs.2.2.2.2.2.2.2.2.2.2.2
    unfold config_t.argc at hlt
    rw [this] at hlt
    exact Nat.lt_irrefl _ hlt
  have hc : merged_changed config new_config = 1 := by
    unfold merged_changed
    rw [if_neg (fun hc => hns hc.2)]
  have hlen : ((config_reload env D now config).trace.filter is_stopping_notice).length
      = config.argc - new_config.argc := by
    rw [ht, List.length_map, List.length_drop]
    rfl
  have hargc : (config_reload env D now config).config.argc = new_config.argc := by
    rw [cfg]; rfl
  refine ⟨by rw [o, hc], hargc, ht, hlen, ?_⟩
  intro h4 h2
  rw [hargc, hlen, h4, h2]
  exact ⟨rfl, rfl⟩

/-- Witness of C9: the sample live configuration, with three forward addresses,
reloaded against the source with one forward address. -/
theorem address_list_shrink_witness :
    config_from_file (sample_env (some sample_source_short)) sample_defaults sample_live.file
      = some sample_snapshot_short ∧
    sample_snapshot_short.argc < sample_live.argc ∧
    (config_reload (sample_env (some sample_source_short)) sample_defaults 100
      sample_live).outcome = .ret 1 ∧
    (config_reload (sample_env (some sample_source_short)) sample_defaults 100
      sample_live).config.argc - 1 = 1 ∧
    ((config_reload (sample_env (some sample_source_short)) sample_defaults 100
      sample_live).trace.filter is_stopping_notice).length = 2 :=
  have hl : config_from_file (sample_env (some sample_source_short)) sample_defaults
      sample_live.file = some sample_snapshot_short := by
    set_option maxRecDepth 100000 in decide
  have hs := address_list_shrink (sample_env (some sample_source_short)) sample_defaults 100
    sample_live sample_snapshot_short hl (by decide)
  ⟨hl, by decide, hs.1, (hs.2.2.2.2 rfl rfl).1, (hs.2.2.2.2 rfl rfl).2⟩

/-- C10 (counterexample): a reload that finds no difference still invokes
`config_save` and writes a backup: the sample live configuration reloaded
against its own source returns `changed = 0`, makes one `config_save` call and
renames the temporary file to the backup name. -/
theorem unchanged_reload_still_saves :
    (config_reload (sample_env (some sample_source)) sample_defaults 100
      sample_live).outcome = .ret 0 ∧
    (config_reload (sample_env (some sample_source)) sample_defaults 100
      sample_live).saves.length = 1 ∧
    Event.rename "/etc/event-relay.conf.a1b2c3".toList "/etc/relay.conf.save.100".toList
      ∈ (config_reload (sample_env (some sample_source)) sample_defaults 100
          sample_live).trace := by
  set_option maxRecDepth 100000 in decide

/-- C10 (amended): `config_reload` invokes `config_save` exactly once, on the
merged live configuration, in every call whose source loads and validates,
whether or not anything changed, and never in a call whose load fails. -/
theorem save_on_every_successful_reload (env : Env) (D : Defaults) (now : Int)
    (config : config_t) :
    (config_reload env D now config).saves
      = if (config_from_file env D config.file).isSome then
          [((config_reload env D now config).config, now)]
        else [] := by
  rcases hl : config_from_file env D config.file with _ | new_config
  · by_cases hg : config.generation = 0
    · obtain ⟨_, _, s⟩ := config_reload_first_load_failed env D now config hl hg
      rw [s]; rfl
    · obtain ⟨_, _, s⟩ := config_reload_load_failed env D now config hl hg
      rw [s]; rfl
  · obtain ⟨_, cfg, s⟩ := config_reload_loaded env D now config new_config hl
    rw [s, cfg]
    rfl

/-! ## Lemmas on the validator -/

theorem CONFIG_VALID_NUM_invalid (t : Nat → Bool) (name : String) (v : Nat) (k : Check) :
    (CONFIG_VALID_NUM t name v k).invalid = 0 ↔ k.invalid = 0 ∧ t v = true := by
  unfold CONFIG_VALID_NUM
  cases h : t v <;> simp

theorem CONFIG_VALID_STR_invalid (ok : Bool) (name : String) (v : CStr) (k : Check) :
    (CONFIG_VALID_STR ok name v k).invalid = 0 ↔ k.invalid = 0 ∧ ok = true := by
  unfold CONFIG_VALID_STR
  cases ok <;> simp

theorem CONFIG_VALID_SOCKETIZE_invalid (env : Env) (p d : Nat) (name : String) (v : CStr)
    (k : Check) :
    (CONFIG_VALID_SOCKETIZE env p d name v k).invalid = 0
      ↔ k.invalid = 0 ∧ is_valid_socketize env v p d = true := by
  unfold CONFIG_VALID_SOCKETIZE
  cases h : is_valid_socketize env v p d <;> simp

theorem forward_check_invalid (env : Env) (l : List CStr) :
    ∀ k : Check,
      (l.foldl (fun k a =>
          CONFIG_VALID_SOCKETIZE env IPPROTO_TCP RELAY_CONN_IS_OUTBOUND "argv[i]" a k) k).invalid = 0
        ↔ k.invalid = 0 ∧
          ∀ a ∈ l, is_valid_socketize env a IPPROTO_TCP RELAY_CONN_IS_OUTBOUND = true := by
  induction l with
  | nil => intro k; simp
  | cons a r ih =>
    intro k
    rw [List.foldl_cons, ih, CONFIG_VALID_SOCKETIZE_invalid]
    simp only [List.mem_cons, forall_eq_or_imp, and_assoc]

theorem config_valid_iff (env : Env) (config : config_t) :
    config_valid env config = true ↔ all_rules_hold env config := by
  unfold config_valid config_valid_run all_rules_hold config_t.argc
  simp only [decide_eq_true_eq]
  rcases hv : config.argv with _ | ⟨a, rest⟩
  · simp
  · simp only [List.length_cons, List.tail_cons, List.head?_cons, Option.some.injEq,
      forall_eq']
    by_cases h2 : rest.length + 1 < 2
    · simp only [h2, if_true]
      constructor
      · intro h; exact absurd h (Nat.succ_ne_zero _)
      · intro h; omega
    · simp only [h2, if_false, forward_check_invalid, CONFIG_VALID_SOCKETIZE_invalid,
        CONFIG_VALID_NUM_invalid, CONFIG_VALID_STR_invalid, true_and, and_assoc]
      constructor
      · rintro ⟨h1, h2, h3, h4, h5, h6, h7, h8, h9, h10, h11, h12⟩
        exact ⟨h1, h2, h3, h4, h5, h6, h7, h8, h9, h10, by omega, h11, h12⟩
      · rintro ⟨h1, h2, h3, h4, h5, h6, h7, h8, h9, h10, _, h11, h12⟩
        exact ⟨h1, h2, h3, h4, h5, h6, h7, h8, h9, h10, h11, h12⟩

/-! ## Lemmas on `is_valid_graphite_target` -/

theorem is_word_char_target (c : Char) (h : is_word_char c = true) : is_target_char c := by
  unfold is_word_char isalnum isdigit at h
  unfold is_target_char
  simp only [Bool.or_eq_true, Bool.and_eq_true, decide_eq_true_eq] at h
  tauto

theorem is_word_char_ne_dot (c : Char) (h : is_word_char c = true) : c ≠ '.' := by
  rintro rfl
  revert h
  decide

theorem chain_of_no_dot (l : List Char) (h : ∀ c ∈ l, c ≠ '.') :
    List.Chain' (fun a b => ¬ (a = '.' ∧ b = '.')) l := by
  induction l with
  | nil => exact List.chain'_nil
  | cons a t ih =>
    rw [List.chain'_cons']
    refine ⟨?_, ih (fun c hc => h c (List.mem_cons_of_mem _ hc))⟩
    intro y _ hy
    exact h a (List.mem_cons_self _ _) hy.1

theorem graphite_target_loop_sound (fuel : Nat) :
    ∀ p : CStr, graphite_target_loop fuel p = true → p ≠ [] →
      (∀ c ∈ p, is_word_char c = true ∨ c = '.') ∧
      (∀ c, p.head? = some c → is_word_char c = true) ∧
      (∀ c, p.getLast? = some c → is_word_char c = true) ∧
      List.Chain' (fun a b => ¬ (a = '.' ∧ b = '.')) p := by
  induction fuel with
  | zero => intro p h; simp [graphite_target_loop] at h
  | succ f ih =>
    intro p h hne
    cases p with
    | nil => exact absurd rfl hne
    | cons c t =>
      simp only [graphite_target_loop] at h
      by_cases hc : is_word_char c = true
      swap
      · simp [hc] at h
      simp only [hc, if_true] at h
      have hsplit := List.takeWhile_append_dropWhile is_word_char (c :: t)
      have hw : ∀ x ∈ (c :: t).takeWhile is_word_char, is_word_char x = true :=
        fun x hx => List.mem_takeWhile_imp hx
      rcases hq : (c :: t).dropWhile is_word_char with _ | ⟨d, rest⟩
      · rw [hq, List.append_nil] at hsplit
        rw [← hsplit]
        refine ⟨fun x hx => Or.inl (hw x hx), ?_, ?_, ?_⟩
        · intro x hx
          exact hw x (List.mem_of_mem_head? hx)
        · intro x hx
          exact hw x (List.mem_of_getLast?_eq_some hx)
        · exact chain_of_no_dot _ (fun x hx => is_word_char_ne_dot x (hw x hx))
      · rw [hq] at h hsplit
        simp only at h
        cases rest with
        | nil => simp at h
        | cons e r =>
          simp only [Bool.and_eq_true, decide_eq_true_eq] at h
          by_cases hd : d = '.' ∧ isalnum e = true
          swap
          · simp [hd] at h
          simp only [hd, and_self, if_true] at h
          obtain ⟨hd1, hd2⟩ := hd
          subst hd1
          have he : is_word_char e = true := by
            unfold is_word_char; simp [hd2]
          obtain ⟨i1, i2, i3, i4⟩ := ih (e :: r) h (by simp)
          rw [← hsplit]
          refine ⟨?_, ?_, ?_, ?_⟩
          · intro x hx
            rcases List.mem_append.mp hx with hx | hx
            · exact Or.inl (hw x hx)
            · rcases List.mem_cons.mp hx with hx | hx
              · exact Or.inr hx
              · exact i1 x hx
          · intro x hx
            rw [hsplit] at hx
            simp only [List.head?_cons, Option.some.injEq] at hx
            rw [← hx]; exact hc
          · intro x hx
            apply i3 x
            rw [← hx]
            have e1 : (List.takeWhile is_word_char (c :: t) ++ '.' :: e :: r)
                = (List.takeWhile is_word_char (c :: t) ++ ['.']) ++ (e :: r) := by simp
            rw [e1, List.getLast?_append_of_ne_nil _ (by simp)]
          · rw [List.chain'_append]
            refine ⟨chain_of_no_dot _ (fun x hx => is_word_char_ne_dot x (hw x hx)), ?_, ?_⟩
            · rw [List.chain'_cons']
              refine ⟨?_, i4⟩
              intro y hy hdots
              simp only [List.head?_cons, Option.mem_def, Option.some.injEq] at hy
              rw [← hy] at hdots
              exact is_word_char_ne_dot e he hdots.2
            · intro x hx y _ hdots
              exact is_word_char_ne_dot x (hw x (List.mem_of_getLast?_eq_some hx)) hdots.1

theorem chain_no_adjacent (l : List Char)
    (h : List.Chain' (fun a b => ¬ (a = '.' ∧ b = '.')) l) (i : Nat) :
    ¬ (l[i]? = some '.' ∧ l[i + 1]? = some '.') := by
  rintro ⟨h1, h2⟩
  have hi1 : i + 1 < l.length := by
    by_contra hn
    rw [List.getElem?_eq_none (Nat.le_of_not_lt hn)] at h2
    cases h2
  have hi : i < l.length := by omega
  rw [List.getElem?_eq_getElem hi] at h1
  rw [List.getElem?_eq_getElem hi1] at h2
  have := List.chain'_iff_get.mp h i (by omega)
  apply this
  exact ⟨Option.some.inj h1, Option.some.inj h2⟩

theorem is_valid_graphite_target_sound (path : CStr)
    (h : is_valid_graphite_target path = true) : well_formed_target path := by
  unfold is_valid_graphite_target is_non_empty_string at h
  cases path with
  | nil => simp at h
  | cons c t =>
    simp only [List.isEmpty_cons, Bool.not_false, Bool.false_eq_true, if_false,
      Bool.not_true] at h
    obtain ⟨i1, i2, i3, i4⟩ := graphite_target_loop_sound _ _ h (by simp)
    refine ⟨by simp, ?_, ?_, ?_, chain_no_adjacent _ i4⟩
    · intro x hx
      rcases i1 x hx with hx | hx
      · exact is_word_char_target x hx
      · right; right; right; right; exact hx
    · intro hh
      exact is_word_char_ne_dot _ (i2 _ hh) rfl
    · intro hh
      exact is_word_char_ne_dot _ (i3 _ hh) rfl

/-! ## Lemmas on the lines of the loader -/

theorem strchr_eq_none_iff (s : CStr) (c : Char) : strchr s c = none ↔ c ∉ s := by
  unfold strchr
  constructor
  · intro h
    split at h
    · next hd =>
      have := List.dropWhile_eq_nil_iff.mp hd
      intro hc
      simpa using this c hc
    · cases h
  · intro h
    have hd : s.dropWhile (fun d => d != c) = [] := by
      apply List.dropWhile_eq_nil_iff.mpr
      intro x hx
      have : x ≠ c := fun e => h (e ▸ hx)
      simpa using this
    rw [hd]

theorem strchr_some_eq (s p : CStr) (c : Char) (h : strchr s c = some p) :
    p = s.dropWhile (fun d => d != c) := by
  unfold strchr at h
  split at h
  · cases h
  · exact (Option.some.inj h).symm

theorem trim_space_snoc (s : CStr) (x : Char) (hx : isspace x = true) :
    trim_space (s ++ [x]) = trim_space s := by
  unfold trim_space
  rw [List.dropWhile_append]
  by_cases he : (s.dropWhile isspace).isEmpty = true
  · have he2 : s.dropWhile isspace = [] := List.isEmpty_iff.mp he
    simp [he2, List.dropWhile, hx]
  · simp only [he, Bool.false_eq_true, if_false, List.reverse_append, List.reverse_cons,
      List.reverse_nil, List.nil_append, List.singleton_append, List.dropWhile_cons, hx,
      if_true]

theorem takeWhile_snoc (p : Char → Bool) (l : CStr) (x : Char) (hx : p x = true) :
    (l ++ [x]).takeWhile p = l.takeWhile p ∨
    (l ++ [x]).takeWhile p = l.takeWhile p ++ [x] := by
  rw [List.takeWhile_append]
  split
  · right
    next hl =>
    have : l.takeWhile p = l := by
      have h := List.takeWhile_append_dropWhile p l
      have hd : (l.dropWhile p).length = 0 := by
        have := congrArg List.length h
        rw [List.length_append] at this
        omega
      rw [List.length_eq_zero.mp hd, List.append_nil] at h
      exact h
    rw [this]
    simp [List.takeWhile, hx]
  · left; rfl

theorem clean_line_snoc_newline (l : List Char) : clean_line (l ++ ['\n']) = clean_line l := by
  unfold clean_line cstr cut_at
  have hsp : isspace '\n' = true := by decide
  rcases takeWhile_snoc (fun c => c != NUL) l '\n' (by decide) with h | h
  · rw [h]
  · rw [h]
    rcases takeWhile_snoc (fun d => d != '#') (l.takeWhile (fun c => c != NUL)) '\n'
      (by decide) with h2 | h2
    · rw [h2]
    · rw [h2, trim_space_snoc _ _ hsp]

theorem clean_line_nil : clean_line [] = [] := by decide

/-- The lines kept as addresses: non-empty after cleaning and without `=`. -/
theorem getlines_aux_positional (content : List Char) :
    ∀ acc : List Char,
      ((getlines_aux acc content).map clean_line).filter
          (fun l => !l.isEmpty && !decide ('=' ∈ l))
        = (((content.splitOn '\n').modifyHead (fun l => acc.reverse ++ l)).map
            clean_line).filter (fun l => !l.isEmpty && !decide ('=' ∈ l)) := by
  induction content with
  | nil =>
    intro acc
    simp only [getlines_aux, List.splitOn_nil, List.modifyHead_cons, List.append_nil,
      List.map_cons, List.map_nil]
    by_cases ha : acc = []
    · subst ha
      simp [clean_line_nil]
    · simp [ha]
  | cons c cs ih =>
    intro acc
    have hs : (c :: cs).splitOn '\n'
        = if (c == '\n') = true then [] :: cs.splitOn '\n'
          else (cs.splitOn '\n').modifyHead (List.cons c) := by
      unfold List.splitOn
      rw [List.splitOnP_cons]
    rw [hs]
    by_cases hc : c = '\n'
    · subst hc
      simp only [getlines_aux, if_true, beq_self_eq_true, List.modifyHead_cons,
        List.append_nil, List.map_cons, List.reverse_cons]
      have hid : ∀ l : List (List Char), l.modifyHead (fun l => l) = l := by
        intro l; cases l <;> rfl
      rw [clean_line_snoc_newline, List.filter_cons, List.filter_cons, ih []]
      simp [hid]
    · have hb : (c == '\n') = false := by simpa using hc
      simp only [getlines_aux, hc, if_false, hb, Bool.false_eq_true]
      rw [ih (c :: acc), List.modifyHead_modifyHead]
      congr 3
      funext l
      simp

theorem getlines_positional (content : List Char) :
    ((getlines content).map clean_line).filter (fun l => !l.isEmpty && !decide ('=' ∈ l))
      = positional_lines content := by
  unfold getlines positional_lines
  rw [getlines_aux_positional]
  congr 2
  cases content.splitOn '\n' <;> simp

theorem TRY_NUM_OPT_argv (name : String) (set : config_t → Nat → config_t) (line p : CStr)
    (config c : config_t) (w : List Event)
    (h : TRY_NUM_OPT name set line p config = some (c, w))
    (hset : ∀ c v, (set c v).argv = c.argv) : c.argv = config.argv := by
  unfold TRY_NUM_OPT at h
  split at h
  · split at h
    · cases h; exact hset _ _
    · cases h; rfl
  · cases h

theorem TRY_STR_OPT_argv (name : String) (set : config_t → CStr → config_t) (line p : CStr)
    (config c : config_t) (w : List Event)
    (h : TRY_STR_OPT name set line p config = some (c, w))
    (hset : ∀ c v, (set c v).argv = c.argv) : c.argv = config.argv := by
  unfold TRY_STR_OPT at h
  split at h
  · cases h; exact hset _ _
  · cases h

theorem try_opt_argv (line p : CStr) (config c : config_t) (w : List Event)
    (h : try_opt line p config = some (c, w)) : c.argv = config.argv := by
  unfold try_opt at h
  rcases orElse_some _ _ _ h with h | h
  · exact TRY_NUM_OPT_argv _ _ _ _ _ _ _ h (fun _ _ => rfl)
  rcases orElse_some _ _ _ h with h | h
  · exact TRY_NUM_OPT_argv _ _ _ _ _ _ _ h (fun _ _ => rfl)
  rcases orElse_some _ _ _ h with h | h
  · exact TRY_NUM_OPT_argv _ _ _ _ _ _ _ h (fun _ _ => rfl)
  rcases orElse_some _ _ _ h with h | h
  · exact TRY_NUM_OPT_argv _ _ _ _ _ _ _ h (fun _ _ => rfl)
  rcases orElse_some _ _ _ h with h | h
  · exact TRY_NUM_OPT_argv _ _ _ _ _ _ _ h (fun _ _ => rfl)
  rcases orElse_some _ _ _ h with h | h
  · exact TRY_STR_OPT_argv _ _ _ _ _ _ _ h (fun _ _ => rfl)
  rcases orElse_some _ _ _ h with h | h
  · exact TRY_NUM_OPT_argv _ _ _ _ _ _ _ h (fun _ _ => rfl)
  rcases orElse_some _ _ _ h with h | h
  · exact TRY_STR_OPT_argv _ _ _ _ _ _ _ h (fun _ _ => rfl)
  rcases orElse_some _ _ _ h with h | h
  · exact TRY_STR_OPT_argv _ _ _ _ _ _ _ h (fun _ _ => rfl)
  rcases orElse_some _ _ _ h with h | h
  · exact TRY_NUM_OPT_argv _ _ _ _ _ _ _ h (fun _ _ => rfl)
  · exact TRY_NUM_OPT_argv _ _ _ _ _ _ _ h (fun _ _ => rfl)

theorem config_from_file_loop_argv (file : CStr) (lines : List (List Char)) :
    ∀ (line_num : Nat) (config c : config_t) (tr : List Event),
      (config_from_file_loop file line_num lines config tr).1 = some c →
      c.argv = config.argv
        ++ (lines.map clean_line).filter (fun l => !l.isEmpty && !decide ('=' ∈ l)) := by
  induction lines with
  | nil =>
    intro n config c tr h
    simp only [config_from_file_loop, Option.some.injEq] at h
    simp [h]
  | cons raw more ih =>
    intro n config c tr h
    simp only [config_from_file_loop] at h
    rw [List.map_cons, List.filter_cons]
    by_cases he : clean_line raw = []
    · simp only [he, if_true] at h
      rw [he]
      simpa using ih _ _ _ _ h
    · simp only [he, if_false] at h
      have hne : (clean_line raw).isEmpty = false := by
        cases hcl : clean_line raw with
        | nil => exact absurd hcl he
        | cons _ _ => rfl
      rcases hp : strchr (clean_line raw) '=' with _ | p
      · rw [hp] at h
        simp only at h
        have hnot := (strchr_eq_none_iff _ _).mp hp
        have := ih _ _ _ _ h
        simp only [hne, hnot, Bool.not_false, decide_False, Bool.and_self, if_true]
        rw [this]
        simp
      · rw [hp] at h
        simp only at h
        have hin : '=' ∈ clean_line raw := by
          by_contra hn
          rw [(strchr_eq_none_iff _ _).mpr hn] at hp
          cases hp
        simp only [hin, decide_True, Bool.not_true, Bool.and_false, Bool.false_eq_true,
          if_false]
        by_cases h1 : p.length = 1
        · simp [h1] at h
        · simp only [h1, if_false] at h
          rcases ht : try_opt (cut_at '=' (clean_line raw)) p.tail config with _ | ⟨c2, w⟩
          · rw [ht] at h; simp at h
          · rw [ht] at h
            simp only at h
            rw [ih _ _ _ _ h, try_opt_argv _ _ _ _ _ ht]

theorem config_from_file_argv (env : Env) (D : Defaults) (file : CStr) (content : List Char)
    (c : config_t) (hf : env.fopen file = some content)
    (h : config_from_file env D (some file) = some c) :
    c.argv = positional_lines content := by
  unfold config_from_file config_from_file_run at h
  simp only [hf] at h
  rcases hl : config_from_file_loop file 0 (getlines content)
    (config_set_defaults D config_calloc) [.say "Loading config file %s" [.str file]]
    with ⟨_ | c2, tr⟩
  · rw [hl] at h; simp at h
  · rw [hl] at h
    simp only at h
    by_cases hv : config_valid env c2 = true
    · simp only [hv, Bool.not_true, Bool.false_eq_true, if_false, Option.some.injEq] at h
      subst h
      have := config_from_file_loop_argv file (getlines content) 0
        (config_set_defaults D config_calloc) c2 _ (by rw [hl])
      rw [this, getlines_positional]
      rfl
    · simp [hv] at h

theorem bad_assignment_rejected (raw : List Char) (h : bad_assignment (clean_line raw)) :
    line_rejected raw = true := by
  obtain ⟨hin, hbad⟩ := h
  unfold line_rejected
  rcases hp : strchr (clean_line raw) '=' with _ | p
  · exact absurd hin ((strchr_eq_none_iff _ _).mp hp)
  · have hpe := strchr_some_eq _ _ _ hp
    simp only [Bool.or_eq_true, decide_eq_true_eq, Bool.not_eq_true']
    rcases hbad with hb | hb
    · right
      rcases hc : option_names.contains (cut_at '=' (clean_line raw)) with _ | _
      · rfl
      · exact absurd (List.elem_iff.mp hc) hb
    · left
      unfold text_after_eq at hb
      rw [← hpe] at hb
      cases p with
      | nil =>
        unfold strchr at hp
        split at hp
        · cases hp
        · next hne => exact absurd (Option.some.inj hp).symm (by simpa using hne)
      | cons a t =>
        simp only [List.tail_cons] at hb
        rw [hb]; rfl

/-! ## The claims on the validator and the loader -/

/-- C11 (counterexample): `is_valid_buffer_size` does not accept 1052680, which
is 1048576 + 4104 and so not a multiple of 4096. -/
theorem buffer_size_1052680_rejected : is_valid_buffer_size 1052680 = false := by decide

/-- C11 (amended): `is_valid_buffer_size` rejects 1048575, accepts 1048576,
rejects 1052671 and rejects 1052680; the next size it accepts after 1048576 is
1052672. -/
theorem buffer_size_boundaries :
    is_valid_buffer_size 1048575 = false ∧ is_valid_buffer_size 1048576 = true ∧
    is_valid_buffer_size 1052671 = false ∧ is_valid_buffer_size 1052680 = false ∧
    is_valid_buffer_size 1052672 = true ∧
    ∀ n, 1048576 < n → n < 1052672 → is_valid_buffer_size n = false := by
  refine ⟨by decide, by decide, by decide, by decide, by decide, ?_⟩
  intro n h1 h2
  unfold is_valid_buffer_size
  have hm : n &&& 4095 = n % 4096 := Nat.and_pow_two_sub_one_eq_mod n 12
  rw [hm]
  have : n % 4096 ≠ 0 := by omega
  simp [this]

/-- C12: for every 32-bit unsigned size, `is_valid_buffer_size` accepts it if
and only if it is a multiple of 4096 and at least 1048576. -/
theorem buffer_size_accepts_iff (size : Nat) (_h32 : size < 2 ^ 32) :
    is_valid_buffer_size size = true ↔ 4096 ∣ size ∧ 1048576 ≤ size := by
  unfold is_valid_buffer_size
  have hm : size &&& 4095 = size % 4096 := Nat.and_pow_two_sub_one_eq_mod size 12
  have hs : (1 <<< 20 : Nat) = 1048576 := by decide
  rw [hm, hs]
  simp only [Bool.and_eq_true, decide_eq_true_eq, Nat.dvd_iff_mod_eq_zero]

/-- Witness of C12 at the size 33554432. -/
theorem buffer_size_accepts_iff_witness :
    (33554432 : Nat) < 2 ^ 32 ∧
    (is_valid_buffer_size 33554432 = true ↔ 4096 ∣ 33554432 ∧ 1048576 ≤ 33554432) :=
  ⟨by decide, buffer_size_accepts_iff 33554432 (by decide)⟩

/-- C13: over the 32-bit unsigned values, `is_valid_sec` accepts `v` if and
only if `1 ≤ v ≤ 60` (0 and 61 are rejected, 1 and 60 accepted), and
`is_valid_millisec` and `is_valid_microsec` accept `v` if and only if
`1 ≤ v ≤ 1000000`. -/
theorem range_validators_accept_iff (v : Nat) (_h32 : v < 2 ^ 32) :
    (is_valid_sec v = true ↔ 1 ≤ v ∧ v ≤ 60) ∧
    (is_valid_millisec v = true ↔ 1 ≤ v ∧ v ≤ 1000000) ∧
    (is_valid_microsec v = true ↔ 1 ≤ v ∧ v ≤ 1000000) ∧
    is_valid_sec 0 = false ∧ is_valid_sec 61 = false ∧
    is_valid_sec 1 = true ∧ is_valid_sec 60 = true := by
  unfold is_valid_sec is_valid_millisec is_valid_microsec
  simp only [Bool.and_eq_true, decide_eq_true_eq]
  refine ⟨?_, ?_, ?_, by decide, by decide, by decide, by decide⟩ <;> constructor <;>
    intro h <;> omega

/-- Witness of C13 at the value 60. -/
theorem range_validators_accept_iff_witness :
    (60 : Nat) < 2 ^ 32 ∧ (is_valid_sec 60 = true ↔ 1 ≤ 60 ∧ 60 ≤ 60) :=
  ⟨by decide, (range_validators_accept_iff 60 (by decide)).1⟩

/-- C14 (failing input): `is_valid_graphite_target` rejects `a._b`, two
non-empty words joined by a single dot, because after a dot it requires
`isalnum`; the same word is accepted in first position (`_b.a`). -/
theorem target_with_underscore_word_rejected :
    is_valid_graphite_target "a._b".toList = false ∧
    is_valid_graphite_target "_b.a".toList = true ∧
    is_valid_graphite_target "a.b_".toList = true := by
  decide

/-- C15: every string `is_valid_graphite_target` accepts is non-empty, consists
only of ASCII letters, digits, underscores and dots, and has no leading dot, no
trailing dot and no two adjacent dots; the empty string, `.a`, `a.`, `a..b`
and `a-b` are rejected. -/
theorem accepted_target_is_well_formed (path : CStr)
    (h : is_valid_graphite_target path = true) :
    well_formed_target path ∧
    is_valid_graphite_target [] = false ∧
    is_valid_graphite_target ".a".toList = false ∧
    is_valid_graphite_target "a.".toList = false ∧
    is_valid_graphite_target "a..b".toList = false ∧
    is_valid_graphite_target "a-b".toList = false :=
  ⟨is_valid_graphite_target_sound path h, by decide, by decide, by decide, by decide,
   by decide⟩

/-- Witness of C15 at the default namespace root `relays`. -/
theorem accepted_target_is_well_formed_witness :
    is_valid_graphite_target "relays".toList = true ∧ well_formed_target "relays".toList :=
  ⟨by decide, (accepted_target_is_well_formed "relays".toList (by decide)).1⟩

/-- C16 (failing input): `/etc/passwd` exists as a regular file (`stat` returns
0 and `S_ISDIR` is false), and `is_valid_directory` accepts it: the test is
`stat(...) == 0 || S_ISDIR(...)`, so a successful `stat` is enough. -/
theorem regular_file_accepted_as_directory :
    (regular_file_env.stat "/etc/passwd".toList).1 = 0 ∧
    (regular_file_env.stat "/etc/passwd".toList).2 = false ∧
    is_valid_directory regular_file_env "/etc/passwd".toList = true := by
  decide

/-- C17: `config_valid` rejects every snapshot with fewer than 2 addresses,
whatever its other fields, and it accepts a snapshot if and only if every field
rule and the cardinality rule hold. -/
theorem config_valid_cardinality_and_rules (env : Env) (config : config_t) :
    (config.argc < 2 → config_valid env config = false) ∧
    (config_valid env config = true ↔ all_rules_hold env config) := by
  refine ⟨?_, config_valid_iff env config⟩
  intro h
  rcases hv : config_valid env config with _ | _
  · rfl
  · have := ((config_valid_iff env config).mp hv).2.2.2.2.2.2.2.2.2.2.1
    omega

/-- Witness of C17: the start-up configuration has no address and is rejected. -/
theorem config_valid_cardinality_and_rules_witness :
    sample_start.argc < 2 ∧ config_valid (sample_env none) sample_start = false :=
  ⟨by decide,
   (config_valid_cardinality_and_rules (sample_env none) sample_start).1 (by decide)⟩

/-- C18 (failing input): a source whose assignment is written
`tcp_send_timeout_sec = 5` is rejected by `config_from_file`, while the same
source with `tcp_send_timeout_sec=5` loads and sets the field to 5; the line
`k = 5` is rejected for every option name `k`. -/
theorem spaced_assignment_rejected :
    config_from_file (sample_env (some sample_source_spaced)) sample_defaults
      (some sample_file) = none ∧
    config_from_file (sample_env (some sample_source_short)) sample_defaults
      (some sample_file) = some sample_snapshot_short ∧
    sample_snapshot_short.tcp_send_timeout_sec = 5 ∧
    ∀ k ∈ option_names, line_rejected (k ++ " = 5\n".toList) = true := by
  set_option maxRecDepth 100000 in decide

/-- C19: for every source that loads, the loaded address list is, in file
order, the list of the lines that are non-empty once cut at the first `#` and
trimmed and that contain no `=`: its first entry, the listener, is the first
such line and the forward addresses are the later ones; blank lines, comment
lines and assignment lines contribute nothing. -/
theorem loaded_addresses_are_positional_lines (env : Env) (D : Defaults) (file : CStr)
    (content : List Char) (c : config_t) (hf : env.fopen file = some content)
    (h : config_from_file env D (some file) = some c) :
    c.argv = positional_lines content ∧
    c.argv.head? = (positional_lines content).head? ∧
    c.argv.tail = (positional_lines content).tail ∧
    ∀ l ∈ c.argv, l ≠ [] ∧ '=' ∉ l := by
  have ha := config_from_file_argv env D file content c hf h
  refine ⟨ha, by rw [ha], by rw [ha], ?_⟩
  intro l hl
  rw [ha] at hl
  unfold positional_lines at hl
  have := (List.mem_filter.mp hl).2
  simp only [Bool.and_eq_true, Bool.not_eq_true', decide_eq_false_iff_not] at this
  refine ⟨?_, this.2⟩
  intro hnil
  rw [hnil] at this
  simp at this

/-- Witness of C19 on the sample source, which has a comment line, an
assignment and four addresses. -/
theorem loaded_addresses_are_positional_lines_witness :
    (sample_env (some sample_source)).fopen sample_file = some sample_source ∧
    config_from_file (sample_env (some sample_source)) sample_defaults (some sample_file)
      = some sample_snapshot ∧
    sample_snapshot.argv = positional_lines sample_source :=
  ⟨by decide, by set_option maxRecDepth 100000 in decide,
   (loaded_addresses_are_positional_lines (sample_env (some sample_source)) sample_defaults
      sample_file sample_source sample_snapshot (by decide)
      (by set_option maxRecDepth 100000 in decide)).1⟩

/-- C20: when the source contains a line which, cut at its comment and
trimmed, contains `=` and has before the first `=` a text that is not the name
of an option, or nothing after it, `config_from_file` returns failure whatever
the other lines contain. -/
theorem bad_assignment_rejects_load (env : Env) (D : Defaults) (file : CStr)
    (content raw : List Char) (hf : env.fopen file = some content)
    (hr : raw ∈ getlines content) (hb : bad_assignment (clean_line raw)) :
    config_from_file env D (some file) = none :=
  config_from_file_none_of_rejected env D (some file)
    ⟨file, content, rfl, hf, raw, hr, bad_assignment_rejected raw hb⟩

/-- Witness of C20: a source with the line `bogus_option=1` among valid lines. -/
theorem bad_assignment_rejects_load_witness :
    (sample_env (some "udp@localhost:10000\nbogus_option=1\ntcp@host1:20001\n".toList)).fopen
      sample_file = some "udp@localhost:10000\nbogus_option=1\ntcp@host1:20001\n".toList ∧
    "bogus_option=1\n".toList
      ∈ getlines "udp@localhost:10000\nbogus_option=1\ntcp@host1:20001\n".toList ∧
    bad_assignment (clean_line "bogus_option=1\n".toList) ∧
    config_from_file
      (sample_env (some "udp@localhost:10000\nbogus_option=1\ntcp@host1:20001\n".toList))
      sample_defaults (some sample_file) = none :=
  have hb : bad_assignment (clean_line "bogus_option=1\n".toList) :=
    ⟨by decide, Or.inl (by decide)⟩
  ⟨by decide, by decide, hb,
   bad_assignment_rejects_load _ sample_defaults sample_file
     "udp@localhost:10000\nbogus_option=1\ntcp@host1:20001\n".toList
     "bogus_option=1\n".toList (by decide) (by decide) hb⟩

/-! ## Lemmas on the size limit of the persister -/

theorem unlines_length_cons (a : CStr) (rest : List CStr) :
    (unlines (a :: rest)).length = a.length + 1 + (unlines rest).length := by
  simp [unlines]
  omega

theorem config_to_bufferf_argv_fits (l : List CStr) :
    ∀ buf : bufferf, buf.offset ≤ 4095 →
      ((config_to_bufferf_argv l buf).1 = 1 ∨ (config_to_bufferf_argv l buf).1 = 0) ∧
      ((config_to_bufferf_argv l buf).1 ≠ 0 ↔ buf.offset + (unlines l).length ≤ 4095) := by
  induction l with
  | nil =>
    intro buf hb
    simp [config_to_bufferf_argv, unlines, hb]
  | cons a rest ih =>
    intro buf hb
    rw [unlines_length_cons]
    simp only [config_to_bufferf_argv]
    by_cases hge : (a ++ ['\n']).length ≥ 4096 - buf.offset
    · have h0 : append_to_bufferf buf (a ++ ['\n']) = (0, buf) := by
        simp only [append_to_bufferf, hge, if_true]
      rw [h0]
      simp only [if_true, ne_eq, not_true_eq_false, false_iff, not_le, or_true, true_and]
      simp only [List.length_append, List.length_singleton] at hge
      omega
    · have h1 : append_to_bufferf buf (a ++ ['\n'])
          = ((a ++ ['\n']).length, { buf := buf.buf ++ (a ++ ['\n']) }) := by
        simp only [append_to_bufferf, hge, if_false]
      rw [h1]
      have hne : ¬ (a ++ ['\n']).length = 0 := by simp
      simp only [hne, if_false]
      have hoff : (({ buf := buf.buf ++ (a ++ ['\n']) } : bufferf)).offset
          = buf.offset + (a.length + 1) := by
        simp [bufferf.offset]
      simp only [List.length_append, List.length_singleton] at hge
      have hle : (({ buf := buf.buf ++ (a ++ ['\n']) } : bufferf)).offset ≤ 4095 := by
        rw [hoff]; omega
      obtain ⟨i1, i2⟩ := ih _ hle
      refine ⟨i1, ?_⟩
      rw [i2, hoff]
      constructor <;> intro h <;> omega

theorem config_to_bufferf_fits (config : config_t) :
    ((config_to_bufferf config { buf := [] }).1 = 1
      ∨ (config_to_bufferf config { buf := [] }).1 = 0) ∧
    ((config_to_bufferf config { buf := [] }).1 ≠ 0
      ↔ (unlines (config_lines config)).length ≤ 4095) := by
  rw [config_to_bufferf_eq_lines]
  have h := config_to_bufferf_argv_fits (config_lines config) { buf := [] }
    (by simp [bufferf.offset])
  simpa [bufferf.offset] using h

theorem config_to_file_of_no_fit (env : Env) (config : config_t) (fd : Int)
    (h : (config_to_bufferf config { buf := [] }).1 = 0) :
    config_to_file env config fd = (false, [.warn "Failed to write config to file" []]) := by
  simp only [config_to_file, h, ne_eq, not_true_eq_false, if_false]

theorem config_save_of_no_fit (env : Env) (config : config_t) (now : Int)
    (h : (config_to_bufferf config { buf := [] }).1 = 0) :
    (config_save env config now).1 = false ∧
    ∀ (fd : Int) (data : CStr), Event.write fd data ∉ (config_save env config now).2 := by
  unfold config_save
  cases config.file with
  | none => simp
  | some file =>
    simp only
    split
    · simp
    · split
      · simp
      · rcases hm : env.mkstemp
          (snprintf_at (env.dirname file).1 (env.dirname file).2.length
            "/event-relay.conf.XXXXXX".toList) with ⟨_ | fd, name⟩
        · simp
        · simp only [config_to_file_of_no_fit env config fd h]
          simp

theorem serialization_length_ge_root (config : config_t) :
    config.spillway_root.length ≤ (unlines (config_lines config)).length := by
  simp only [config_lines, List.cons_append, List.nil_append, unlines_length_cons,
    List.length_append]
  omega

/-! ## The claims on the persister -/

/-- C21: when the serialization fits, `config_to_bufferf` produces exactly the
text of `config_lines`: one `name = value` line for each scalar field in the
order syslog_to_stderr, tcp_send_timeout_sec, spillway_root, spill_usec,
polling_interval_millisec, sleep_after_disaster_millisec,
server_socket_rcvbuf_bytes, graphite.addr, graphite.target,
graphite.send_interval_millisec, graphite.sleep_poll_interval_millisec, then
the listener address and each forward address in list order, one per line,
and nothing else. -/
theorem serialization_is_config_lines (config : config_t)
    (h : (config_to_bufferf config { buf := [] }).1 ≠ 0) :
    (config_to_bufferf config { buf := [] }).1 = 1 ∧
    (config_to_bufferf config { buf := [] }).2.buf = unlines (config_lines config) ∧
    config_lines config
      = [ "syslog_to_stderr = ".toList ++ fmt_d config.syslog_to_stderr,
          "tcp_send_timeout_sec = ".toList ++ fmt_d config.tcp_send_timeout_sec,
          "spillway_root = ".toList ++ config.spillway_root,
          "spill_usec = ".toList ++ fmt_d config.spill_usec,
          "polling_interval_millisec = ".toList ++ fmt_d config.polling_interval_millisec,
          "sleep_after_disaster_millisec = ".toList
            ++ fmt_d config.sleep_after_disaster_millisec,
          "server_socket_rcvbuf_bytes = ".toList ++ fmt_d config.server_socket_rcvbuf_bytes,
          "graphite.addr = ".toList ++ config.graphite.addr,
          "graphite.target = ".toList ++ config.graphite.target,
          "graphite.send_interval_millisec = ".toList
            ++ fmt_d config.graphite.send_interval_millisec,
          "graphite.sleep_poll_interval_millisec = ".toList
            ++ fmt_d config.graphite.sleep_poll_interval_millisec ]
        ++ config.argv := by
  have h1 : (config_to_bufferf config { buf := [] }).1 = 1 := by
    rcases (config_to_bufferf_fits config).1 with h1 | h0
    · exact h1
    · exact absurd h0 h
  refine ⟨h1, ?_, rfl⟩
  apply config_to_bufferf_ok
  rw [← h1]

/-- Witness of C21 on the sample snapshot. -/
theorem serialization_is_config_lines_witness :
    (config_to_bufferf sample_snapshot { buf := [] }).1 ≠ 0 ∧
    (config_to_bufferf sample_snapshot { buf := [] }).2.buf
      = unlines (config_lines sample_snapshot) :=
  ⟨by set_option maxRecDepth 100000 in decide,
   (serialization_is_config_lines sample_snapshot
      (by set_option maxRecDepth 100000 in decide)).2.1⟩

/-- C27: `config_to_bufferf` succeeds if and only if the complete
serialization is at most 4095 bytes long; when it would be 4096 bytes or more,
`config_to_bufferf` fails, `config_to_file` writes nothing and only logs the
failure, and `config_save` reports failure without any `write`. -/
theorem serialization_size_limit (env : Env) (config : config_t) (now : Int) :
    ((config_to_bufferf config { buf := [] }).1 ≠ 0
      ↔ (unlines (config_lines config)).length ≤ 4095) ∧
    (4096 ≤ (unlines (config_lines config)).length →
      (config_to_bufferf config { buf := [] }).1 = 0 ∧
      (∀ fd, config_to_file env config fd
        = (false, [.warn "Failed to write config to file" []])) ∧
      (config_save env config now).1 = false ∧
      ∀ (fd : Int) (data : CStr), Event.write fd data ∉ (config_save env config now).2) := by
  refine ⟨(config_to_bufferf_fits config).2, ?_⟩
  intro hlen
  have h0 : (config_to_bufferf config { buf := [] }).1 = 0 := by
    by_contra hne
    have := (config_to_bufferf_fits config).2.mp hne
    omega
  exact ⟨h0, fun fd => config_to_file_of_no_fit env config fd h0,
    config_save_of_no_fit env config now h0⟩

/-- Witness of C27: the sample live configuration with a spill directory path
of 4096 characters. -/
theorem serialization_size_limit_witness :
    4096 ≤ (unlines (config_lines
      { sample_live with spillway_root := List.replicate 4096 'x' })).length ∧
    (config_save (sample_env none)
      { sample_live with spillway_root := List.replicate 4096 'x' } 100).1 = false :=
  have hlen : 4096 ≤ (unlines (config_lines
      { sample_live with spillway_root := List.replicate 4096 'x' })).length :=
    Nat.le_trans (Nat.le_of_eq (List.length_replicate 4096 'x').symm)
      (serialization_length_ge_root { sample_live with spillway_root := List.replicate 4096 'x' })
  ⟨hlen,
   ((serialization_size_limit (sample_env none)
      { sample_live with spillway_root := List.replicate 4096 'x' } 100).2 hlen).2.2.1⟩

/-! ## Lemmas on the bit operations -/

theorem testBit_not32 (v : Nat) (hv : v < 2 ^ 32) (i : Nat) :
    (2 ^ 32 - 1 - v).testBit i = (decide (i < 32) && !v.testBit i) := by
  have e : 2 ^ 32 - 1 - v = 2 ^ 32 - (v + 1) := by omega
  rw [e, Nat.testBit_two_pow_sub_succ hv]

theorem testBit_false_of_lt32 (c : Nat) (hc : c < 2 ^ 32) (i : Nat) (hi : ¬ i < 32) :
    c.testBit i = false := by
  apply Nat.testBit_lt_two_pow
  calc c < 2 ^ 32 := hc
    _ ≤ 2 ^ i := Nat.pow_le_pow_right (by decide) (by omega)

theorem or_and_self_right (s w : Nat) : (s ||| w) &&& w = w := by
  apply Nat.eq_of_testBit_eq
  intro i
  simp only [Nat.testBit_and, Nat.testBit_or]
  cases s.testBit i <;> cases w.testBit i <;> rfl

theorem or_or_self_right (s w : Nat) : (s ||| w) ||| w = s ||| w := by
  apply Nat.eq_of_testBit_eq
  intro i
  simp only [Nat.testBit_or]
  cases s.testBit i <;> cases w.testBit i <;> rfl

theorem and_and_self_right (s w : Nat) : (s &&& w) &&& w = s &&& w := by
  apply Nat.eq_of_testBit_eq
  intro i
  simp only [Nat.testBit_and]
  cases s.testBit i <;> cases w.testBit i <;> rfl

/-! ## The claims on the control word and on the graphite worker -/

/-- C26: for every 32-bit control word `c` and mask `v`, `set_control_bits(v)`
leaves the word equal to `c | v` and `unset_control_bits(v)` leaves it equal to
`c & ~v`: bit by bit, a bit of `v` is set by the first and cleared by the
second, and every bit outside `v` is unchanged by either; the word stays a
32-bit value; each operation is idempotent; and `get_control_val`,
`not_stopped` and `is_stopped` do not modify the word. -/
theorem control_bits_frame (c v stop : Nat) (hc : c < 2 ^ 32) (hv : v < 2 ^ 32) :
    set_control_bits v c = c ||| v ∧
    unset_control_bits v c = c &&& (2 ^ 32 - 1 - v) ∧
    (∀ i, (set_control_bits v c).testBit i = if v.testBit i then true else c.testBit i) ∧
    (∀ i, (unset_control_bits v c).testBit i = if v.testBit i then false else c.testBit i) ∧
    set_control_bits v c < 2 ^ 32 ∧
    unset_control_bits v c < 2 ^ 32 ∧
    set_control_bits v (set_control_bits v c) = set_control_bits v c ∧
    unset_control_bits v (unset_control_bits v c) = unset_control_bits v c ∧
    (get_control_val c).2 = c ∧ (get_control_val c).1 = c ∧
    (not_stopped stop c).2 = c ∧ (is_stopped stop c).2 = c := by
  have hset : ∀ i, (set_control_bits v c).testBit i
      = if v.testBit i then true else c.testBit i := by
    intro i
    simp only [set_control_bits, RELAY_ATOMIC_OR, Nat.testBit_or]
    cases v.testBit i <;> simp
  have hunset : ∀ i, (unset_control_bits v c).testBit i
      = if v.testBit i then false else c.testBit i := by
    intro i
    simp only [unset_control_bits, RELAY_ATOMIC_AND, Nat.testBit_and, testBit_not32 v hv]
    by_cases hi : i < 32
    · cases v.testBit i <;> simp [hi]
    · rw [testBit_false_of_lt32 c hc i hi]
      cases v.testBit i <;> simp
  refine ⟨rfl, rfl, hset, hunset, ?_, ?_, ?_, ?_, rfl, rfl, rfl, rfl⟩
  · exact Nat.or_lt_two_pow hc hv
  · exact Nat.lt_of_le_of_lt Nat.and_le_left hc
  · simp only [set_control_bits, RELAY_ATOMIC_OR, or_or_self_right]
  · simp only [unset_control_bits, RELAY_ATOMIC_AND, and_and_self_right]

/-- Witness of C26 on the word `0b0101` and the mask `0b0110`. -/
theorem control_bits_frame_witness :
    set_control_bits 6 5 = 7 ∧ unset_control_bits 6 5 = 1 :=
  ⟨(control_bits_frame 5 6 1 (by decide) (by decide)).1.trans (by decide),
   (control_bits_frame 5 6 1 (by decide) (by decide)).2.1.trans (by decide)⟩

/-- C24: `graphite_worker_destroy` always leaves the `WORKER_STOPPING` bit set;
when the bit was clear on entry it joins the worker thread and releases the
resources of the worker, each exactly once; when the bit was already set on
entry it returns without joining or releasing anything and leaves the
indicator as it was; so of two calls in a row on the same indicator only the
first joins and releases. -/
theorem destroy_claims_once (WORKER_STOPPING stopping : Nat) (hbit : WORKER_STOPPING ≠ 0) :
    (graphite_worker_destroy WORKER_STOPPING stopping).1 &&& WORKER_STOPPING
      = WORKER_STOPPING ∧
    (stopping &&& WORKER_STOPPING = 0 →
      (graphite_worker_destroy WORKER_STOPPING stopping).2
        = [.pthread_join, .free_arg, .fixed_buffer_destroy_path_root,
           .fixed_buffer_destroy_send_buffer, .free_worker]) ∧
    (stopping &&& WORKER_STOPPING = WORKER_STOPPING →
      graphite_worker_destroy WORKER_STOPPING stopping = (stopping, [])) ∧
    (graphite_worker_destroy WORKER_STOPPING
        (graphite_worker_destroy WORKER_STOPPING stopping).1)
      = ((graphite_worker_destroy WORKER_STOPPING stopping).1, []) := by
  have hnew : (graphite_worker_destroy WORKER_STOPPING stopping).1
      = stopping ||| WORKER_STOPPING := by
    simp only [graphite_worker_destroy, RELAY_ATOMIC_OR]
    split <;> rfl
  have hset : ∀ s, s &&& WORKER_STOPPING = WORKER_STOPPING →
      graphite_worker_destroy WORKER_STOPPING s = (s, []) := by
    intro s hs
    have hor : s ||| WORKER_STOPPING = s := by
      apply Nat.eq_of_testBit_eq
      intro i
      have := congrArg (fun n => n.testBit i) hs
      simp only [Nat.testBit_and] at this
      simp only [Nat.testBit_or]
      cases h1 : s.testBit i <;> cases h2 : WORKER_STOPPING.testBit i <;> simp_all
    simp only [graphite_worker_destroy, RELAY_ATOMIC_OR, hs, hor, ne_eq, hbit,
      not_false_eq_true, if_true]
  refine ⟨?_, ?_, hset stopping, ?_⟩
  · rw [hnew, or_and_self_right]
  · intro h0
    simp only [graphite_worker_destroy, RELAY_ATOMIC_OR, h0, ne_eq, not_true_eq_false,
      if_false]
  · apply hset
    rw [hnew, or_and_self_right]

/-- Witness of C24 with the bit `1`, on an indicator with the bit clear. -/
theorem destroy_claims_once_witness :
    (1 : Nat) ≠ 0 ∧
    graphite_worker_destroy 1 0
      = (1, [.pthread_join, .free_arg, .fixed_buffer_destroy_path_root,
             .fixed_buffer_destroy_send_buffer, .free_worker]) ∧
    graphite_worker_destroy 1 (graphite_worker_destroy 1 0).1 = (1, []) :=
  ⟨by decide, by decide, (destroy_claims_once 1 0 (by decide)).2.2.2.trans (by decide)⟩

/-! ## Lemmas on `graphite_wait` -/

theorem sleeps_wait_rounds (chunks : List (Nat × Int)) (v : Nat) :
    sleeps (wait_rounds chunks v) = chunks.map Prod.fst := by
  induction chunks with
  | nil => rfl
  | cons c rest ih => simp [wait_rounds, sleeps, ih]

theorem assigns_wait_rounds (chunks : List (Nat × Int)) (v : Nat) :
    assigns (wait_rounds chunks v) = chunks.map Prod.snd := by
  induction chunks with
  | nil => rfl
  | cons c rest ih => simp [wait_rounds, assigns, ih]

theorem ceil_div_small (w g : Nat) (h0 : 0 < w) (h : w < g) : (w + g - 1) / g = 1 := by
  apply Nat.div_eq_of_lt_le <;> omega

theorem ceil_div_zero (g : Nat) (hg : 0 < g) : (0 + g - 1) / g = 0 := by
  apply Nat.div_eq_of_lt
  omega

theorem ceil_div_step (w g : Nat) (hg : 0 < g) (h : g ≤ w) :
    (w + g - 1) / g = (w - g + g - 1) / g + 1 := by
  have e : w + g - 1 = (w - g + g - 1) + g := by omega
  rw [e, Nat.add_div_right _ hg]

theorem uint32_sub (w g : Nat) (hw : w < 2 ^ 32) (h : g ≤ w) :
    (((w : Int) - (g : Int)) % 2 ^ 32).toNat = w - g := by
  have h1 : ((w : Int) - (g : Int)) = ((w - g : Nat) : Int) := by omega
  rw [h1]
  have h2 : (((w - g : Nat) : Int) % 2 ^ 32) = ((w - g : Nat) : Int) := by
    apply Int.emod_eq_of_lt
    · omega
    · have : w - g < 2 ^ 32 := by omega
      exact_mod_cast this
  rw [h2]
  rfl

/-- The loop of `graphite_wait` returns when the bound on the iterations
exceeds `ceil(w / g)`, and its trace is a sequence of rounds. -/
theorem graphite_wait_loop_rounds (stopping : Nat → Nat) (graphite : graphite_config)
    (hg : 0 < graphite.sleep_poll_interval_millisec) :
    ∀ (fuel reads w : Nat) (tr : List WaitEvent), w < 2 ^ 32 →
      (w + graphite.sleep_poll_interval_millisec - 1)
        / graphite.sleep_poll_interval_millisec < fuel →
      ∃ (chunks : List (Nat × Int)) (v : Nat),
        graphite_wait_loop stopping graphite fuel reads w tr
          = some (tr ++ wait_rounds chunks v) ∧
        (∀ c ∈ chunks, c.1 ≤ graphite.sleep_poll_interval_millisec ∧ 0 ≤ c.2) ∧
        (∀ j, j < chunks.length → stopping (reads + j) = 0) ∧
        v = stopping (reads + chunks.length) ∧
        (chunks.map Prod.fst).sum ≤ w ∧
        chunks.length ≤ (w + graphite.sleep_poll_interval_millisec - 1)
          / graphite.sleep_poll_interval_millisec ∧
        (v = 0 → (chunks.map Prod.fst).sum = w ∧
          chunks.length = (w + graphite.sleep_poll_interval_millisec - 1)
            / graphite.sleep_poll_interval_millisec) := by
  intro fuel
  induction fuel with
  | zero => intro reads w tr _ h; exact absurd h (Nat.not_lt_zero _)
  | succ fuel ih =>
    intro reads w tr hw hfuel
    simp only [graphite_wait_loop, RELAY_ATOMIC_READ]
    by_cases hc : stopping reads = 0 ∧ w > 0
    · rw [if_pos hc]
      obtain ⟨hs, hw0⟩ := hc
      by_cases hlt : w < graphite.sleep_poll_interval_millisec
      · rw [if_pos hlt]
        have hce := ceil_div_small w _ hw0 hlt
        have hz := ceil_div_zero _ hg
        obtain ⟨chunks, v, e, p1, p2, p3, p4, p5, p6⟩ :=
          ih (reads + 1) 0 (tr ++ [.read (stopping reads)] ++ [.sleep w, .assign 0])
            (by decide) (by rw [hz]; omega)
        rw [hz] at p5
        have hnil : chunks = [] := List.length_eq_zero.mp (by omega)
        subst hnil
        refine ⟨[(w, 0)], v, ?_, ?_, ?_, ?_, ?_, ?_, ?_⟩
        · rw [e, hs]
          simp [wait_rounds]
        · intro c hcm
          simp only [List.mem_singleton] at hcm
          subst hcm
          exact ⟨Nat.le_of_lt hlt, le_refl _⟩
        · intro j hj
          simp only [List.length_singleton, Nat.lt_one_iff] at hj
          subst hj
          simpa using hs
        · simpa [Nat.add_assoc] using p3
        · simp
        · rw [hce]; simp
        · intro _
          rw [hce]
          simp
      · rw [if_neg hlt]
        have hge : graphite.sleep_poll_interval_millisec ≤ w := Nat.le_of_not_lt hlt
        have hsub := uint32_sub w _ hw hge
        have hce := ceil_div_step w _ hg hge
        rw [hsub]
        obtain ⟨chunks, v, e, p1, p2, p3, p4, p5, p6⟩ :=
          ih (reads + 1) (w - graphite.sleep_poll_interval_millisec)
            (tr ++ [.read (stopping reads)]
              ++ [.sleep graphite.sleep_poll_interval_millisec,
                  .assign ((w : Int) - graphite.sleep_poll_interval_millisec)])
            (by omega) (by rw [hce] at hfuel; omega)
        refine ⟨(graphite.sleep_poll_interval_millisec,
            (w : Int) - graphite.sleep_poll_interval_millisec) :: chunks, v,
          ?_, ?_, ?_, ?_, ?_, ?_, ?_⟩
        · rw [e, hs]
          simp [wait_rounds]
        · intro c hcm
          rcases List.mem_cons.mp hcm with hcm | hcm
          · subst hcm
            exact ⟨le_refl _, by simp only; omega⟩
          · exact p1 c hcm
        · intro j hj
          cases j with
          | zero => simpa using hs
          | succ j =>
            have := p2 j (by simpa using hj)
            rw [← this]
            congr 1
            omega
        · rw [p3]
          congr 1
          simp only [List.length_cons]
          omega
        · simp only [List.map_cons, List.sum_cons]
          omega
        · rw [hce]
          simp only [List.length_cons]
          omega
        · intro hv
          obtain ⟨q1, q2⟩ := p6 hv
          rw [hce]
          simp only [List.map_cons, List.sum_cons, List.length_cons]
          omega
    · rw [if_neg hc]
      refine ⟨[], stopping reads, ?_, ?_, ?_, ?_, ?_, ?_, ?_⟩
      · simp [wait_rounds]
      · intro c hcm; simp at hcm
      · intro j hj; simp at hj
      · simp
      · simp
      · simp
      · intro hv
        have hw0 : w = 0 := by
          by_contra hne
          exact hc ⟨hv, Nat.pos_of_ne_zero hne⟩
        subst hw0
        rw [ceil_div_zero _ hg]
        simp

theorem sum_le_of_length_le_one (l : List Nat) (g : Nat) (hlen : l.length ≤ 1)
    (hall : ∀ s ∈ l, s ≤ g) : l.sum ≤ g := by
  match l, hlen, hall with
  | [], _, _ => simp
  | [a], _, hall => simpa using hall a (by simp)
  | _ :: _ :: _, hlen, _ => simp at hlen

/-! ## The claims on `graphite_wait` -/

/-- C22: for every send interval `T` and every poll granularity `g > 0` (both
32-bit values), when the stop flag stays clear `graphite_wait` returns after
exactly `ceil(T / g)` sleeps, every sleep is at most `g` milliseconds, the
sleep lengths sum to exactly `T`, and no assignment to the remaining-time
counter is negative before it is reduced to 32 bits (the counter never
underflows). -/
theorem wait_chunking (stopping : Nat → Nat) (graphite : graphite_config) (fuel : Nat)
    (hg : 0 < graphite.sleep_poll_interval_millisec)
    (hT : graphite.send_interval_millisec < 2 ^ 32)
    (hclear : ∀ i, stopping i = 0)
    (hfuel : (graphite.send_interval_millisec + graphite.sleep_poll_interval_millisec - 1)
      / graphite.sleep_poll_interval_millisec < fuel) :
    ∃ tr, graphite_wait stopping graphite fuel = some tr ∧
      (sleeps tr).length
        = (graphite.send_interval_millisec + graphite.sleep_poll_interval_millisec - 1)
          / graphite.sleep_poll_interval_millisec ∧
      (∀ s ∈ sleeps tr, s ≤ graphite.sleep_poll_interval_millisec) ∧
      (sleeps tr).sum = graphite.send_interval_millisec ∧
      (∀ e ∈ assigns tr, 0 ≤ e) := by
  obtain ⟨chunks, v, e, p1, _, p3, _, _, p6⟩ :=
    graphite_wait_loop_rounds stopping graphite hg fuel 0 graphite.send_interval_millisec []
      hT hfuel
  have hv : v = 0 := by rw [p3]; exact hclear _
  obtain ⟨q1, q2⟩ := p6 hv
  refine ⟨wait_rounds chunks v, by simpa [graphite_wait] using e, ?_, ?_, ?_, ?_⟩
  · rw [sleeps_wait_rounds, List.length_map, q2]
  · intro s hs
    rw [sleeps_wait_rounds] at hs
    obtain ⟨c, hc, rfl⟩ := List.mem_map.mp hs
    exact (p1 c hc).1
  · rw [sleeps_wait_rounds, q1]
  · intro x hx
    rw [assigns_wait_rounds] at hx
    obtain ⟨c, hc, rfl⟩ := List.mem_map.mp hx
    exact (p1 c hc).2

/-- Witness of C22: a wait of 60000 ms in chunks of 1000 ms makes 60 sleeps. -/
theorem wait_chunking_witness :
    ∃ tr, graphite_wait (fun _ => 0) sample_graphite 61 = some tr ∧
      (sleeps tr).length = 60 ∧ (sleeps tr).sum = 60000 := by
  obtain ⟨tr, h1, h2, _, h4, _⟩ :=
    wait_chunking (fun _ => 0) sample_graphite 61 (by decide) (by decide) (fun _ => rfl)
      (by decide)
  exact ⟨tr, h1, h2, h4⟩

/-- C23: `graphite_wait` returns, and its trace is a sequence of rounds, each
made of a read of the stop flag that finds it clear, one sleep of at most the
granularity and the update of the counter, followed by one last read: the
flag is read again before every sleep and no sleep follows a read that finds
it set. So when the read number `k` finds the flag set, at most `k` sleeps
were started, and the sleeps started after the read number `k - 1`, the last
one that can have missed the request, last at most the granularity in
total. -/
theorem wait_stops_within_one_chunk (stopping : Nat → Nat) (graphite : graphite_config)
    (fuel : Nat)
    (hg : 0 < graphite.sleep_poll_interval_millisec)
    (hT : graphite.send_interval_millisec < 2 ^ 32)
    (hfuel : (graphite.send_interval_millisec + graphite.sleep_poll_interval_millisec - 1)
      / graphite.sleep_poll_interval_millisec < fuel) :
    ∃ (chunks : List (Nat × Int)) (v : Nat),
      graphite_wait stopping graphite fuel = some (wait_rounds chunks v) ∧
      (∀ c ∈ chunks, c.1 ≤ graphite.sleep_poll_interval_millisec) ∧
      (∀ j, j < chunks.length → stopping j = 0) ∧
      v = stopping chunks.length ∧
      (∀ k, stopping k ≠ 0 →
        (sleeps (wait_rounds chunks v)).length ≤ k ∧
        ((sleeps (wait_rounds chunks v)).drop (k - 1)).sum
          ≤ graphite.sleep_poll_interval_millisec) := by
  obtain ⟨chunks, v, e, p1, p2, p3, _, _, _⟩ :=
    graphite_wait_loop_rounds stopping graphite hg fuel 0 graphite.send_interval_millisec []
      hT hfuel
  refine ⟨chunks, v, by simpa [graphite_wait] using e, fun c hc => (p1 c hc).1, ?_, ?_, ?_⟩
  · intro j hj
    simpa using p2 j hj
  · simpa using p3
  · intro k hk
    have hlen : chunks.length ≤ k := by
      by_contra hlt
      exact hk (by simpa using p2 k (by omega))
    rw [sleeps_wait_rounds]
    refine ⟨by simpa using hlen, ?_⟩
    apply sum_le_of_length_le_one
    · simp only [List.length_drop, List.length_map]
      omega
    · intro s hs
      obtain ⟨c, hc, rfl⟩ := List.mem_map.mp (List.mem_of_mem_drop hs)
      exact (p1 c hc).1

/-- Witness of C23: a wait of 60000 ms in chunks of 1000 ms, with a stop
request that the fourth read of the flag is the first to see; the sleeps
started after the third read last at most 1000 ms. -/
theorem wait_stops_within_one_chunk_witness :
    ∃ (chunks : List (Nat × Int)) (v : Nat),
      graphite_wait (fun i => if i < 3 then 0 else 1) sample_graphite 61
        = some (wait_rounds chunks v) ∧
      (sleeps (wait_rounds chunks v)).length ≤ 3 ∧
      ((sleeps (wait_rounds chunks v)).drop 2).sum ≤ 1000 := by
  obtain ⟨chunks, v, h1, _, _, _, h5⟩ :=
    wait_stops_within_one_chunk (fun i => if i < 3 then 0 else 1) sample_graphite 61
      (by decide) (by decide) (by decide)
  exact ⟨chunks, v, h1, (h5 3 (by decide)).1, (h5 3 (by decide)).2⟩

/-! ## Lemmas on `strtol` -/

theorem digits_value_nil (a : Nat) : digits_value a [] = a := rfl

theorem digits_value_cons (a : Nat) (c : Char) (cs : List Char) :
    digits_value a (c :: cs) = digits_value (a * 10 + (c.toNat - 48)) cs := rfl

theorem digits_value_append (xs ys : List Char) :
    ∀ a, digits_value a (xs ++ ys) = digits_value (digits_value a xs) ys := by
  induction xs with
  | nil => intro a; rw [digits_value_nil, List.nil_append]
  | cons x xs ih =>
    intro a
    rw [List.cons_append, digits_value_cons, digits_value_cons, ih]

theorem digitChar_value : ∀ d, d < 10 → (Nat.digitChar d).toNat - 48 = d := by
  intro d hd
  interval_cases d <;> rfl

theorem toDigitsCore_acc (fuel : Nat) :
    ∀ (n : Nat) (acc : List Char),
      Nat.toDigitsCore 10 fuel n acc = Nat.toDigitsCore 10 fuel n [] ++ acc := by
  induction fuel with
  | zero => intro n acc; simp [Nat.toDigitsCore]
  | succ f ih =>
    intro n acc
    simp only [Nat.toDigitsCore]
    split
    · simp
    · rw [ih _ (Nat.digitChar (n % 10) :: acc), ih _ [Nat.digitChar (n % 10)]]
      simp

theorem digits_value_toDigitsCore (fuel : Nat) :
    ∀ n, n < fuel → digits_value 0 (Nat.toDigitsCore 10 fuel n []) = n := by
  induction fuel with
  | zero => intro n h; omega
  | succ f ih =>
    intro n hn
    have hd := digitChar_value (n % 10) (Nat.mod_lt _ (by decide))
    simp only [Nat.toDigitsCore]
    split
    · rename_i h0
      rw [digits_value_cons, digits_value_nil, hd]
      omega
    · rename_i h0
      rw [toDigitsCore_acc, digits_value_append, ih (n / 10) (by omega), digits_value_cons,
        digits_value_nil, hd]
      omega

theorem digits_value_decimal (n : Nat) : digits_value 0 (decimal n) = n :=
  digits_value_toDigitsCore (n + 1) n (by omega)

theorem isdigit_not_space (c : Char) (h : isdigit c = true) :
    isspace c = false ∧ c ≠ '-' ∧ c ≠ '+' := by
  simp only [isdigit, Bool.and_eq_true, decide_eq_true_eq] at h
  refine ⟨?_, ?_, ?_⟩
  · simp only [isspace, Bool.or_eq_false_iff, decide_eq_false_iff_not, Bool.and_eq_false_imp,
      decide_eq_true_eq]
    omega
  · rintro rfl
    revert h
    decide
  · rintro rfl
    revert h
    decide

theorem strtol_decimal (n : Nat) :
    strtol (decimal n) = (max LONG_MIN (min LONG_MAX (n : Int)), []) := by
  obtain ⟨c, t, hct⟩ := List.exists_cons_of_ne_nil (decimal_ne_nil n)
  have hc : isdigit c = true := decimal_isdigit n c (by rw [hct]; simp)
  obtain ⟨hs, hm, hp⟩ := isdigit_not_space c hc
  have hq : (decimal n).dropWhile isspace = decimal n := by
    rw [hct, List.dropWhile_cons_of_neg (by simp [hs])]
  have hh : ¬ ((decimal n).head? = some '-' ∨ (decimal n).head? = some '+') := by
    rw [hct]
    simp [hm, hp]
  have hh2 : ¬ (decimal n).head? = some '-' := fun h => hh (Or.inl h)
  have htw : (decimal n).takeWhile isdigit = decimal n :=
    List.takeWhile_eq_self_iff.mpr (decimal_isdigit n)
  have hdw : (decimal n).dropWhile isdigit = [] :=
    List.dropWhile_eq_nil_iff.mpr (decimal_isdigit n)
  simp only [strtol, hq, if_neg hh, htw, hdw, decimal_ne_nil, if_false, digits_value_decimal]
  simp only [hh2, decide_False, Bool.false_eq_true, if_false]

theorem strtol_neg_decimal (n : Nat) :
    strtol ('-' :: decimal n) = (max LONG_MIN (min LONG_MAX (-(n : Int))), []) := by
  have hq : ('-' :: decimal n).dropWhile isspace = '-' :: decimal n := by
    rw [List.dropWhile_cons_of_neg (by decide)]
  have htw : (decimal n).takeWhile isdigit = decimal n :=
    List.takeWhile_eq_self_iff.mpr (decimal_isdigit n)
  have hdw : (decimal n).dropWhile isdigit = [] :=
    List.dropWhile_eq_nil_iff.mpr (decimal_isdigit n)
  simp only [strtol, hq, List.head?_cons, true_or, if_true, List.tail_cons, htw, hdw,
    decimal_ne_nil, if_false, decide_True, digits_value_decimal]

theorem strtol_fmt_ld (v : Int) (h1 : LONG_MIN ≤ v) (h2 : v ≤ LONG_MAX) :
    strtol (fmt_ld v) = (v, []) := by
  unfold fmt_ld
  by_cases hv : v < 0
  · rw [if_pos hv, strtol_neg_decimal]
    have e : -((v.natAbs : Nat) : Int) = v := by omega
    rw [e, min_eq_right h2, max_eq_right h1]
  · rw [if_neg hv, strtol_decimal]
    have e : ((v.natAbs : Nat) : Int) = v := by omega
    rw [e, min_eq_right h2, max_eq_right h1]

theorem strtol_rest_ne_nil (p : CStr) (hp : p ≠ []) (hbad : decimal_integer_text p = false) :
    (strtol p).2 ≠ [] := by
  intro hrest
  simp only [strtol] at hrest
  by_cases hds : List.takeWhile isdigit
      (if (p.dropWhile isspace).head? = some '-' ∨ (p.dropWhile isspace).head? = some '+'
        then (p.dropWhile isspace).tail else p.dropWhile isspace) = []
  · rw [if_pos hds] at hrest
    exact hp hrest
  · rw [if_neg hds] at hrest
    apply Bool.eq_false_iff.mp hbad
    have hr : (if (p.dropWhile isspace).head? = some '-' ∨ (p.dropWhile isspace).head? = some '+'
        then (p.dropWhile isspace).tail else p.dropWhile isspace)
        = (match p.dropWhile isspace with
            | '-' :: t => t
            | '+' :: t => t
            | _ => p.dropWhile isspace) := by
      rcases p.dropWhile isspace with _ | ⟨c, t⟩
      · simp
      · by_cases h1 : c = '-'
        · subst h1; simp
        · by_cases h2 : c = '+'
          · subst h2; simp
          · simp [h1, h2]
    unfold decimal_integer_text
    simp only
    rw [← hr]
    have hall := List.dropWhile_eq_nil_iff.mp hrest
    simp only [Bool.and_eq_true, Bool.not_eq_true', List.isEmpty_eq_false, List.all_eq_true]
    refine ⟨?_, hall⟩
    intro hnil
    apply hds
    rw [hnil]
    rfl

/-! ## Lemmas on an assignment line -/

theorem strchr_assignment (key p : CStr) (hk : '=' ∉ key) :
    strchr (key ++ '=' :: p) '=' = some ('=' :: p) ∧ cut_at '=' (key ++ '=' :: p) = key := by
  induction key with
  | nil => simp [strchr, cut_at]
  | cons c rest ih =>
    have hc : c ≠ '=' := fun h => hk (by simp [h])
    have hr : '=' ∉ rest := fun h => hk (by simp [h])
    obtain ⟨i1, i2⟩ := ih hr
    constructor
    · unfold strchr at i1 ⊢
      simpa [hc] using i1
    · unfold cut_at at i2 ⊢
      simpa [hc] using i2

theorem try_opt_unparsable (key p : CStr) (config : config_t)
    (hkey : key ∈ numeric_option_names) (h : (strtol p).2 ≠ []) :
    try_opt key p config
      = some (config, [.warn "Ignoring strange config value %s=%s" [.str key, .str p]]) := by
  simp only [numeric_option_names, List.mem_cons, List.mem_singleton, List.not_mem_nil,
    or_false] at hkey
  rcases hkey with rfl | rfl | rfl | rfl | rfl | rfl | rfl | rfl <;>
    simp [try_opt, TRY_NUM_OPT, TRY_STR_OPT, STREQ, h]

theorem numeric_option_names_no_eq : ∀ key ∈ numeric_option_names, '=' ∉ key := by decide

/-! ## The claims on numeric assignments -/

/-- C28 (counterexample): the empty text is not a decimal integer, and a source
whose line `tcp_send_timeout_sec=` gives a numeric field the empty value is
rejected by `config_from_file`, although the same source loads when the line
is left empty. Besides, a value with a blank before the digits is read by
`strtol` as a number: `tcp_send_timeout_sec= 30` sets the field to 30. -/
theorem empty_numeric_value_rejects_load :
    decimal_integer_text [] = false ∧
    config_from_file (sample_env (some (source_with_line "tcp_send_timeout_sec=")))
      sample_defaults (some sample_file) = none ∧
    (config_from_file (sample_env (some (source_with_line "")))
      sample_defaults (some sample_file)).isSome = true ∧
    (config_from_file (sample_env (some (source_with_line "tcp_send_timeout_sec= 30")))
      sample_defaults (some sample_file)).map (fun c => c.tcp_send_timeout_sec)
      = some 30 := by
  refine ⟨by decide, ?_, ?_, ?_⟩
  · set_option maxRecDepth 100000 in decide
  · set_option maxRecDepth 100000 in decide
  · set_option maxRecDepth 100000 in decide

/-- C28 (amended): for every recognized numeric field name and every non-empty
value text that `strtol` does not read entirely as a decimal integer (optional
white space, optional sign, digits), the loader only logs a warning for the
line: it goes on with the lines that follow, with the configuration it had
before the line, so the field keeps its value and the line does not reject the
load. -/
theorem unparsable_number_is_ignored (file : CStr) (line_num : Nat) (raw : List Char)
    (more : List (List Char)) (config : config_t) (tr : List Event) (key p : CStr)
    (hkey : key ∈ numeric_option_names) (hline : clean_line raw = key ++ '=' :: p)
    (hp : p ≠ []) (hbad : decimal_integer_text p = false) :
    config_from_file_loop file line_num (raw :: more) config tr
      = config_from_file_loop file (line_num + 1) more config
          (tr ++ [.warn "Ignoring strange config value %s=%s" [.str key, .str p]]) := by
  obtain ⟨h1, h2⟩ := strchr_assignment key p (numeric_option_names_no_eq key hkey)
  have h3 := try_opt_unparsable key p config hkey (strtol_rest_ne_nil p hp hbad)
  have hne : key ++ '=' :: p ≠ [] := by simp
  have hlen : ¬ ('=' :: p).length = 1 := by
    simp only [List.length_cons, add_left_eq_self, List.length_eq_zero]
    exact hp
  rw [config_from_file_loop]
  simp only [hline, hne, if_false, h1, hlen, h2, List.tail_cons, h3]

/-- Witness of C28 (amended): the line `tcp_send_timeout_sec=30s`. -/
theorem unparsable_number_is_ignored_witness :
    decimal_integer_text "30s".toList = false ∧
    config_from_file_loop sample_file 0 ["tcp_send_timeout_sec=30s\n".toList] sample_live []
      = (some sample_live,
          [.warn "Ignoring strange config value %s=%s"
            [.str "tcp_send_timeout_sec".toList, .str "30s".toList]]) :=
  ⟨by decide,
   (unparsable_number_is_ignored sample_file 0 "tcp_send_timeout_sec=30s\n".toList []
      sample_live [] "tcp_send_timeout_sec".toList "30s".toList (by decide) (by decide)
      (by decide) (by decide)).trans (by simp [config_from_file_loop])⟩

/-- C29 (counterexample): negative values pass the range rules. The source line
`server_socket_rcvbuf_bytes=-4096` is accepted, with the field set to
4294963200, and `tcp_send_timeout_sec=-4294967295` is accepted, with the field
set to 1; and a value beyond the range of `long` is not seen modulo `2^32`:
18446744073709551617 is congruent to 1 but is seen as 4294967295 and
rejected. -/
theorem negative_values_pass_validation :
    (config_from_file
        (sample_env (some (source_with_line "server_socket_rcvbuf_bytes=-4096")))
        sample_defaults (some sample_file)).map (fun c => c.server_socket_rcvbuf_bytes)
      = some 4294963200 ∧
    (config_from_file
        (sample_env (some (source_with_line "tcp_send_timeout_sec=-4294967295")))
        sample_defaults (some sample_file)).map (fun c => c.tcp_send_timeout_sec)
      = some 1 ∧
    to_uint32 (strtol "18446744073709551617".toList).1 = 4294967295 ∧
    config_from_file
        (sample_env (some (source_with_line "tcp_send_timeout_sec=18446744073709551617")))
        sample_defaults (some sample_file)
      = none := by
  refine ⟨?_, ?_, ?_, ?_⟩
  · set_option maxRecDepth 100000 in decide
  · set_option maxRecDepth 100000 in decide
  · set_option maxRecDepth 100000 in decide
  · set_option maxRecDepth 100000 in decide

/-- C29 (amended): for every decimal integer `v` in the range of `long` written
as the value of a numeric assignment, the field receives `v` modulo `2^32`,
which is what the validators see. So a negative `v` above `1000000 - 2^32` is
rejected by the second, millisecond and microsecond rules, while any `v`,
negative or not, that is congruent to an in-range value passes: the buffer
size rule accepts `v` exactly when `v` modulo `2^32` is a multiple of 4096 and
at least 1048576. -/
theorem numeric_assignment_is_truncated (name : String) (set : config_t → Nat → config_t)
    (config : config_t) (v : Int) (h1 : LONG_MIN ≤ v) (h2 : v ≤ LONG_MAX) :
    TRY_NUM_OPT name set name.toList (fmt_ld v) config
      = some (set config (to_uint32 v), []) ∧
    ((to_uint32 v : Nat) : Int) = v % 2 ^ 32 ∧
    (v < 0 → 1000000 - 2 ^ 32 < v →
      is_valid_sec (to_uint32 v) = false ∧ is_valid_millisec (to_uint32 v) = false ∧
      is_valid_microsec (to_uint32 v) = false) ∧
    (is_valid_sec (to_uint32 v) = true ↔ 0 < v % 2 ^ 32 ∧ v % 2 ^ 32 ≤ 60) ∧
    (is_valid_millisec (to_uint32 v) = true ↔ 0 < v % 2 ^ 32 ∧ v % 2 ^ 32 ≤ 1000000) ∧
    (is_valid_microsec (to_uint32 v) = true ↔ 0 < v % 2 ^ 32 ∧ v % 2 ^ 32 ≤ 1000000) ∧
    (is_valid_buffer_size (to_uint32 v) = true
      ↔ (v % 2 ^ 32) % 4096 = 0 ∧ 1048576 ≤ v % 2 ^ 32) := by
  have hcast : ((to_uint32 v : Nat) : Int) = v % 2 ^ 32 :=
    Int.toNat_of_nonneg (Int.emod_nonneg _ (by norm_num))
  have hsec : is_valid_sec (to_uint32 v) = true ↔ 0 < v % 2 ^ 32 ∧ v % 2 ^ 32 ≤ 60 := by
    rw [← hcast]
    simp [is_valid_sec]
  have hms : is_valid_millisec (to_uint32 v) = true
      ↔ 0 < v % 2 ^ 32 ∧ v % 2 ^ 32 ≤ 1000000 := by
    rw [← hcast]
    simp [is_valid_millisec]
  have hus : is_valid_microsec (to_uint32 v) = true
      ↔ 0 < v % 2 ^ 32 ∧ v % 2 ^ 32 ≤ 1000000 := by
    rw [← hcast]
    simp [is_valid_microsec]
  refine ⟨?_, hcast, ?_, hsec, hms, hus, ?_⟩
  · simp only [TRY_NUM_OPT, STREQ, beq_self_eq_true, if_true, strtol_fmt_ld v h1 h2]
  · intro hneg hlow
    have hmod : v % 2 ^ 32 = v + 2 ^ 32 := by
      have e : (2 : Int) ^ 32 = 4294967296 := by norm_num
      rw [e] at hlow ⊢
      omega
    have hbig : ¬ (v % 2 ^ 32 ≤ 1000000) := by rw [hmod]; omega
    have hbig2 : ¬ (v % 2 ^ 32 ≤ 60) := fun h => hbig (le_trans h (by norm_num))
    refine ⟨?_, ?_, ?_⟩
    · exact Bool.eq_false_iff.mpr (fun h => hbig2 (hsec.mp h).2)
    · exact Bool.eq_false_iff.mpr (fun h => hbig (hms.mp h).2)
    · exact Bool.eq_false_iff.mpr (fun h => hbig (hus.mp h).2)
  · unfold is_valid_buffer_size
    have hm : to_uint32 v &&& 4095 = to_uint32 v % 4096 :=
      Nat.and_pow_two_sub_one_eq_mod (to_uint32 v) 12
    have hs : (1 <<< 20 : Nat) = 1048576 := by decide
    rw [hm, hs, ← hcast]
    simp only [Bool.and_eq_true, decide_eq_true_eq]
    constructor
    · rintro ⟨a, b⟩
      exact ⟨by exact_mod_cast a, by exact_mod_cast b⟩
    · rintro ⟨a, b⟩
      exact ⟨by exact_mod_cast a, by exact_mod_cast b⟩

/-- Witness of C29 (amended): `tcp_send_timeout_sec=4294967297` is seen as 1
and passes the rule for seconds. -/
theorem numeric_assignment_is_truncated_witness :
    LONG_MIN ≤ 4294967297 ∧ (4294967297 : Int) ≤ LONG_MAX ∧
    TRY_NUM_OPT "tcp_send_timeout_sec" (fun c v => { c with tcp_send_timeout_sec := v })
        "tcp_send_timeout_sec".toList "4294967297".toList sample_live
      = some ({ sample_live with tcp_send_timeout_sec := 1 }, []) ∧
    is_valid_sec (to_uint32 4294967297) = true :=
  ⟨by decide, by decide,
   (numeric_assignment_is_truncated "tcp_send_timeout_sec"
      (fun c v => { c with tcp_send_timeout_sec := v }) sample_live 4294967297
      (by decide) (by decide)).1.trans (by decide),
   by decide⟩

/-! ## Lemmas on `graphite_build` -/

/-- Apart from a format that does not fit its 256 bytes, only the `mallinfo`
block makes `graphite_build` return 0: whatever happens in the loop over the
pool, the value returned is 1 when that block is not run. -/
theorem graphite_build_ret_without_mallinfo (env : GraphiteEnv) (path_root : CStr)
    (workers : List socket_worker_t) (buffer : fixed_buffer_t) (this_epoch : Nat)
    (hblobs : (sprintf "%s.blobs.%%s %%ld %lu\n".toList
      [.str path_root, .num this_epoch]).length < 256)
    (hbuckets : (sprintf "%s.buckets.log2_%%d %%ld %lu\n".toList
      [.str path_root, .num this_epoch]).length < 256)
    (hmem : ¬ (env.HAVE_MALLINFO = true ∧ env.style = .SYSTEM_MALLOC)) :
    (graphite_build env path_root workers buffer this_epoch).ret = 1 := by
  have h1 : ¬ (sprintf "%s.blobs.%%s %%ld %lu\n".toList
      [.str path_root, .num this_epoch]).length ≥ 256 := by omega
  have h2 : ¬ (env.blob_total_ored_buckets ≠ 0 ∧ (sprintf "%s.buckets.log2_%%d %%ld %lu\n".toList
      [.str path_root, .num this_epoch]).length ≥ 256) := by
    rintro ⟨_, h⟩
    omega
  have h3 : ¬ (env.HAVE_MALLINFO = true ∧ env.style = .SYSTEM_MALLOC
      ∧ (sprintf "%s.mallinfo.%%s %%d %lu\n".toList
        [.str path_root, .num this_epoch]).length ≥ FORMAT_BUFFER_SIZE) := by
    rintro ⟨a, b, _⟩
    exact hmem ⟨a, b⟩
  simp only [graphite_build, if_neg h1, if_neg h2, graphite_build_memory, if_neg h3,
    if_neg hmem, one_ne_zero, if_false]

/-! ## The claim on the overflow of the send buffer -/

/-- C25: with a send buffer of 100 bytes and one forwarding worker under the
root `r.h`, the fourth append of `graphite_build_worker` does not fit and
`graphite_build_worker` returns 0 (without the warning of a format that does
not fit), yet `graphite_build` returns 1 after its warning, and the pass
through the worker loop writes the three lines that did fit to the socket. -/
theorem worker_overflow_still_sends :
    (graphite_build_worker "r.h".toList sample_worker (fixed_buffer_reset sample_send_buffer)
      1).ret = 0 ∧
    (graphite_build_worker "r.h".toList sample_worker (fixed_buffer_reset sample_send_buffer)
      1).trace = [] ∧
    (graphite_build sample_graphite_env "r.h".toList [sample_worker] sample_send_buffer
      1).ret = 1 ∧
    (graphite_worker_cycle sample_graphite_env "r.h".toList [sample_worker] sample_send_buffer
      1 none).outcome = .sent ∧
    (graphite_worker_cycle sample_graphite_env "r.h".toList [sample_worker] sample_send_buffer
      1 none).trace
      = [ .lock, .warn "Failed to build graphite buffer", .unlock,
          .write 7
            "r.h.received.count 12 1\nr.h.received.loadavg_1 3 1\nr.h.received.loadavg_5 2 1\n".toList ] := by
  refine ⟨?_, ?_, ?_, ?_, ?_⟩
  · set_option maxRecDepth 100000 in decide
  · set_option maxRecDepth 100000 in decide
  · set_option maxRecDepth 100000 in decide
  · set_option maxRecDepth 100000 in decide
  · set_option maxRecDepth 100000 in decide

end Relay
